import Mathlib

/-!
Verification of the CHIP-8 emulator core (`src/command.rs`, `src/instruction.rs`,
`src/emulator.rs`, `src/memory.rs`, `src/display.rs`, `src/keyboard.rs`).

Shallow embedding conventions:
* Machine integers (`u8`, `u16`, `usize`) are `Nat` with explicit `% 256` /
  `% 65536` at the operations that wrap in the source.
* Rust constructs that abort the process (`panic!`, `expect`, out-of-bounds
  indexing and slicing) are modelled by the `Panic` error type; a function that
  can abort returns `Except Panic _`, with `Except.error` standing for the
  process abort (not for a recoverable `Result`: the source functions embedded
  here do not return `Result`).
* `rand::thread_rng().gen::<u8>()` is modelled by an extra `rand : Nat`
  argument; the sampled byte is `rand % 256`.
-/

/-- Decidable equality for `Except`, used to evaluate decoder results. -/
instance {ε α : Type} [DecidableEq ε] [DecidableEq α] : DecidableEq (Except ε α) := fun a b =>
  match a, b with
  | .error e, .error f => decidable_of_iff (e = f) (by simp)
  | .error _, .ok _ => .isFalse (by simp)
  | .ok _, .error _ => .isFalse (by simp)
  | .ok a, .ok b => decidable_of_iff (a = b) (by simp)

/-- Abort conditions of the source: each constructor corresponds to one
`panic!`/`expect`/indexing failure in the Rust code.  An `Except.error` carrying
a `Panic` models a process abort, not a returned error value. -/
inductive Panic where
  /-- `panic!("Unknown instruction 0x{...}", instruction)` in `Emulator::tick`
  (the offending word is carried, as it is formatted into the message). -/
  | unknownInstruction (word : Nat)
  /-- `self.stack.pop().expect("No subroutine to return from")` in `Emulator::ret`. -/
  | noSubroutineToReturnFrom
  /-- `panic!("Unsupported key {}", value)` in `Key::from`. -/
  | unsupportedKey (value : Nat)
  /-- `panic!("No sprite for digit {}", digit)` in `Memory::calculate_digit_offset`. -/
  | noSpriteForDigit (digit : Nat)
  /-- Out-of-bounds array indexing or slicing of the 4096-byte memory. -/
  | indexOutOfBounds
  deriving DecidableEq

/-! ## `src/command.rs` -/

/-- Chip-8 commands from Cowgod's Technical Reference (`enum Command`). -/
inductive Command where
  | Cls
  | Ret
  | Jp (addr : Nat)
  | Call (addr : Nat)
  | SeV (vx : Nat) (byte : Nat)
  | SneV (vx : Nat) (byte : Nat)
  | SeVV (vx : Nat) (vy : Nat)
  | LdV (vx : Nat) (byte : Nat)
  | AddV (vx : Nat) (byte : Nat)
  | LdVV (vx : Nat) (vy : Nat)
  | OrVV (vx : Nat) (vy : Nat)
  | AndVV (vx : Nat) (vy : Nat)
  | XorVV (vx : Nat) (vy : Nat)
  | AddVV (vx : Nat) (vy : Nat)
  | SubVV (vx : Nat) (vy : Nat)
  | ShrVV (vx : Nat) (vy : Nat)
  | SubnVV (vx : Nat) (vy : Nat)
  | ShlVV (vx : Nat) (vy : Nat)
  | SneVV (vx : Nat) (vy : Nat)
  | LdI (addr : Nat)
  | JpV0 (addr : Nat)
  | RndV (vx : Nat) (byte : Nat)
  | DrwVV (vx : Nat) (vy : Nat) (n : Nat)
  | SkpV (vx : Nat)
  | SknpV (vx : Nat)
  | LdVDt (vx : Nat)
  | LdVK (vx : Nat)
  | LdDtV (vx : Nat)
  | LdStV (vx : Nat)
  | AddIV (vx : Nat)
  | LdFV (vx : Nat)
  | LdBV (vx : Nat)
  | LdIV (vx : Nat)
  | LdVI (vx : Nat)
  deriving DecidableEq

/-- Decoder `impl TryFrom<u16> for Command` (`src/command.rs`).  The Rust error type is
`&'static str`; every failing arm returns the same literal `"Unknown command"`,
embedded here as `Except.error "Unknown command"`.  The guarded match arms
(`0x5000..=0x5FFF if value % 0x10 == 0`, likewise for `0x9...`) fall through to
the catch-all `_ => Err("Unknown command")` when the guard fails, which the
nested `if` below reproduces. -/
def Command.try_from (value : Nat) : Except String Command :=
  if value = 0x00E0 then .ok .Cls
  else if value = 0x00EE then .ok .Ret
  else if 0x1000 ≤ value ∧ value ≤ 0x1FFF then
    .ok (.Jp (value &&& 0x0FFF))
  else if 0x2000 ≤ value ∧ value ≤ 0x2FFF then
    .ok (.Call (value &&& 0x0FFF))
  else if 0x3000 ≤ value ∧ value ≤ 0x3FFF then
    .ok (.SeV ((value >>> 8) &&& 0x0F) (value &&& 0x00FF))
  else if 0x4000 ≤ value ∧ value ≤ 0x4FFF then
    .ok (.SneV ((value >>> 8) &&& 0x0F) (value &&& 0x00FF))
  else if 0x5000 ≤ value ∧ value ≤ 0x5FFF ∧ value % 0x10 = 0 then
    .ok (.SeVV ((value >>> 8) &&& 0x0F) ((value >>> 4) &&& 0x0F))
  else if 0x6000 ≤ value ∧ value ≤ 0x6FFF then
    .ok (.LdV ((value >>> 8) &&& 0x0F) (value &&& 0x00FF))
  else if 0x7000 ≤ value ∧ value ≤ 0x7FFF then
    .ok (.AddV ((value >>> 8) &&& 0x0F) (value &&& 0x00FF))
  else if 0x8000 ≤ value ∧ value ≤ 0x8FFF then
    if value % 0x10 = 0x0 then .ok (.LdVV ((value >>> 8) &&& 0x0F) ((value >>> 4) &&& 0x0F))
    else if value % 0x10 = 0x1 then .ok (.OrVV ((value >>> 8) &&& 0x0F) ((value >>> 4) &&& 0x0F))
    else if value % 0x10 = 0x2 then .ok (.AndVV ((value >>> 8) &&& 0x0F) ((value >>> 4) &&& 0x0F))
    else if value % 0x10 = 0x3 then .ok (.XorVV ((value >>> 8) &&& 0x0F) ((value >>> 4) &&& 0x0F))
    else if value % 0x10 = 0x4 then .ok (.AddVV ((value >>> 8) &&& 0x0F) ((value >>> 4) &&& 0x0F))
    else if value % 0x10 = 0x5 then .ok (.SubVV ((value >>> 8) &&& 0x0F) ((value >>> 4) &&& 0x0F))
    else if value % 0x10 = 0x6 then .ok (.ShrVV ((value >>> 8) &&& 0x0F) ((value >>> 4) &&& 0x0F))
    else if value % 0x10 = 0x7 then .ok (.SubnVV ((value >>> 8) &&& 0x0F) ((value >>> 4) &&& 0x0F))
    else if value % 0x10 = 0xE then .ok (.ShlVV ((value >>> 8) &&& 0x0F) ((value >>> 4) &&& 0x0F))
    else .error "Unknown command"
  else if 0x9000 ≤ value ∧ value ≤ 0x9FFF ∧ value % 0x10 = 0 then
    .ok (.SneVV ((value >>> 8) &&& 0x0F) ((value >>> 4) &&& 0x0F))
  else if 0xA000 ≤ value ∧ value ≤ 0xAFFF then
    .ok (.LdI (value &&& 0x0FFF))
  else if 0xB000 ≤ value ∧ value ≤ 0xBFFF then
    .ok (.JpV0 (value &&& 0x0FFF))
  else if 0xC000 ≤ value ∧ value ≤ 0xCFFF then
    .ok (.RndV ((value >>> 8) &&& 0x0F) (value &&& 0x00FF))
  else if 0xD000 ≤ value ∧ value ≤ 0xDFFF then
    .ok (.DrwVV ((value >>> 8) &&& 0x0F) ((value >>> 4) &&& 0x0F) (value &&& 0x0F))
  else if 0xE000 ≤ value ∧ value ≤ 0xEFFF then
    if value &&& 0xFF = 0x9E then .ok (.SkpV ((value >>> 8) &&& 0x0F))
    else if value &&& 0xFF = 0xA1 then .ok (.SknpV ((value >>> 8) &&& 0x0F))
    else .error "Unknown command"
  else if 0xF000 ≤ value ∧ value ≤ 0xFFFF then
    if value &&& 0xFF = 0x07 then .ok (.LdVDt ((value >>> 8) &&& 0x0F))
    else if value &&& 0xFF = 0x0A then .ok (.LdVK ((value >>> 8) &&& 0x0F))
    else if value &&& 0xFF = 0x15 then .ok (.LdDtV ((value >>> 8) &&& 0x0F))
    else if value &&& 0xFF = 0x18 then .ok (.LdStV ((value >>> 8) &&& 0x0F))
    else if value &&& 0xFF = 0x1E then .ok (.AddIV ((value >>> 8) &&& 0x0F))
    else if value &&& 0xFF = 0x29 then .ok (.LdFV ((value >>> 8) &&& 0x0F))
    else if value &&& 0xFF = 0x33 then .ok (.LdBV ((value >>> 8) &&& 0x0F))
    else if value &&& 0xFF = 0x55 then .ok (.LdIV ((value >>> 8) &&& 0x0F))
    else if value &&& 0xFF = 0x65 then .ok (.LdVI ((value >>> 8) &&& 0x0F))
    else .error "Unknown command"
  else .error "Unknown command"

/-! ## `src/instruction.rs` -/

/-- A parsed instruction for the Chip-8 CPU (`enum Instruction`). -/
inductive Instruction where
  | Cls
  | Ret
  | Jp (addr : Nat)
  | Call (addr : Nat)
  | SeV (vx : Nat) (byte : Nat)
  | SneV (vx : Nat) (byte : Nat)
  | SeVV (vx : Nat) (vy : Nat)
  | LdV (vx : Nat) (byte : Nat)
  | AddV (vx : Nat) (byte : Nat)
  | LdVV (vx : Nat) (vy : Nat)
  | OrVV (vx : Nat) (vy : Nat)
  | AndVV (vx : Nat) (vy : Nat)
  | XorVV (vx : Nat) (vy : Nat)
  | AddVV (vx : Nat) (vy : Nat)
  | SubVV (vx : Nat) (vy : Nat)
  | ShrVV (vx : Nat) (vy : Nat)
  | SubnVV (vx : Nat) (vy : Nat)
  | ShlVV (vx : Nat) (vy : Nat)
  | SneVV (vx : Nat) (vy : Nat)
  | LdI (addr : Nat)
  | JpV (addr : Nat)
  | RndV (vx : Nat) (byte : Nat)
  | Drw (vx : Nat) (vy : Nat) (n : Nat)
  | SkpV (vx : Nat)
  | SknpV (vx : Nat)
  | LdVDt (vx : Nat)
  | LdVK (vx : Nat)
  | LdDtV (vx : Nat)
  | LdStV (vx : Nat)
  | AddIV (vx : Nat)
  | LdFV (vx : Nat)
  | LdBV (vx : Nat)
  | LdIV (vx : Nat)
  | LdVI (vx : Nat)
  deriving DecidableEq

/-- Decoder `impl TryFrom<u16> for Instruction` (`src/instruction.rs`).  The Rust error
type is `String`, built by formatting the unrecognized word in hex into the
message `Unknown instruction 0x...`; since the message is a fixed injective
function of the word, the embedding carries the word itself as the error
payload. -/
def Instruction.try_from (value : Nat) : Except Nat Instruction :=
  if value = 0x00E0 then .ok .Cls
  else if value = 0x00EE then .ok .Ret
  else if 0x1000 ≤ value ∧ value ≤ 0x1FFF then .ok (.Jp (value &&& 0xFFF))
  else if 0x2000 ≤ value ∧ value ≤ 0x2FFF then .ok (.Call (value &&& 0xFFF))
  else if 0x3000 ≤ value ∧ value ≤ 0x3FFF then .ok (.SeV ((value >>> 8) &&& 0xF) (value &&& 0xFF))
  else if 0x4000 ≤ value ∧ value ≤ 0x4FFF then .ok (.SneV ((value >>> 8) &&& 0xF) (value &&& 0xFF))
  else if 0x5000 ≤ value ∧ value ≤ 0x5FFF ∧ value &&& 0xF = 0x0 then .ok (.SeVV ((value >>> 8) &&& 0xF) ((value >>> 4) &&& 0xF))
  else if 0x6000 ≤ value ∧ value ≤ 0x6FFF then .ok (.LdV ((value >>> 8) &&& 0xF) (value &&& 0xFF))
  else if 0x7000 ≤ value ∧ value ≤ 0x7FFF then .ok (.AddV ((value >>> 8) &&& 0xF) (value &&& 0xFF))
  else if 0x8000 ≤ value ∧ value ≤ 0x8FFF then
    if value &&& 0xF = 0x0 then .ok (.LdVV ((value >>> 8) &&& 0xF) ((value >>> 4) &&& 0xF))
    else if value &&& 0xF = 0x1 then .ok (.OrVV ((value >>> 8) &&& 0xF) ((value >>> 4) &&& 0xF))
    else if value &&& 0xF = 0x2 then .ok (.AndVV ((value >>> 8) &&& 0xF) ((value >>> 4) &&& 0xF))
    else if value &&& 0xF = 0x3 then .ok (.XorVV ((value >>> 8) &&& 0xF) ((value >>> 4) &&& 0xF))
    else if value &&& 0xF = 0x4 then .ok (.AddVV ((value >>> 8) &&& 0xF) ((value >>> 4) &&& 0xF))
    else if value &&& 0xF = 0x5 then .ok (.SubVV ((value >>> 8) &&& 0xF) ((value >>> 4) &&& 0xF))
    else if value &&& 0xF = 0x6 then .ok (.ShrVV ((value >>> 8) &&& 0xF) ((value >>> 4) &&& 0xF))
    else if value &&& 0xF = 0x7 then .ok (.SubnVV ((value >>> 8) &&& 0xF) ((value >>> 4) &&& 0xF))
    else if value &&& 0xF = 0xE then .ok (.ShlVV ((value >>> 8) &&& 0xF) ((value >>> 4) &&& 0xF))
    else .error value
  else if 0x9000 ≤ value ∧ value ≤ 0x9FFF ∧ value &&& 0xF = 0x0 then .ok (.SneVV ((value >>> 8) &&& 0xF) ((value >>> 4) &&& 0xF))
  else if 0xA000 ≤ value ∧ value ≤ 0xAFFF then .ok (.LdI (value &&& 0xFFF))
  else if 0xB000 ≤ value ∧ value ≤ 0xBFFF then .ok (.JpV (value &&& 0xFFF))
  else if 0xC000 ≤ value ∧ value ≤ 0xCFFF then .ok (.RndV ((value >>> 8) &&& 0xF) (value &&& 0xFF))
  else if 0xD000 ≤ value ∧ value ≤ 0xDFFF then .ok (.Drw ((value >>> 8) &&& 0xF) ((value >>> 4) &&& 0xF) (value &&& 0xF))
  else if 0xE000 ≤ value ∧ value ≤ 0xEFFF then
    if value &&& 0xFF = 0x9E then .ok (.SkpV ((value >>> 8) &&& 0xF))
    else if value &&& 0xFF = 0xA1 then .ok (.SknpV ((value >>> 8) &&& 0xF))
    else .error value
  else if 0xF000 ≤ value ∧ value ≤ 0xFFFF then
    if value &&& 0xFF = 0x07 then .ok (.LdVDt ((value >>> 8) &&& 0xF))
    else if value &&& 0xFF = 0x0A then .ok (.LdVK ((value >>> 8) &&& 0xF))
    else if value &&& 0xFF = 0x15 then .ok (.LdDtV ((value >>> 8) &&& 0xF))
    else if value &&& 0xFF = 0x18 then .ok (.LdStV ((value >>> 8) &&& 0xF))
    else if value &&& 0xFF = 0x1E then .ok (.AddIV ((value >>> 8) &&& 0xF))
    else if value &&& 0xFF = 0x29 then .ok (.LdFV ((value >>> 8) &&& 0xF))
    else if value &&& 0xFF = 0x33 then .ok (.LdBV ((value >>> 8) &&& 0xF))
    else if value &&& 0xFF = 0x55 then .ok (.LdIV ((value >>> 8) &&& 0xF))
    else if value &&& 0xFF = 0x65 then .ok (.LdVI ((value >>> 8) &&& 0xF))
    else .error value
  else .error value

/-- The documented opcode table of the specification (spec sections 3 and 4.1):
the 34 instruction kinds with their encoding constraints (families 0x5/0x9
require low nibble 0, family 0x8 has sub-ops 0-7 and E, families 0xE/0xF
dispatch on the low byte).  This definition follows the spec's words (it is
the spec side of the decode-totality comparison); the decoders above follow
the source. -/
def specOpcodeTable (w : Nat) : Prop :=
  w = 0x00E0 ∨ w = 0x00EE ∨
  (0x1000 ≤ w ∧ w ≤ 0x4FFF) ∨
  (0x5000 ≤ w ∧ w ≤ 0x5FFF ∧ w % 16 = 0x0) ∨
  (0x6000 ≤ w ∧ w ≤ 0x7FFF) ∨
  (0x8000 ≤ w ∧ w ≤ 0x8FFF ∧ (w % 16 ≤ 0x7 ∨ w % 16 = 0xE)) ∨
  (0x9000 ≤ w ∧ w ≤ 0x9FFF ∧ w % 16 = 0x0) ∨
  (0xA000 ≤ w ∧ w ≤ 0xDFFF) ∨
  (0xE000 ≤ w ∧ w ≤ 0xEFFF ∧ (w % 256 = 0x9E ∨ w % 256 = 0xA1)) ∨
  (0xF000 ≤ w ∧ w ≤ 0xFFFF ∧
    (w % 256 = 0x07 ∨ w % 256 = 0x0A ∨ w % 256 = 0x15 ∨ w % 256 = 0x18 ∨
     w % 256 = 0x1E ∨ w % 256 = 0x29 ∨ w % 256 = 0x33 ∨ w % 256 = 0x55 ∨
     w % 256 = 0x65))

instance : DecidablePred specOpcodeTable := fun w => by
  unfold specOpcodeTable; infer_instance

/-- The variant-for-variant correspondence between the two decoders' result
types: identical constructors and fields, except that `Instruction.JpV` is
named `Command.JpV0` and `Instruction.Drw` is named `Command.DrwVV`. -/
def Command.ofInstruction : Instruction → Command
  | .Cls => .Cls
  | .Ret => .Ret
  | .Jp a => .Jp a
  | .Call a => .Call a
  | .SeV x k => .SeV x k
  | .SneV x k => .SneV x k
  | .SeVV x y => .SeVV x y
  | .LdV x k => .LdV x k
  | .AddV x k => .AddV x k
  | .LdVV x y => .LdVV x y
  | .OrVV x y => .OrVV x y
  | .AndVV x y => .AndVV x y
  | .XorVV x y => .XorVV x y
  | .AddVV x y => .AddVV x y
  | .SubVV x y => .SubVV x y
  | .ShrVV x y => .ShrVV x y
  | .SubnVV x y => .SubnVV x y
  | .ShlVV x y => .ShlVV x y
  | .SneVV x y => .SneVV x y
  | .LdI a => .LdI a
  | .JpV a => .JpV0 a
  | .RndV x k => .RndV x k
  | .Drw x y n => .DrwVV x y n
  | .SkpV x => .SkpV x
  | .SknpV x => .SknpV x
  | .LdVDt x => .LdVDt x
  | .LdVK x => .LdVK x
  | .LdDtV x => .LdDtV x
  | .LdStV x => .LdStV x
  | .AddIV x => .AddIV x
  | .LdFV x => .LdFV x
  | .LdBV x => .LdBV x
  | .LdIV x => .LdIV x
  | .LdVI x => .LdVI x

/-! ## `src/display.rs`

The display is the 64x32 boolean pixel grid (`pixels[y][x]`); `Display` methods
become functions on the grid. -/

/-- The `pixels: [[bool; WIDTH]; HEIGHT]` field of `struct Display`:
row index (`y`, height 32) first, column index (`x`, width 64) second. -/
abbrev Grid := Fin 32 → Fin 64 → Bool

namespace Display

/-- Source constant `pub const HEIGHT: usize = 32`. -/
abbrev HEIGHT : Nat := 32

/-- Source constant `pub const WIDTH: usize = 64`. -/
abbrev WIDTH : Nat := 64

/-- Method `Display::clear`: every pixel off (also the `Display::default` state). -/
def clear : Grid := fun _ _ => false

/-- The wrapped row index `(y + j) % HEIGHT` computed in the draw loop. -/
def cellY (y j : Nat) : Fin 32 := ⟨(y + j) % 32, Nat.mod_lt _ (by decide)⟩

/-- The wrapped column index `(x + i) % WIDTH` computed in the draw loop. -/
def cellX (x i : Nat) : Fin 64 := ⟨(x + i) % 64, Nat.mod_lt _ (by decide)⟩

/-- Assignment `self.pixels[y][x] = v` as a grid update. -/
def setPix (g : Grid) (y : Fin 32) (x : Fin 64) (v : Bool) : Grid :=
  fun y' x' => if y' = y ∧ x' = x then v else g y' x'

/-- The `u8::reverse_bits` operation restricted to 8 bits. -/
def reverseBits8 (b : Nat) : Nat :=
  (List.range 8).foldl (fun acc i => acc * 2 + (b >>> i) % 2) 0

/-- The inner-loop test `let bit = (sprite >> i) % 2 == 1`, where `sprite` is
`row.reverse_bits()`: bit `i` counts from the most significant bit of `row`. -/
def spriteBit (row i : Nat) : Bool := (reverseBits8 row >>> i) % 2 == 1

/-- Method `Display::xor_sprite`: XOR the sprite rows into the grid starting at
`(x, y)` with wraparound, returning the updated grid and whether any pixel was
erased (was on and had its sprite bit set). -/
def xor_sprite (g : Grid) (x y : Nat) (sprite : List Nat) : Grid × Bool :=
  sprite.enum.foldl
    (fun st jrow =>
      (List.range 8).foldl
        (fun st i =>
          let before := st.1 (cellY y jrow.1) (cellX x i)
          (setPix st.1 (cellY y jrow.1) (cellX x i) (xor before (spriteBit jrow.2 i)),
           st.2 || (before && spriteBit jrow.2 i)))
        st)
    (g, false)

/-- One pixel visit of the draw loop: target cell and sprite bit. -/
abbrev Visit := (Fin 32 × Fin 64) × Bool

/-- The body of the inner draw loop, applied to an explicit visit. -/
def applyVisit (st : Grid × Bool) (v : Visit) : Grid × Bool :=
  (setPix st.1 v.1.1 v.1.2 (xor (st.1 v.1.1 v.1.2) v.2),
   st.2 || (st.1 v.1.1 v.1.2 && v.2))

/-- Folding the draw-loop body over a list of visits. -/
def applyVisits (st : Grid × Bool) (L : List Visit) : Grid × Bool := L.foldl applyVisit st

/-- The eight visits generated for sprite row `row` at row index `j`. -/
def rowVisits (x y j row : Nat) : List Visit :=
  (List.range 8).map (fun i => ((cellY y j, cellX x i), spriteBit row i))

/-- All visits generated for the sprite rows starting at row index `j`. -/
def visitsFrom (x y : Nat) : Nat → List Nat → List Visit
  | _, [] => []
  | j, row :: rest => rowVisits x y j row ++ visitsFrom x y (j + 1) rest

/-- Parity (cumulative XOR) of the bits of all visits hitting cell `c`. -/
def parity : List Visit → (Fin 32 × Fin 64) → Bool
  | [], _ => false
  | v :: L, c => xor (if v.1 = c then v.2 else false) (parity L c)

end Display

/-! ## `src/keyboard.rs` -/

/-- Type `enum Key`: the sixteen hex keys; the Rust discriminant equals the key
code, so a key is modelled by its code as `Fin 16`. -/
abbrev Key := Fin 16

/-- Conversion `impl From<u8> for Key`: the match maps each value `0x0..=0xF` to the key
with that code and panics (`Unsupported key`) on anything else. -/
def Key.fromValue (value : Nat) : Except Panic Key :=
  if h : value < 16 then .ok ⟨value, h⟩ else .error (.unsupportedKey value)

/-- State `struct Keyboard` with field `pressed: [bool; 16]`. -/
abbrev Keyboard := Fin 16 → Bool

/-- Method `Keyboard::keys`: iterator over all sixteen keys in ascending code order. -/
def Keyboard.keys : List Key :=
  [0, 1, 2, 3, 4, 5, 6, 7, 8, 9, 10, 11, 12, 13, 14, 15]

/-- Method `Keyboard::is_pressed`. -/
def Keyboard.is_pressed (kb : Keyboard) (key : Key) : Bool := kb key

/-- Method `Keyboard::press`. -/
def Keyboard.press (kb : Keyboard) (key : Key) : Keyboard := Function.update kb key true

/-- Method `Keyboard::release`. -/
def Keyboard.release (kb : Keyboard) (key : Key) : Keyboard := Function.update kb key false

/-! ## `src/memory.rs`

The 4096-byte store is modelled as a function `Nat → Nat`; the accessors carry
the bound checks that Rust array indexing and slicing perform (out of bounds
is a `Panic`). -/

/-- Source constant `pub const PROGRAM_OFFSET: usize = 0x200`. -/
abbrev PROGRAM_OFFSET : Nat := 0x200

namespace Memory

/-- Source constant `const MEMORY_SIZE: usize = 0x1000`. -/
abbrev MEMORY_SIZE : Nat := 0x1000

/-- Source constant `const DIGITS_OFFSET: usize = 0x000`. -/
abbrev DIGITS_OFFSET : Nat := 0x000

/-- Source constant `const DIGIT_AMOUNT: usize = 16`. -/
abbrev DIGIT_AMOUNT : Nat := 16

/-- Source constant `const DIGIT_SPRITE_LENGTH: usize = 5`. -/
abbrev DIGIT_SPRITE_LENGTH : Nat := 5

/-- Method `Memory::get_byte`: `self.memory[offset]`, panicking out of bounds. -/
def get_byte (memory : Nat → Nat) (offset : Nat) : Except Panic Nat :=
  if offset < MEMORY_SIZE then .ok (memory offset) else .error .indexOutOfBounds

/-- Method `Memory::set_byte`: `self.memory[offset] = byte`, panicking out of bounds. -/
def set_byte (memory : Nat → Nat) (offset : Nat) (byte : Nat) : Except Panic (Nat → Nat) :=
  if offset < MEMORY_SIZE then .ok (Function.update memory offset byte)
  else .error .indexOutOfBounds

/-- Method `Memory::get_instruction`: big-endian two-byte read at `offset`; the two
indexings panic unless `offset + 1 < MEMORY_SIZE`. -/
def get_instruction (memory : Nat → Nat) (offset : Nat) : Except Panic Nat :=
  if offset + 1 < MEMORY_SIZE then .ok ((memory offset) <<< 8 ||| memory (offset + 1))
  else .error .indexOutOfBounds

/-- Method `Memory::get_sprite`: the slice `&self.memory[offset..offset + n]`,
panicking when the end exceeds `MEMORY_SIZE`. -/
def get_sprite (memory : Nat → Nat) (offset n : Nat) : Except Panic (List Nat) :=
  if offset + n ≤ MEMORY_SIZE then .ok ((List.range n).map (fun k => memory (offset + k)))
  else .error .indexOutOfBounds

/-- Method `Memory::calculate_digit_offset`: digit sprite location, panicking
(`No sprite for digit`) for digits ≥ 16. -/
def calculate_digit_offset (digit : Nat) : Except Panic Nat :=
  if digit < DIGIT_AMOUNT then .ok (DIGITS_OFFSET + digit * DIGIT_SPRITE_LENGTH)
  else .error (.noSpriteForDigit digit)

end Memory

/-! ## `src/emulator.rs` -/

/-- State `struct Emulator`.  `registers` models `[u8; 16]` as a function (every
index the source uses is a masked nibble, hence < 16); `memory` models the
owned `Memory`; `stack` models the `Vec<usize>` with the list head as the top
(`push` conses, `pop` takes the head). -/
structure Emulator where
  memory : Nat → Nat
  registers : Nat → Nat
  i : Nat
  delay_timer : Nat
  sound_timer : Nat
  program_counter : Nat
  stack : List Nat

namespace Emulator

/-- Method `Emulator::decrement_timers` (`saturating_sub 1`; `Nat` subtraction is
saturating). -/
def decrement_timers (e : Emulator) : Emulator :=
  { e with delay_timer := e.delay_timer - 1, sound_timer := e.sound_timer - 1 }

/-- Clears the display (`0x00E0`). -/
def cls (e : Emulator) (_display : Grid) : Grid × Nat :=
  (Display.clear, e.program_counter + 2)

/-- Returns from a subroutine (`0x00EE`): `self.stack.pop().expect(...) + 2`. -/
def ret (e : Emulator) : Except Panic (Emulator × Nat) :=
  match e.stack with
  | [] => .error .noSubroutineToReturnFrom
  | top :: rest => .ok ({ e with stack := rest }, top + 2)

/-- Jumps the program counter to nnn (`0x1nnn`). -/
def jp (_e : Emulator) (instruction : Nat) : Nat := instruction &&& 0xFFF

/-- Calls subroutine at nnn (`0x2nnn`). -/
def call (e : Emulator) (instruction : Nat) : Emulator × Nat :=
  ({ e with stack := e.program_counter :: e.stack }, instruction &&& 0xFFF)

/-- Skips an instruction if Vx == kk (`0x3xkk`). -/
def se_v (e : Emulator) (instruction : Nat) : Nat :=
  if e.registers ((instruction >>> 8) &&& 0xF) = instruction &&& 0xFF then
    e.program_counter + 4
  else
    e.program_counter + 2

/-- Skips an instruction if Vx != kk (`0x4xkk`). -/
def sne_v (e : Emulator) (instruction : Nat) : Nat :=
  if e.registers ((instruction >>> 8) &&& 0xF) = instruction &&& 0xFF then
    e.program_counter + 2
  else
    e.program_counter + 4

/-- Skips an instruction if Vx == Vy (`0x5xy0`). -/
def se_v_v (e : Emulator) (instruction : Nat) : Nat :=
  if e.registers ((instruction >>> 8) &&& 0xF) = e.registers ((instruction >>> 4) &&& 0xF) then
    e.program_counter + 4
  else
    e.program_counter + 2

/-- Loads kk to Vx (`0x6xkk`). -/
def ld_v (e : Emulator) (instruction : Nat) : Emulator × Nat :=
  let vx := (instruction >>> 8) &&& 0xF
  let byte := instruction &&& 0xFF
  ({ e with registers := Function.update e.registers vx byte }, e.program_counter + 2)

/-- Adds kk to Vx, wrapping (`0x7xkk`). -/
def add_v (e : Emulator) (instruction : Nat) : Emulator × Nat :=
  let vx := (instruction >>> 8) &&& 0xF
  let byte := instruction &&& 0xFF
  let r := Function.update e.registers vx ((e.registers vx + byte) % 256)
  ({ e with registers := r }, e.program_counter + 2)

/-- Sets Vx to Vy (`0x8xy0`). -/
def ld_v_v (e : Emulator) (instruction : Nat) : Emulator × Nat :=
  let vx := (instruction >>> 8) &&& 0xF
  let vy := (instruction >>> 4) &&& 0xF
  let r := Function.update e.registers vx (e.registers vy)
  ({ e with registers := r }, e.program_counter + 2)

/-- Stores bitwise OR of Vx and Vy to Vx (`0x8xy1`). -/
def or_v_v (e : Emulator) (instruction : Nat) : Emulator × Nat :=
  let vx := (instruction >>> 8) &&& 0xF
  let vy := (instruction >>> 4) &&& 0xF
  let r := Function.update e.registers vx (e.registers vx ||| e.registers vy)
  ({ e with registers := r }, e.program_counter + 2)

/-- Stores bitwise AND of Vx and Vy in Vx (`0x8xy2`). -/
def and_v_v (e : Emulator) (instruction : Nat) : Emulator × Nat :=
  let vx := (instruction >>> 8) &&& 0xF
  let vy := (instruction >>> 4) &&& 0xF
  let r := Function.update e.registers vx (e.registers vx &&& e.registers vy)
  ({ e with registers := r }, e.program_counter + 2)

/-- Stores bitwise XOR of Vx and Vy in Vx (`0x8xy3`). -/
def xor_v_v (e : Emulator) (instruction : Nat) : Emulator × Nat :=
  let vx := (instruction >>> 8) &&& 0xF
  let vy := (instruction >>> 4) &&& 0xF
  let r := Function.update e.registers vx (e.registers vx ^^^ e.registers vy)
  ({ e with registers := r }, e.program_counter + 2)

/-- Adds Vx and Vy with carry (`0x8xy4`): `overflowing_add` computes the
wrapped sum and the carry from the original register values; the carry is then
written to VF and the sum to Vx, in that order (so for `vx = 0xF` the sum
overwrites the carry). -/
def add_v_v (e : Emulator) (instruction : Nat) : Emulator × Nat :=
  let vx := (instruction >>> 8) &&& 0xF
  let vy := (instruction >>> 4) &&& 0xF
  let value := (e.registers vx + e.registers vy) % 256
  let carry : Nat := if 256 ≤ e.registers vx + e.registers vy then 1 else 0
  let r := Function.update (Function.update e.registers 0xF carry) vx value
  ({ e with registers := r }, e.program_counter + 2)

/-- Subtracts Vy from Vx with borrow (`0x8xy5`): `overflowing_sub`, then VF :=
not-borrow, then Vx := wrapped difference (same write order as `add_v_v`). -/
def sub_v_v (e : Emulator) (instruction : Nat) : Emulator × Nat :=
  let vx := (instruction >>> 8) &&& 0xF
  let vy := (instruction >>> 4) &&& 0xF
  let value := (e.registers vx + 256 - e.registers vy) % 256
  let notBorrow : Nat := if e.registers vy ≤ e.registers vx then 1 else 0
  let r := Function.update (Function.update e.registers 0xF notBorrow) vx value
  ({ e with registers := r }, e.program_counter + 2)

/-- Shifts Vx to the right with carry (`0x8xy6`): VF := Vx % 2 first, then the
shift re-reads the register file (`>>=`), so for `vx = 0xF` the shifted flag is
stored. -/
def shr_v_v (e : Emulator) (instruction : Nat) : Emulator × Nat :=
  let vx := (instruction >>> 8) &&& 0xF
  let r1 := Function.update e.registers 0xF (e.registers vx % 2)
  let r2 := Function.update r1 vx (r1 vx >>> 1)
  ({ e with registers := r2 }, e.program_counter + 2)

/-- Shifts Vx to the left with carry (`0x8xyE`): VF := high bit of Vx first,
then the shift re-reads the register file (`<<=`), wrapping to 8 bits. -/
def shl_v_v (e : Emulator) (instruction : Nat) : Emulator × Nat :=
  let vx := (instruction >>> 8) &&& 0xF
  let r1 := Function.update e.registers 0xF (if 0b10000000 ≤ e.registers vx then 1 else 0)
  let r2 := Function.update r1 vx ((r1 vx <<< 1) % 256)
  ({ e with registers := r2 }, e.program_counter + 2)

/-- Skips the next instruction if Vx != Vy (`0x9xy0`). -/
def sne_v_v (e : Emulator) (instruction : Nat) : Nat :=
  if e.registers ((instruction >>> 8) &&& 0xF) = e.registers ((instruction >>> 4) &&& 0xF) then
    e.program_counter + 2
  else
    e.program_counter + 4

/-- Loads nnn to I (`0xAnnn`). -/
def ld_i (e : Emulator) (instruction : Nat) : Emulator × Nat :=
  ({ e with i := instruction &&& 0xFFF }, e.program_counter + 2)

/-- Stores a masked random byte in Vx (`0xCxkk`); the sampled `u8` is
`rand % 256`. -/
def rnd_v (e : Emulator) (instruction : Nat) (rand : Nat) : Emulator × Nat :=
  let vx := (instruction >>> 8) &&& 0xF
  let byte := instruction &&& 0xFF
  let r := Function.update e.registers vx ((rand % 256) &&& byte)
  ({ e with registers := r }, e.program_counter + 2)

/-- Draws the n-byte sprite at I to (Vx, Vy) (`0xDxyn`); the slice read can
panic when `I + n` exceeds the memory size. -/
def drw (e : Emulator) (instruction : Nat) (display : Grid) :
    Except Panic (Emulator × Grid × Nat) :=
  let n := instruction &&& 0xF
  let x := e.registers ((instruction >>> 8) &&& 0xF)
  let y := e.registers ((instruction >>> 4) &&& 0xF)
  match Memory.get_sprite e.memory e.i n with
  | .error p => .error p
  | .ok sprite =>
    let res := Display.xor_sprite display x y sprite
    let r := Function.update e.registers 0xF (if res.2 then 1 else 0)
    .ok ({ e with registers := r }, res.1, e.program_counter + 2)

/-- Skips the next instruction if key Vx is pressed (`0xEx9E`); the conversion
`self.registers[vx].into()` panics for values above 0xF. -/
def skp_v (e : Emulator) (instruction : Nat) (keyboard : Keyboard) : Except Panic Nat :=
  match Key.fromValue (e.registers ((instruction >>> 8) &&& 0xF)) with
  | .error p => .error p
  | .ok key =>
    if keyboard.is_pressed key then .ok (e.program_counter + 4) else .ok (e.program_counter + 2)

/-- Skips the next instruction if key Vx is not pressed (`0xExA1`); same
conversion panic as `skp_v`. -/
def sknp_v (e : Emulator) (instruction : Nat) (keyboard : Keyboard) : Except Panic Nat :=
  match Key.fromValue (e.registers ((instruction >>> 8) &&& 0xF)) with
  | .error p => .error p
  | .ok key =>
    if keyboard.is_pressed key then .ok (e.program_counter + 2) else .ok (e.program_counter + 4)

/-- Loads the delay timer into Vx (`0xFx07`). -/
def ld_v_dt (e : Emulator) (instruction : Nat) : Emulator × Nat :=
  let vx := (instruction >>> 8) &&& 0xF
  let r := Function.update e.registers vx e.delay_timer
  ({ e with registers := r }, e.program_counter + 2)

/-- Waits for a key press and stores it in Vx (`0xFx0A`): the first pressed key
in `Keyboard::keys` order advances the program counter; with no key pressed the
program counter is returned unchanged. -/
def ld_v_k (e : Emulator) (instruction : Nat) (keyboard : Keyboard) : Emulator × Nat :=
  match Keyboard.keys.find? (fun key => keyboard.is_pressed key) with
  | some key =>
    let r := Function.update e.registers ((instruction >>> 8) &&& 0xF) key.val
    ({ e with registers := r }, e.program_counter + 2)
  | none => (e, e.program_counter)

/-- Loads Vx into the delay timer (`0xFx15`). -/
def ld_dt_v (e : Emulator) (instruction : Nat) : Emulator × Nat :=
  let vx := (instruction >>> 8) &&& 0xF
  ({ e with delay_timer := e.registers vx }, e.program_counter + 2)

/-- Loads Vx into the sound timer (`0xFx18`). -/
def ld_st_v (e : Emulator) (instruction : Nat) : Emulator × Nat :=
  let vx := (instruction >>> 8) &&& 0xF
  ({ e with sound_timer := e.registers vx }, e.program_counter + 2)

/-- Adds Vx to I, wrapping as `u16` (`0xFx1E`). -/
def add_i_v (e : Emulator) (instruction : Nat) : Emulator × Nat :=
  let vx := (instruction >>> 8) &&& 0xF
  ({ e with i := (e.i + e.registers vx) % 65536 }, e.program_counter + 2)

/-- Sets I to the digit-sprite location for Vx (`0xFx29`);
`calculate_digit_offset` panics for register values above 15. -/
def ld_f_v (e : Emulator) (instruction : Nat) : Except Panic (Emulator × Nat) :=
  match Memory.calculate_digit_offset (e.registers ((instruction >>> 8) &&& 0xF)) with
  | .error p => .error p
  | .ok offset => .ok ({ e with i := offset }, e.program_counter + 2)

/-- Stores the BCD digits of Vx at I, I+1, I+2 (`0xFx33`). -/
def ld_b_v (e : Emulator) (instruction : Nat) : Except Panic (Emulator × Nat) :=
  let x := e.registers ((instruction >>> 8) &&& 0xF)
  match (List.range 3).foldlM
      (fun m index => Memory.set_byte m (e.i + index) ((x / 10 ^ (2 - index)) % 10))
      e.memory with
  | .error p => .error p
  | .ok m => .ok ({ e with memory := m }, e.program_counter + 2)

/-- Copies V0..=Vx into memory starting at I (`0xFx55`). -/
def ld_i_v (e : Emulator) (instruction : Nat) : Except Panic (Emulator × Nat) :=
  let vx := (instruction >>> 8) &&& 0xF
  match (List.range (vx + 1)).foldlM
      (fun m index => Memory.set_byte m (e.i + index) (e.registers index))
      e.memory with
  | .error p => .error p
  | .ok m => .ok ({ e with memory := m }, e.program_counter + 2)

/-- Copies memory starting at I into V0..=Vx (`0xFx65`). -/
def ld_v_i (e : Emulator) (instruction : Nat) : Except Panic (Emulator × Nat) :=
  let vx := (instruction >>> 8) &&& 0xF
  match (List.range (vx + 1)).foldlM
      (fun regs index => (Memory.get_byte e.memory (e.i + index)).map
        (fun b => Function.update regs index b))
      e.registers with
  | .error p => .error p
  | .ok regs => .ok ({ e with registers := regs }, e.program_counter + 2)

/-- The dispatch `self.program_counter = match instruction ...` of
`Emulator::tick`, over the fetched word.  The match arms reproduce the source
exactly: the `0x5xxx` arm checks the low nibble but the `0x9xxx` arm does not;
the `0x8xxx` arm has no `0x7` (SubnVV) sub-case; there is no `0xBnnn` arm at
all, so such words fall to the catch-all `panic!("Unknown instruction ...")`,
modelled as `Panic.unknownInstruction`. -/
def execute (e : Emulator) (display : Grid) (keyboard : Keyboard) (rand : Nat)
    (instruction : Nat) : Except Panic (Emulator × Grid) :=
  if instruction = 0x00E0 then
      let r := e.cls display
      .ok ({ e with program_counter := r.2 }, r.1)
    else if instruction = 0x00EE then
      match e.ret with
      | .error p => .error p
      | .ok r => .ok ({ r.1 with program_counter := r.2 }, display)
    else if 0x1000 ≤ instruction ∧ instruction ≤ 0x1FFF then
      .ok ({ e with program_counter := e.jp instruction }, display)
    else if 0x2000 ≤ instruction ∧ instruction ≤ 0x2FFF then
      let r := e.call instruction
      .ok ({ r.1 with program_counter := r.2 }, display)
    else if 0x3000 ≤ instruction ∧ instruction ≤ 0x3FFF then
      .ok ({ e with program_counter := e.se_v instruction }, display)
    else if 0x4000 ≤ instruction ∧ instruction ≤ 0x4FFF then
      .ok ({ e with program_counter := e.sne_v instruction }, display)
    else if 0x5000 ≤ instruction ∧ instruction ≤ 0x5FFF then
      if instruction &&& 0xF = 0x0 then
        .ok ({ e with program_counter := e.se_v_v instruction }, display)
      else .error (.unknownInstruction instruction)
    else if 0x6000 ≤ instruction ∧ instruction ≤ 0x6FFF then
      let r := e.ld_v instruction
      .ok ({ r.1 with program_counter := r.2 }, display)
    else if 0x7000 ≤ instruction ∧ instruction ≤ 0x7FFF then
      let r := e.add_v instruction
      .ok ({ r.1 with program_counter := r.2 }, display)
    else if 0x8000 ≤ instruction ∧ instruction ≤ 0x8FFF then
      if instruction &&& 0xF = 0x0 then
        let r := e.ld_v_v instruction
        .ok ({ r.1 with program_counter := r.2 }, display)
      else if instruction &&& 0xF = 0x1 then
        let r := e.or_v_v instruction
        .ok ({ r.1 with program_counter := r.2 }, display)
      else if instruction &&& 0xF = 0x2 then
        let r := e.and_v_v instruction
        .ok ({ r.1 with program_counter := r.2 }, display)
      else if instruction &&& 0xF = 0x3 then
        let r := e.xor_v_v instruction
        .ok ({ r.1 with program_counter := r.2 }, display)
      else if instruction &&& 0xF = 0x4 then
        let r := e.add_v_v instruction
        .ok ({ r.1 with program_counter := r.2 }, display)
      else if instruction &&& 0xF = 0x5 then
        let r := e.sub_v_v instruction
        .ok ({ r.1 with program_counter := r.2 }, display)
      else if instruction &&& 0xF = 0x6 then
        let r := e.shr_v_v instruction
        .ok ({ r.1 with program_counter := r.2 }, display)
      else if instruction &&& 0xF = 0xE then
        let r := e.shl_v_v instruction
        .ok ({ r.1 with program_counter := r.2 }, display)
      else .error (.unknownInstruction instruction)
    else if 0x9000 ≤ instruction ∧ instruction ≤ 0x9FFF then
      .ok ({ e with program_counter := e.sne_v_v instruction }, display)
    else if 0xA000 ≤ instruction ∧ instruction ≤ 0xAFFF then
      let r := e.ld_i instruction
      .ok ({ r.1 with program_counter := r.2 }, display)
    else if 0xC000 ≤ instruction ∧ instruction ≤ 0xCFFF then
      let r := e.rnd_v instruction rand
      .ok ({ r.1 with program_counter := r.2 }, display)
    else if 0xD000 ≤ instruction ∧ instruction ≤ 0xDFFF then
      match e.drw instruction display with
      | .error p => .error p
      | .ok r => .ok ({ r.1 with program_counter := r.2.2 }, r.2.1)
    else if 0xE000 ≤ instruction ∧ instruction ≤ 0xEFFF then
      if instruction &&& 0xFF = 0x9E then
        match e.skp_v instruction keyboard with
        | .error p => .error p
        | .ok pc => .ok ({ e with program_counter := pc }, display)
      else if instruction &&& 0xFF = 0xA1 then
        match e.sknp_v instruction keyboard with
        | .error p => .error p
        | .ok pc => .ok ({ e with program_counter := pc }, display)
      else .error (.unknownInstruction instruction)
    else if 0xF000 ≤ instruction ∧ instruction ≤ 0xFFFF then
      if instruction &&& 0xFF = 0x07 then
        let r := e.ld_v_dt instruction
        .ok ({ r.1 with program_counter := r.2 }, display)
      else if instruction &&& 0xFF = 0x0A then
        let r := e.ld_v_k instruction keyboard
        .ok ({ r.1 with program_counter := r.2 }, display)
      else if instruction &&& 0xFF = 0x15 then
        let r := e.ld_dt_v instruction
        .ok ({ r.1 with program_counter := r.2 }, display)
      else if instruction &&& 0xFF = 0x18 then
        let r := e.ld_st_v instruction
        .ok ({ r.1 with program_counter := r.2 }, display)
      else if instruction &&& 0xFF = 0x1E then
        let r := e.add_i_v instruction
        .ok ({ r.1 with program_counter := r.2 }, display)
      else if instruction &&& 0xFF = 0x29 then
        match e.ld_f_v instruction with
        | .error p => .error p
        | .ok r => .ok ({ r.1 with program_counter := r.2 }, display)
      else if instruction &&& 0xFF = 0x33 then
        match e.ld_b_v instruction with
        | .error p => .error p
        | .ok r => .ok ({ r.1 with program_counter := r.2 }, display)
      else if instruction &&& 0xFF = 0x55 then
        match e.ld_i_v instruction with
        | .error p => .error p
        | .ok r => .ok ({ r.1 with program_counter := r.2 }, display)
      else if instruction &&& 0xFF = 0x65 then
        match e.ld_v_i instruction with
        | .error p => .error p
        | .ok r => .ok ({ r.1 with program_counter := r.2 }, display)
      else .error (.unknownInstruction instruction)
    else .error (.unknownInstruction instruction)

/-- Method `Emulator::tick`: fetch the two-byte word at the program counter (possibly
panicking out of bounds) and dispatch on it via `execute`. -/
def tick (e : Emulator) (display : Grid) (keyboard : Keyboard) (rand : Nat) :
    Except Panic (Emulator × Grid) :=
  match Memory.get_instruction e.memory e.program_counter with
  | .error p => .error p
  | .ok instruction => execute e display keyboard rand instruction

end Emulator

/-- Builds a byte store from an association list (zero elsewhere); embedding
utility for stating concrete machine states. -/
def Memory.ofPairs (l : List (Nat × Nat)) : Nat → Nat :=
  fun a => (((l.find? (fun p => p.1 == a)).map Prod.snd).getD 0)

/-! ## Arithmetic facts about the bit masks -/

/-- Masking fact: `x &&& 0xF` is `x % 16`. -/
theorem and15_eq_mod (x : Nat) : x &&& 0xF = x % 16 :=
  Nat.and_pow_two_sub_one_eq_mod x 4

/-- Masking fact: `x &&& 0xFF` is `x % 256`. -/
theorem and255_eq_mod (x : Nat) : x &&& 0xFF = x % 256 :=
  Nat.and_pow_two_sub_one_eq_mod x 8

/-- Fetching succeeds below the memory bound and hands the big-endian word to
the dispatch. -/
theorem Emulator.tick_fetch (e : Emulator) (g : Grid) (kb : Keyboard) (r : Nat)
    (hpc : e.program_counter + 1 < Memory.MEMORY_SIZE) :
    Emulator.tick e g kb r
      = Emulator.execute e g kb r ((e.memory e.program_counter) <<< 8 |||
          e.memory (e.program_counter + 1)) := by
  unfold Emulator.tick Memory.get_instruction
  rw [if_pos hpc]

/-- Running `find?` on a sorted list containing all satisfying elements returns the
minimum satisfying element (or none when nothing satisfies). -/
theorem find?_ascending (p : Fin 16 → Bool) :
    ∀ (l : List (Fin 16)), l.Pairwise (· < ·) → (∀ j : Fin 16, p j = true → j ∈ l) →
      (l.find? p = none ∧ ∀ j : Fin 16, p j = false) ∨
      (∃ k, l.find? p = some k ∧ p k = true ∧ ∀ j : Fin 16, p j = true → k ≤ j)
  | [], _, hcomp => by
    left
    refine ⟨rfl, fun j => ?_⟩
    cases hp : p j with
    | false => rfl
    | true => exact absurd (hcomp j hp) (List.not_mem_nil j)
  | a :: t, hpw, hcomp => by
    rw [List.pairwise_cons] at hpw
    cases hpa : p a with
    | true =>
      right
      refine ⟨a, List.find?_cons_of_pos t hpa, hpa, fun j hj => ?_⟩
      rcases List.mem_cons.mp (hcomp j hj) with rfl | hjt
      · exact le_refl j
      · exact le_of_lt (hpw.1 j hjt)
    | false =>
      have hcomp' : ∀ j : Fin 16, p j = true → j ∈ t := by
        intro j hj
        rcases List.mem_cons.mp (hcomp j hj) with rfl | hjt
        · rw [hpa] at hj
          exact absurd hj (by simp)
        · exact hjt
      rcases find?_ascending p t hpw.2 hcomp' with ⟨hn, hall⟩ | ⟨k, hk, hpk, hmin⟩
      · left
        exact ⟨by rw [List.find?_cons_of_neg t (by simp [hpa])]; exact hn, hall⟩
      · right
        exact ⟨k, by rw [List.find?_cons_of_neg t (by simp [hpa])]; exact hk, hpk, hmin⟩

/-- C9 (confirmed): with no key pressed, `ld_v_k` leaves the whole emulator and
the program counter unchanged; with at least one key pressed it stores the
lowest-numbered pressed key code into Vx and advances by 2. -/
theorem c9_ld_v_k_spec (e : Emulator) (kb : Keyboard) (w : Nat) :
    ((∀ j : Fin 16, kb j = false) →
      Emulator.ld_v_k e w kb = (e, e.program_counter))
  ∧ (∀ k : Fin 16, kb k = true → (∀ j : Fin 16, j < k → kb j = false) →
      Emulator.ld_v_k e w kb
        = ({ e with registers := Function.update e.registers ((w >>> 8) &&& 0xF) k.val },
           e.program_counter + 2)) := by
  constructor
  · intro hall
    unfold Emulator.ld_v_k
    rw [show Keyboard.keys.find? (fun key => Keyboard.is_pressed kb key) = none from
      List.find?_eq_none.mpr (fun x _ => by simp [Keyboard.is_pressed, hall x])]
  · intro k hk hmin
    rcases find?_ascending (fun key => Keyboard.is_pressed kb key) Keyboard.keys
        (by decide) (fun j _ => (by decide : ∀ j : Fin 16, j ∈ Keyboard.keys) j) with ⟨_, hall⟩ | ⟨k', hfind, hpk', hmink'⟩
    · exact absurd hk (by have := hall k; simp [Keyboard.is_pressed] at this; simp [this])
    · have hkk' : k' = k := by
        have h1 : k' ≤ k := hmink' k (by simpa [Keyboard.is_pressed] using hk)
        have h2 : k ≤ k' := by
          by_contra hlt
          rw [not_le] at hlt
          have := hmin k' hlt
          simp only [Keyboard.is_pressed] at hpk'
          rw [this] at hpk'
          exact Bool.false_ne_true hpk'
        exact le_antisymm h1 h2
      subst hkk'
      unfold Emulator.ld_v_k
      rw [hfind]

/-- C9 witness: keyboard with keys 3 and 7 pressed, word `0xF20A`; the lowest
pressed key 3 lands in V2 and the program counter advances by 2. -/
theorem c9_ld_v_k_spec_witness :
    Emulator.ld_v_k ⟨Memory.ofPairs [], fun _ => 0, 0, 0, 0, 0x200, []⟩ 0xF20A
        (fun j => j.val == 3 || j.val == 7)
      = ({ (⟨Memory.ofPairs [], fun _ => 0, 0, 0, 0, 0x200, []⟩ : Emulator) with
            registers := Function.update (fun _ => 0) ((0xF20A >>> 8) &&& 0xF) (3 : Fin 16).val },
         0x200 + 2) :=
  (c9_ld_v_k_spec ⟨Memory.ofPairs [], fun _ => 0, 0, 0, 0, 0x200, []⟩
    (fun j => j.val == 3 || j.val == 7) 0xF20A).2 3 (by decide) (by decide)

/-! ## Per-family reductions of the two decoders -/
theorem Instruction.try_from_x0 (w : Nat) (h1 : w < 0x1000) (h2 : w ≠ 0x00E0) (h3 : w ≠ 0x00EE) :
    Instruction.try_from w = Except.error w := by
  unfold Instruction.try_from
  rw [if_neg h2,
      if_neg h3,
      if_neg (show ¬(0x1000 ≤ w ∧ w ≤ 0x1FFF) by omega),
      if_neg (show ¬(0x2000 ≤ w ∧ w ≤ 0x2FFF) by omega),
      if_neg (show ¬(0x3000 ≤ w ∧ w ≤ 0x3FFF) by omega),
      if_neg (show ¬(0x4000 ≤ w ∧ w ≤ 0x4FFF) by omega),
      if_neg (show ¬(0x5000 ≤ w ∧ w ≤ 0x5FFF ∧ w &&& 0xF = 0x0) by simp only [and15_eq_mod]; omega),
      if_neg (show ¬(0x6000 ≤ w ∧ w ≤ 0x6FFF) by omega),
      if_neg (show ¬(0x7000 ≤ w ∧ w ≤ 0x7FFF) by omega),
      if_neg (show ¬(0x8000 ≤ w ∧ w ≤ 0x8FFF) by omega),
      if_neg (show ¬(0x9000 ≤ w ∧ w ≤ 0x9FFF ∧ w &&& 0xF = 0x0) by simp only [and15_eq_mod]; omega),
      if_neg (show ¬(0xA000 ≤ w ∧ w ≤ 0xAFFF) by omega),
      if_neg (show ¬(0xB000 ≤ w ∧ w ≤ 0xBFFF) by omega),
      if_neg (show ¬(0xC000 ≤ w ∧ w ≤ 0xCFFF) by omega),
      if_neg (show ¬(0xD000 ≤ w ∧ w ≤ 0xDFFF) by omega),
      if_neg (show ¬(0xE000 ≤ w ∧ w ≤ 0xEFFF) by omega),
      if_neg (show ¬(0xF000 ≤ w ∧ w ≤ 0xFFFF) by omega)]

theorem Instruction.try_from_x1 (w : Nat) (h1 : 0x1000 ≤ w) (h2 : w ≤ 0x1FFF) :
    Instruction.try_from w = .ok (.Jp (w &&& 0xFFF)) := by
  unfold Instruction.try_from
  rw [if_neg (show ¬(w = 0x00E0) by omega),
      if_neg (show ¬(w = 0x00EE) by omega),
      if_pos (show 0x1000 ≤ w ∧ w ≤ 0x1FFF from ⟨h1, h2⟩)]

theorem Instruction.try_from_x2 (w : Nat) (h1 : 0x2000 ≤ w) (h2 : w ≤ 0x2FFF) :
    Instruction.try_from w = .ok (.Call (w &&& 0xFFF)) := by
  unfold Instruction.try_from
  rw [if_neg (show ¬(w = 0x00E0) by omega),
      if_neg (show ¬(w = 0x00EE) by omega),
      if_neg (show ¬(0x1000 ≤ w ∧ w ≤ 0x1FFF) by omega),
      if_pos (show 0x2000 ≤ w ∧ w ≤ 0x2FFF from ⟨h1, h2⟩)]

theorem Instruction.try_from_x3 (w : Nat) (h1 : 0x3000 ≤ w) (h2 : w ≤ 0x3FFF) :
    Instruction.try_from w = .ok (.SeV ((w >>> 8) &&& 0xF) (w &&& 0xFF)) := by
  unfold Instruction.try_from
  rw [if_neg (show ¬(w = 0x00E0) by omega),
      if_neg (show ¬(w = 0x00EE) by omega),
      if_neg (show ¬(0x1000 ≤ w ∧ w ≤ 0x1FFF) by omega),
      if_neg (show ¬(0x2000 ≤ w ∧ w ≤ 0x2FFF) by omega),
      if_pos (show 0x3000 ≤ w ∧ w ≤ 0x3FFF from ⟨h1, h2⟩)]

theorem Instruction.try_from_x4 (w : Nat) (h1 : 0x4000 ≤ w) (h2 : w ≤ 0x4FFF) :
    Instruction.try_from w = .ok (.SneV ((w >>> 8) &&& 0xF) (w &&& 0xFF)) := by
  unfold Instruction.try_from
  rw [if_neg (show ¬(w = 0x00E0) by omega),
      if_neg (show ¬(w = 0x00EE) by omega),
      if_neg (show ¬(0x1000 ≤ w ∧ w ≤ 0x1FFF) by omega),
      if_neg (show ¬(0x2000 ≤ w ∧ w ≤ 0x2FFF) by omega),
      if_neg (show ¬(0x3000 ≤ w ∧ w ≤ 0x3FFF) by omega),
      if_pos (show 0x4000 ≤ w ∧ w ≤ 0x4FFF from ⟨h1, h2⟩)]

theorem Instruction.try_from_x6 (w : Nat) (h1 : 0x6000 ≤ w) (h2 : w ≤ 0x6FFF) :
    Instruction.try_from w = .ok (.LdV ((w >>> 8) &&& 0xF) (w &&& 0xFF)) := by
  unfold Instruction.try_from
  rw [if_neg (show ¬(w = 0x00E0) by omega),
      if_neg (show ¬(w = 0x00EE) by omega),
      if_neg (show ¬(0x1000 ≤ w ∧ w ≤ 0x1FFF) by omega),
      if_neg (show ¬(0x2000 ≤ w ∧ w ≤ 0x2FFF) by omega),
      if_neg (show ¬(0x3000 ≤ w ∧ w ≤ 0x3FFF) by omega),
      if_neg (show ¬(0x4000 ≤ w ∧ w ≤ 0x4FFF) by omega),
      if_neg (show ¬(0x5000 ≤ w ∧ w ≤ 0x5FFF ∧ w &&& 0xF = 0x0) by simp only [and15_eq_mod]; omega),
      if_pos (show 0x6000 ≤ w ∧ w ≤ 0x6FFF from ⟨h1, h2⟩)]

theorem Instruction.try_from_x7 (w : Nat) (h1 : 0x7000 ≤ w) (h2 : w ≤ 0x7FFF) :
    Instruction.try_from w = .ok (.AddV ((w >>> 8) &&& 0xF) (w &&& 0xFF)) := by
  unfold Instruction.try_from
  rw [if_neg (show ¬(w = 0x00E0) by omega),
      if_neg (show ¬(w = 0x00EE) by omega),
      if_neg (show ¬(0x1000 ≤ w ∧ w ≤ 0x1FFF) by omega),
      if_neg (show ¬(0x2000 ≤ w ∧ w ≤ 0x2FFF) by omega),
      if_neg (show ¬(0x3000 ≤ w ∧ w ≤ 0x3FFF) by omega),
      if_neg (show ¬(0x4000 ≤ w ∧ w ≤ 0x4FFF) by omega),
      if_neg (show ¬(0x5000 ≤ w ∧ w ≤ 0x5FFF ∧ w &&& 0xF = 0x0) by simp only [and15_eq_mod]; omega),
      if_neg (show ¬(0x6000 ≤ w ∧ w ≤ 0x6FFF) by omega),
      if_pos (show 0x7000 ≤ w ∧ w ≤ 0x7FFF from ⟨h1, h2⟩)]

theorem Instruction.try_from_xA (w : Nat) (h1 : 0xA000 ≤ w) (h2 : w ≤ 0xAFFF) :
    Instruction.try_from w = .ok (.LdI (w &&& 0xFFF)) := by
  unfold Instruction.try_from
  rw [if_neg (show ¬(w = 0x00E0) by omega),
      if_neg (show ¬(w = 0x00EE) by omega),
      if_neg (show ¬(0x1000 ≤ w ∧ w ≤ 0x1FFF) by omega),
      if_neg (show ¬(0x2000 ≤ w ∧ w ≤ 0x2FFF) by omega),
      if_neg (show ¬(0x3000 ≤ w ∧ w ≤ 0x3FFF) by omega),
      if_neg (show ¬(0x4000 ≤ w ∧ w ≤ 0x4FFF) by omega),
      if_neg (show ¬(0x5000 ≤ w ∧ w ≤ 0x5FFF ∧ w &&& 0xF = 0x0) by simp only [and15_eq_mod]; omega),
      if_neg (show ¬(0x6000 ≤ w ∧ w ≤ 0x6FFF) by omega),
      if_neg (show ¬(0x7000 ≤ w ∧ w ≤ 0x7FFF) by omega),
      if_neg (show ¬(0x8000 ≤ w ∧ w ≤ 0x8FFF) by omega),
      if_neg (show ¬(0x9000 ≤ w ∧ w ≤ 0x9FFF ∧ w &&& 0xF = 0x0) by simp only [and15_eq_mod]; omega),
      if_pos (show 0xA000 ≤ w ∧ w ≤ 0xAFFF from ⟨h1, h2⟩)]

theorem Instruction.try_from_xB (w : Nat) (h1 : 0xB000 ≤ w) (h2 : w ≤ 0xBFFF) :
    Instruction.try_from w = .ok (.JpV (w &&& 0xFFF)) := by
  unfold Instruction.try_from
  rw [if_neg (show ¬(w = 0x00E0) by omega),
      if_neg (show ¬(w = 0x00EE) by omega),
      if_neg (show ¬(0x1000 ≤ w ∧ w ≤ 0x1FFF) by omega),
      if_neg (show ¬(0x2000 ≤ w ∧ w ≤ 0x2FFF) by omega),
      if_neg (show ¬(0x3000 ≤ w ∧ w ≤ 0x3FFF) by omega),
      if_neg (show ¬(0x4000 ≤ w ∧ w ≤ 0x4FFF) by omega),
      if_neg (show ¬(0x5000 ≤ w ∧ w ≤ 0x5FFF ∧ w &&& 0xF = 0x0) by simp only [and15_eq_mod]; omega),
      if_neg (show ¬(0x6000 ≤ w ∧ w ≤ 0x6FFF) by omega),
      if_neg (show ¬(0x7000 ≤ w ∧ w ≤ 0x7FFF) by omega),
      if_neg (show ¬(0x8000 ≤ w ∧ w ≤ 0x8FFF) by omega),
      if_neg (show ¬(0x9000 ≤ w ∧ w ≤ 0x9FFF ∧ w &&& 0xF = 0x0) by simp only [and15_eq_mod]; omega),
      if_neg (show ¬(0xA000 ≤ w ∧ w ≤ 0xAFFF) by omega),
      if_pos (show 0xB000 ≤ w ∧ w ≤ 0xBFFF from ⟨h1, h2⟩)]

theorem Instruction.try_from_xC (w : Nat) (h1 : 0xC000 ≤ w) (h2 : w ≤ 0xCFFF) :
    Instruction.try_from w = .ok (.RndV ((w >>> 8) &&& 0xF) (w &&& 0xFF)) := by
  unfold Instruction.try_from
  rw [if_neg (show ¬(w = 0x00E0) by omega),
      if_neg (show ¬(w = 0x00EE) by omega),
      if_neg (show ¬(0x1000 ≤ w ∧ w ≤ 0x1FFF) by omega),
      if_neg (show ¬(0x2000 ≤ w ∧ w ≤ 0x2FFF) by omega),
      if_neg (show ¬(0x3000 ≤ w ∧ w ≤ 0x3FFF) by omega),
      if_neg (show ¬(0x4000 ≤ w ∧ w ≤ 0x4FFF) by omega),
      if_neg (show ¬(0x5000 ≤ w ∧ w ≤ 0x5FFF ∧ w &&& 0xF = 0x0) by simp only [and15_eq_mod]; omega),
      if_neg (show ¬(0x6000 ≤ w ∧ w ≤ 0x6FFF) by omega),
      if_neg (show ¬(0x7000 ≤ w ∧ w ≤ 0x7FFF) by omega),
      if_neg (show ¬(0x8000 ≤ w ∧ w ≤ 0x8FFF) by omega),
      if_neg (show ¬(0x9000 ≤ w ∧ w ≤ 0x9FFF ∧ w &&& 0xF = 0x0) by simp only [and15_eq_mod]; omega),
      if_neg (show ¬(0xA000 ≤ w ∧ w ≤ 0xAFFF) by omega),
      if_neg (show ¬(0xB000 ≤ w ∧ w ≤ 0xBFFF) by omega),
      if_pos (show 0xC000 ≤ w ∧ w ≤ 0xCFFF from ⟨h1, h2⟩)]

theorem Instruction.try_from_xD (w : Nat) (h1 : 0xD000 ≤ w) (h2 : w ≤ 0xDFFF) :
    Instruction.try_from w = .ok (.Drw ((w >>> 8) &&& 0xF) ((w >>> 4) &&& 0xF) (w &&& 0xF)) := by
  unfold Instruction.try_from
  rw [if_neg (show ¬(w = 0x00E0) by omega),
      if_neg (show ¬(w = 0x00EE) by omega),
      if_neg (show ¬(0x1000 ≤ w ∧ w ≤ 0x1FFF) by omega),
      if_neg (show ¬(0x2000 ≤ w ∧ w ≤ 0x2FFF) by omega),
      if_neg (show ¬(0x3000 ≤ w ∧ w ≤ 0x3FFF) by omega),
      if_neg (show ¬(0x4000 ≤ w ∧ w ≤ 0x4FFF) by omega),
      if_neg (show ¬(0x5000 ≤ w ∧ w ≤ 0x5FFF ∧ w &&& 0xF = 0x0) by simp only [and15_eq_mod]; omega),
      if_neg (show ¬(0x6000 ≤ w ∧ w ≤ 0x6FFF) by omega),
      if_neg (show ¬(0x7000 ≤ w ∧ w ≤ 0x7FFF) by omega),
      if_neg (show ¬(0x8000 ≤ w ∧ w ≤ 0x8FFF) by omega),
      if_neg (show ¬(0x9000 ≤ w ∧ w ≤ 0x9FFF ∧ w &&& 0xF = 0x0) by simp only [and15_eq_mod]; omega),
      if_neg (show ¬(0xA000 ≤ w ∧ w ≤ 0xAFFF) by omega),
      if_neg (show ¬(0xB000 ≤ w ∧ w ≤ 0xBFFF) by omega),
      if_neg (show ¬(0xC000 ≤ w ∧ w ≤ 0xCFFF) by omega),
      if_pos (show 0xD000 ≤ w ∧ w ≤ 0xDFFF from ⟨h1, h2⟩)]

theorem Instruction.try_from_x5ok (w : Nat) (h1 : 0x5000 ≤ w) (h2 : w ≤ 0x5FFF) (h3 : w &&& 0xF = 0x0) :
    Instruction.try_from w = .ok (.SeVV ((w >>> 8) &&& 0xF) ((w >>> 4) &&& 0xF)) := by
  unfold Instruction.try_from
  rw [if_neg (show ¬(w = 0x00E0) by omega),
      if_neg (show ¬(w = 0x00EE) by omega),
      if_neg (show ¬(0x1000 ≤ w ∧ w ≤ 0x1FFF) by omega),
      if_neg (show ¬(0x2000 ≤ w ∧ w ≤ 0x2FFF) by omega),
      if_neg (show ¬(0x3000 ≤ w ∧ w ≤ 0x3FFF) by omega),
      if_neg (show ¬(0x4000 ≤ w ∧ w ≤ 0x4FFF) by omega),
      if_pos (show 0x5000 ≤ w ∧ w ≤ 0x5FFF ∧ w &&& 0xF = 0x0 from ⟨h1, h2, h3⟩)]

theorem Instruction.try_from_x5err (w : Nat) (h1 : 0x5000 ≤ w) (h2 : w ≤ 0x5FFF) (h3 : ¬(w &&& 0xF = 0x0)) :
    Instruction.try_from w = Except.error w := by
  unfold Instruction.try_from
  rw [if_neg (show ¬(w = 0x00E0) by omega),
      if_neg (show ¬(w = 0x00EE) by omega),
      if_neg (show ¬(0x1000 ≤ w ∧ w ≤ 0x1FFF) by omega),
      if_neg (show ¬(0x2000 ≤ w ∧ w ≤ 0x2FFF) by omega),
      if_neg (show ¬(0x3000 ≤ w ∧ w ≤ 0x3FFF) by omega),
      if_neg (show ¬(0x4000 ≤ w ∧ w ≤ 0x4FFF) by omega),
      if_neg (show ¬(0x5000 ≤ w ∧ w ≤ 0x5FFF ∧ w &&& 0xF = 0x0) by simp only [and15_eq_mod] at h3 ⊢; omega),
      if_neg (show ¬(0x6000 ≤ w ∧ w ≤ 0x6FFF) by omega),
      if_neg (show ¬(0x7000 ≤ w ∧ w ≤ 0x7FFF) by omega),
      if_neg (show ¬(0x8000 ≤ w ∧ w ≤ 0x8FFF) by omega),
      if_neg (show ¬(0x9000 ≤ w ∧ w ≤ 0x9FFF ∧ w &&& 0xF = 0x0) by simp only [and15_eq_mod]; omega),
      if_neg (show ¬(0xA000 ≤ w ∧ w ≤ 0xAFFF) by omega),
      if_neg (show ¬(0xB000 ≤ w ∧ w ≤ 0xBFFF) by omega),
      if_neg (show ¬(0xC000 ≤ w ∧ w ≤ 0xCFFF) by omega),
      if_neg (show ¬(0xD000 ≤ w ∧ w ≤ 0xDFFF) by omega),
      if_neg (show ¬(0xE000 ≤ w ∧ w ≤ 0xEFFF) by omega),
      if_neg (show ¬(0xF000 ≤ w ∧ w ≤ 0xFFFF) by omega)]

theorem Instruction.try_from_x9ok (w : Nat) (h1 : 0x9000 ≤ w) (h2 : w ≤ 0x9FFF) (h3 : w &&& 0xF = 0x0) :
    Instruction.try_from w = .ok (.SneVV ((w >>> 8) &&& 0xF) ((w >>> 4) &&& 0xF)) := by
  unfold Instruction.try_from
  rw [if_neg (show ¬(w = 0x00E0) by omega),
      if_neg (show ¬(w = 0x00EE) by omega),
      if_neg (show ¬(0x1000 ≤ w ∧ w ≤ 0x1FFF) by omega),
      if_neg (show ¬(0x2000 ≤ w ∧ w ≤ 0x2FFF) by omega),
      if_neg (show ¬(0x3000 ≤ w ∧ w ≤ 0x3FFF) by omega),
      if_neg (show ¬(0x4000 ≤ w ∧ w ≤ 0x4FFF) by omega),
      if_neg (show ¬(0x5000 ≤ w ∧ w ≤ 0x5FFF ∧ w &&& 0xF = 0x0) by simp only [and15_eq_mod]; omega),
      if_neg (show ¬(0x6000 ≤ w ∧ w ≤ 0x6FFF) by omega),
      if_neg (show ¬(0x7000 ≤ w ∧ w ≤ 0x7FFF) by omega),
      if_neg (show ¬(0x8000 ≤ w ∧ w ≤ 0x8FFF) by omega),
      if_pos (show 0x9000 ≤ w ∧ w ≤ 0x9FFF ∧ w &&& 0xF = 0x0 from ⟨h1, h2, h3⟩)]

theorem Instruction.try_from_x9err (w : Nat) (h1 : 0x9000 ≤ w) (h2 : w ≤ 0x9FFF) (h3 : ¬(w &&& 0xF = 0x0)) :
    Instruction.try_from w = Except.error w := by
  unfold Instruction.try_from
  rw [if_neg (show ¬(w = 0x00E0) by omega),
      if_neg (show ¬(w = 0x00EE) by omega),
      if_neg (show ¬(0x1000 ≤ w ∧ w ≤ 0x1FFF) by omega),
      if_neg (show ¬(0x2000 ≤ w ∧ w ≤ 0x2FFF) by omega),
      if_neg (show ¬(0x3000 ≤ w ∧ w ≤ 0x3FFF) by omega),
      if_neg (show ¬(0x4000 ≤ w ∧ w ≤ 0x4FFF) by omega),
      if_neg (show ¬(0x5000 ≤ w ∧ w ≤ 0x5FFF ∧ w &&& 0xF = 0x0) by simp only [and15_eq_mod]; omega),
      if_neg (show ¬(0x6000 ≤ w ∧ w ≤ 0x6FFF) by omega),
      if_neg (show ¬(0x7000 ≤ w ∧ w ≤ 0x7FFF) by omega),
      if_neg (show ¬(0x8000 ≤ w ∧ w ≤ 0x8FFF) by omega),
      if_neg (show ¬(0x9000 ≤ w ∧ w ≤ 0x9FFF ∧ w &&& 0xF = 0x0) by simp only [and15_eq_mod] at h3 ⊢; omega),
      if_neg (show ¬(0xA000 ≤ w ∧ w ≤ 0xAFFF) by omega),
      if_neg (show ¬(0xB000 ≤ w ∧ w ≤ 0xBFFF) by omega),
      if_neg (show ¬(0xC000 ≤ w ∧ w ≤ 0xCFFF) by omega),
      if_neg (show ¬(0xD000 ≤ w ∧ w ≤ 0xDFFF) by omega),
      if_neg (show ¬(0xE000 ≤ w ∧ w ≤ 0xEFFF) by omega),
      if_neg (show ¬(0xF000 ≤ w ∧ w ≤ 0xFFFF) by omega)]

theorem Instruction.try_from_x8_0 (w : Nat) (h1 : 0x8000 ≤ w) (h2 : w ≤ 0x8FFF) (h3 : w &&& 0xF = 0x0) :
    Instruction.try_from w = .ok (.LdVV ((w >>> 8) &&& 0xF) ((w >>> 4) &&& 0xF)) := by
  unfold Instruction.try_from
  rw [if_neg (show ¬(w = 0x00E0) by omega),
      if_neg (show ¬(w = 0x00EE) by omega),
      if_neg (show ¬(0x1000 ≤ w ∧ w ≤ 0x1FFF) by omega),
      if_neg (show ¬(0x2000 ≤ w ∧ w ≤ 0x2FFF) by omega),
      if_neg (show ¬(0x3000 ≤ w ∧ w ≤ 0x3FFF) by omega),
      if_neg (show ¬(0x4000 ≤ w ∧ w ≤ 0x4FFF) by omega),
      if_neg (show ¬(0x5000 ≤ w ∧ w ≤ 0x5FFF ∧ w &&& 0xF = 0x0) by simp only [and15_eq_mod]; omega),
      if_neg (show ¬(0x6000 ≤ w ∧ w ≤ 0x6FFF) by omega),
      if_neg (show ¬(0x7000 ≤ w ∧ w ≤ 0x7FFF) by omega),
      if_pos (show 0x8000 ≤ w ∧ w ≤ 0x8FFF from ⟨h1, h2⟩),
      if_pos h3]

theorem Instruction.try_from_x8_1 (w : Nat) (h1 : 0x8000 ≤ w) (h2 : w ≤ 0x8FFF) (h3 : w &&& 0xF = 0x1) :
    Instruction.try_from w = .ok (.OrVV ((w >>> 8) &&& 0xF) ((w >>> 4) &&& 0xF)) := by
  unfold Instruction.try_from
  rw [if_neg (show ¬(w = 0x00E0) by omega),
      if_neg (show ¬(w = 0x00EE) by omega),
      if_neg (show ¬(0x1000 ≤ w ∧ w ≤ 0x1FFF) by omega),
      if_neg (show ¬(0x2000 ≤ w ∧ w ≤ 0x2FFF) by omega),
      if_neg (show ¬(0x3000 ≤ w ∧ w ≤ 0x3FFF) by omega),
      if_neg (show ¬(0x4000 ≤ w ∧ w ≤ 0x4FFF) by omega),
      if_neg (show ¬(0x5000 ≤ w ∧ w ≤ 0x5FFF ∧ w &&& 0xF = 0x0) by simp only [and15_eq_mod]; omega),
      if_neg (show ¬(0x6000 ≤ w ∧ w ≤ 0x6FFF) by omega),
      if_neg (show ¬(0x7000 ≤ w ∧ w ≤ 0x7FFF) by omega),
      if_pos (show 0x8000 ≤ w ∧ w ≤ 0x8FFF from ⟨h1, h2⟩),
      if_neg (show ¬(w &&& 0xF = 0x0) by rw [h3]; decide),
      if_pos h3]

theorem Instruction.try_from_x8_2 (w : Nat) (h1 : 0x8000 ≤ w) (h2 : w ≤ 0x8FFF) (h3 : w &&& 0xF = 0x2) :
    Instruction.try_from w = .ok (.AndVV ((w >>> 8) &&& 0xF) ((w >>> 4) &&& 0xF)) := by
  unfold Instruction.try_from
  rw [if_neg (show ¬(w = 0x00E0) by omega),
      if_neg (show ¬(w = 0x00EE) by omega),
      if_neg (show ¬(0x1000 ≤ w ∧ w ≤ 0x1FFF) by omega),
      if_neg (show ¬(0x2000 ≤ w ∧ w ≤ 0x2FFF) by omega),
      if_neg (show ¬(0x3000 ≤ w ∧ w ≤ 0x3FFF) by omega),
      if_neg (show ¬(0x4000 ≤ w ∧ w ≤ 0x4FFF) by omega),
      if_neg (show ¬(0x5000 ≤ w ∧ w ≤ 0x5FFF ∧ w &&& 0xF = 0x0) by simp only [and15_eq_mod]; omega),
      if_neg (show ¬(0x6000 ≤ w ∧ w ≤ 0x6FFF) by omega),
      if_neg (show ¬(0x7000 ≤ w ∧ w ≤ 0x7FFF) by omega),
      if_pos (show 0x8000 ≤ w ∧ w ≤ 0x8FFF from ⟨h1, h2⟩),
      if_neg (show ¬(w &&& 0xF = 0x0) by rw [h3]; decide),
      if_neg (show ¬(w &&& 0xF = 0x1) by rw [h3]; decide),
      if_pos h3]

theorem Instruction.try_from_x8_3 (w : Nat) (h1 : 0x8000 ≤ w) (h2 : w ≤ 0x8FFF) (h3 : w &&& 0xF = 0x3) :
    Instruction.try_from w = .ok (.XorVV ((w >>> 8) &&& 0xF) ((w >>> 4) &&& 0xF)) := by
  unfold Instruction.try_from
  rw [if_neg (show ¬(w = 0x00E0) by omega),
      if_neg (show ¬(w = 0x00EE) by omega),
      if_neg (show ¬(0x1000 ≤ w ∧ w ≤ 0x1FFF) by omega),
      if_neg (show ¬(0x2000 ≤ w ∧ w ≤ 0x2FFF) by omega),
      if_neg (show ¬(0x3000 ≤ w ∧ w ≤ 0x3FFF) by omega),
      if_neg (show ¬(0x4000 ≤ w ∧ w ≤ 0x4FFF) by omega),
      if_neg (show ¬(0x5000 ≤ w ∧ w ≤ 0x5FFF ∧ w &&& 0xF = 0x0) by simp only [and15_eq_mod]; omega),
      if_neg (show ¬(0x6000 ≤ w ∧ w ≤ 0x6FFF) by omega),
      if_neg (show ¬(0x7000 ≤ w ∧ w ≤ 0x7FFF) by omega),
      if_pos (show 0x8000 ≤ w ∧ w ≤ 0x8FFF from ⟨h1, h2⟩),
      if_neg (show ¬(w &&& 0xF = 0x0) by rw [h3]; decide),
      if_neg (show ¬(w &&& 0xF = 0x1) by rw [h3]; decide),
      if_neg (show ¬(w &&& 0xF = 0x2) by rw [h3]; decide),
      if_pos h3]

theorem Instruction.try_from_x8_4 (w : Nat) (h1 : 0x8000 ≤ w) (h2 : w ≤ 0x8FFF) (h3 : w &&& 0xF = 0x4) :
    Instruction.try_from w = .ok (.AddVV ((w >>> 8) &&& 0xF) ((w >>> 4) &&& 0xF)) := by
  unfold Instruction.try_from
  rw [if_neg (show ¬(w = 0x00E0) by omega),
      if_neg (show ¬(w = 0x00EE) by omega),
      if_neg (show ¬(0x1000 ≤ w ∧ w ≤ 0x1FFF) by omega),
      if_neg (show ¬(0x2000 ≤ w ∧ w ≤ 0x2FFF) by omega),
      if_neg (show ¬(0x3000 ≤ w ∧ w ≤ 0x3FFF) by omega),
      if_neg (show ¬(0x4000 ≤ w ∧ w ≤ 0x4FFF) by omega),
      if_neg (show ¬(0x5000 ≤ w ∧ w ≤ 0x5FFF ∧ w &&& 0xF = 0x0) by simp only [and15_eq_mod]; omega),
      if_neg (show ¬(0x6000 ≤ w ∧ w ≤ 0x6FFF) by omega),
      if_neg (show ¬(0x7000 ≤ w ∧ w ≤ 0x7FFF) by omega),
      if_pos (show 0x8000 ≤ w ∧ w ≤ 0x8FFF from ⟨h1, h2⟩),
      if_neg (show ¬(w &&& 0xF = 0x0) by rw [h3]; decide),
      if_neg (show ¬(w &&& 0xF = 0x1) by rw [h3]; decide),
      if_neg (show ¬(w &&& 0xF = 0x2) by rw [h3]; decide),
      if_neg (show ¬(w &&& 0xF = 0x3) by rw [h3]; decide),
      if_pos h3]

theorem Instruction.try_from_x8_5 (w : Nat) (h1 : 0x8000 ≤ w) (h2 : w ≤ 0x8FFF) (h3 : w &&& 0xF = 0x5) :
    Instruction.try_from w = .ok (.SubVV ((w >>> 8) &&& 0xF) ((w >>> 4) &&& 0xF)) := by
  unfold Instruction.try_from
  rw [if_neg (show ¬(w = 0x00E0) by omega),
      if_neg (show ¬(w = 0x00EE) by omega),
      if_neg (show ¬(0x1000 ≤ w ∧ w ≤ 0x1FFF) by omega),
      if_neg (show ¬(0x2000 ≤ w ∧ w ≤ 0x2FFF) by omega),
      if_neg (show ¬(0x3000 ≤ w ∧ w ≤ 0x3FFF) by omega),
      if_neg (show ¬(0x4000 ≤ w ∧ w ≤ 0x4FFF) by omega),
      if_neg (show ¬(0x5000 ≤ w ∧ w ≤ 0x5FFF ∧ w &&& 0xF = 0x0) by simp only [and15_eq_mod]; omega),
      if_neg (show ¬(0x6000 ≤ w ∧ w ≤ 0x6FFF) by omega),
      if_neg (show ¬(0x7000 ≤ w ∧ w ≤ 0x7FFF) by omega),
      if_pos (show 0x8000 ≤ w ∧ w ≤ 0x8FFF from ⟨h1, h2⟩),
      if_neg (show ¬(w &&& 0xF = 0x0) by rw [h3]; decide),
      if_neg (show ¬(w &&& 0xF = 0x1) by rw [h3]; decide),
      if_neg (show ¬(w &&& 0xF = 0x2) by rw [h3]; decide),
      if_neg (show ¬(w &&& 0xF = 0x3) by rw [h3]; decide),
      if_neg (show ¬(w &&& 0xF = 0x4) by rw [h3]; decide),
      if_pos h3]

theorem Instruction.try_from_x8_6 (w : Nat) (h1 : 0x8000 ≤ w) (h2 : w ≤ 0x8FFF) (h3 : w &&& 0xF = 0x6) :
    Instruction.try_from w = .ok (.ShrVV ((w >>> 8) &&& 0xF) ((w >>> 4) &&& 0xF)) := by
  unfold Instruction.try_from
  rw [if_neg (show ¬(w = 0x00E0) by omega),
      if_neg (show ¬(w = 0x00EE) by omega),
      if_neg (show ¬(0x1000 ≤ w ∧ w ≤ 0x1FFF) by omega),
      if_neg (show ¬(0x2000 ≤ w ∧ w ≤ 0x2FFF) by omega),
      if_neg (show ¬(0x3000 ≤ w ∧ w ≤ 0x3FFF) by omega),
      if_neg (show ¬(0x4000 ≤ w ∧ w ≤ 0x4FFF) by omega),
      if_neg (show ¬(0x5000 ≤ w ∧ w ≤ 0x5FFF ∧ w &&& 0xF = 0x0) by simp only [and15_eq_mod]; omega),
      if_neg (show ¬(0x6000 ≤ w ∧ w ≤ 0x6FFF) by omega),
      if_neg (show ¬(0x7000 ≤ w ∧ w ≤ 0x7FFF) by omega),
      if_pos (show 0x8000 ≤ w ∧ w ≤ 0x8FFF from ⟨h1, h2⟩),
      if_neg (show ¬(w &&& 0xF = 0x0) by rw [h3]; decide),
      if_neg (show ¬(w &&& 0xF = 0x1) by rw [h3]; decide),
      if_neg (show ¬(w &&& 0xF = 0x2) by rw [h3]; decide),
      if_neg (show ¬(w &&& 0xF = 0x3) by rw [h3]; decide),
      if_neg (show ¬(w &&& 0xF = 0x4) by rw [h3]; decide),
      if_neg (show ¬(w &&& 0xF = 0x5) by rw [h3]; decide),
      if_pos h3]

theorem Instruction.try_from_x8_7 (w : Nat) (h1 : 0x8000 ≤ w) (h2 : w ≤ 0x8FFF) (h3 : w &&& 0xF = 0x7) :
    Instruction.try_from w = .ok (.SubnVV ((w >>> 8) &&& 0xF) ((w >>> 4) &&& 0xF)) := by
  unfold Instruction.try_from
  rw [if_neg (show ¬(w = 0x00E0) by omega),
      if_neg (show ¬(w = 0x00EE) by omega),
      if_neg (show ¬(0x1000 ≤ w ∧ w ≤ 0x1FFF) by omega),
      if_neg (show ¬(0x2000 ≤ w ∧ w ≤ 0x2FFF) by omega),
      if_neg (show ¬(0x3000 ≤ w ∧ w ≤ 0x3FFF) by omega),
      if_neg (show ¬(0x4000 ≤ w ∧ w ≤ 0x4FFF) by omega),
      if_neg (show ¬(0x5000 ≤ w ∧ w ≤ 0x5FFF ∧ w &&& 0xF = 0x0) by simp only [and15_eq_mod]; omega),
      if_neg (show ¬(0x6000 ≤ w ∧ w ≤ 0x6FFF) by omega),
      if_neg (show ¬(0x7000 ≤ w ∧ w ≤ 0x7FFF) by omega),
      if_pos (show 0x8000 ≤ w ∧ w ≤ 0x8FFF from ⟨h1, h2⟩),
      if_neg (show ¬(w &&& 0xF = 0x0) by rw [h3]; decide),
      if_neg (show ¬(w &&& 0xF = 0x1) by rw [h3]; decide),
      if_neg (show ¬(w &&& 0xF = 0x2) by rw [h3]; decide),
      if_neg (show ¬(w &&& 0xF = 0x3) by rw [h3]; decide),
      if_neg (show ¬(w &&& 0xF = 0x4) by rw [h3]; decide),
      if_neg (show ¬(w &&& 0xF = 0x5) by rw [h3]; decide),
      if_neg (show ¬(w &&& 0xF = 0x6) by rw [h3]; decide),
      if_pos h3]

theorem Instruction.try_from_x8_E (w : Nat) (h1 : 0x8000 ≤ w) (h2 : w ≤ 0x8FFF) (h3 : w &&& 0xF = 0xE) :
    Instruction.try_from w = .ok (.ShlVV ((w >>> 8) &&& 0xF) ((w >>> 4) &&& 0xF)) := by
  unfold Instruction.try_from
  rw [if_neg (show ¬(w = 0x00E0) by omega),
      if_neg (show ¬(w = 0x00EE) by omega),
      if_neg (show ¬(0x1000 ≤ w ∧ w ≤ 0x1FFF) by omega),
      if_neg (show ¬(0x2000 ≤ w ∧ w ≤ 0x2FFF) by omega),
      if_neg (show ¬(0x3000 ≤ w ∧ w ≤ 0x3FFF) by omega),
      if_neg (show ¬(0x4000 ≤ w ∧ w ≤ 0x4FFF) by omega),
      if_neg (show ¬(0x5000 ≤ w ∧ w ≤ 0x5FFF ∧ w &&& 0xF = 0x0) by simp only [and15_eq_mod]; omega),
      if_neg (show ¬(0x6000 ≤ w ∧ w ≤ 0x6FFF) by omega),
      if_neg (show ¬(0x7000 ≤ w ∧ w ≤ 0x7FFF) by omega),
      if_pos (show 0x8000 ≤ w ∧ w ≤ 0x8FFF from ⟨h1, h2⟩),
      if_neg (show ¬(w &&& 0xF = 0x0) by rw [h3]; decide),
      if_neg (show ¬(w &&& 0xF = 0x1) by rw [h3]; decide),
      if_neg (show ¬(w &&& 0xF = 0x2) by rw [h3]; decide),
      if_neg (show ¬(w &&& 0xF = 0x3) by rw [h3]; decide),
      if_neg (show ¬(w &&& 0xF = 0x4) by rw [h3]; decide),
      if_neg (show ¬(w &&& 0xF = 0x5) by rw [h3]; decide),
      if_neg (show ¬(w &&& 0xF = 0x6) by rw [h3]; decide),
      if_neg (show ¬(w &&& 0xF = 0x7) by rw [h3]; decide),
      if_pos h3]

theorem Instruction.try_from_x8err (w : Nat) (h1 : 0x8000 ≤ w) (h2 : w ≤ 0x8FFF) (g0 : ¬(w &&& 0xF = 0x0)) (g1 : ¬(w &&& 0xF = 0x1)) (g2 : ¬(w &&& 0xF = 0x2)) (g3 : ¬(w &&& 0xF = 0x3)) (g4 : ¬(w &&& 0xF = 0x4)) (g5 : ¬(w &&& 0xF = 0x5)) (g6 : ¬(w &&& 0xF = 0x6)) (g7 : ¬(w &&& 0xF = 0x7)) (gE : ¬(w &&& 0xF = 0xE)) :
    Instruction.try_from w = Except.error w := by
  unfold Instruction.try_from
  rw [if_neg (show ¬(w = 0x00E0) by omega),
      if_neg (show ¬(w = 0x00EE) by omega),
      if_neg (show ¬(0x1000 ≤ w ∧ w ≤ 0x1FFF) by omega),
      if_neg (show ¬(0x2000 ≤ w ∧ w ≤ 0x2FFF) by omega),
      if_neg (show ¬(0x3000 ≤ w ∧ w ≤ 0x3FFF) by omega),
      if_neg (show ¬(0x4000 ≤ w ∧ w ≤ 0x4FFF) by omega),
      if_neg (show ¬(0x5000 ≤ w ∧ w ≤ 0x5FFF ∧ w &&& 0xF = 0x0) by simp only [and15_eq_mod]; omega),
      if_neg (show ¬(0x6000 ≤ w ∧ w ≤ 0x6FFF) by omega),
      if_neg (show ¬(0x7000 ≤ w ∧ w ≤ 0x7FFF) by omega),
      if_pos (show 0x8000 ≤ w ∧ w ≤ 0x8FFF from ⟨h1, h2⟩),
      if_neg g0,
      if_neg g1,
      if_neg g2,
      if_neg g3,
      if_neg g4,
      if_neg g5,
      if_neg g6,
      if_neg g7,
      if_neg gE]

theorem Instruction.try_from_xE_9E (w : Nat) (h1 : 0xE000 ≤ w) (h2 : w ≤ 0xEFFF) (h3 : w &&& 0xFF = 0x9E) :
    Instruction.try_from w = .ok (.SkpV ((w >>> 8) &&& 0xF)) := by
  unfold Instruction.try_from
  rw [if_neg (show ¬(w = 0x00E0) by omega),
      if_neg (show ¬(w = 0x00EE) by omega),
      if_neg (show ¬(0x1000 ≤ w ∧ w ≤ 0x1FFF) by omega),
      if_neg (show ¬(0x2000 ≤ w ∧ w ≤ 0x2FFF) by omega),
      if_neg (show ¬(0x3000 ≤ w ∧ w ≤ 0x3FFF) by omega),
      if_neg (show ¬(0x4000 ≤ w ∧ w ≤ 0x4FFF) by omega),
      if_neg (show ¬(0x5000 ≤ w ∧ w ≤ 0x5FFF ∧ w &&& 0xF = 0x0) by simp only [and15_eq_mod]; omega),
      if_neg (show ¬(0x6000 ≤ w ∧ w ≤ 0x6FFF) by omega),
      if_neg (show ¬(0x7000 ≤ w ∧ w ≤ 0x7FFF) by omega),
      if_neg (show ¬(0x8000 ≤ w ∧ w ≤ 0x8FFF) by omega),
      if_neg (show ¬(0x9000 ≤ w ∧ w ≤ 0x9FFF ∧ w &&& 0xF = 0x0) by simp only [and15_eq_mod]; omega),
      if_neg (show ¬(0xA000 ≤ w ∧ w ≤ 0xAFFF) by omega),
      if_neg (show ¬(0xB000 ≤ w ∧ w ≤ 0xBFFF) by omega),
      if_neg (show ¬(0xC000 ≤ w ∧ w ≤ 0xCFFF) by omega),
      if_neg (show ¬(0xD000 ≤ w ∧ w ≤ 0xDFFF) by omega),
      if_pos (show 0xE000 ≤ w ∧ w ≤ 0xEFFF from ⟨h1, h2⟩),
      if_pos h3]

theorem Instruction.try_from_xE_A1 (w : Nat) (h1 : 0xE000 ≤ w) (h2 : w ≤ 0xEFFF) (h3 : w &&& 0xFF = 0xA1) :
    Instruction.try_from w = .ok (.SknpV ((w >>> 8) &&& 0xF)) := by
  unfold Instruction.try_from
  rw [if_neg (show ¬(w = 0x00E0) by omega),
      if_neg (show ¬(w = 0x00EE) by omega),
      if_neg (show ¬(0x1000 ≤ w ∧ w ≤ 0x1FFF) by omega),
      if_neg (show ¬(0x2000 ≤ w ∧ w ≤ 0x2FFF) by omega),
      if_neg (show ¬(0x3000 ≤ w ∧ w ≤ 0x3FFF) by omega),
      if_neg (show ¬(0x4000 ≤ w ∧ w ≤ 0x4FFF) by omega),
      if_neg (show ¬(0x5000 ≤ w ∧ w ≤ 0x5FFF ∧ w &&& 0xF = 0x0) by simp only [and15_eq_mod]; omega),
      if_neg (show ¬(0x6000 ≤ w ∧ w ≤ 0x6FFF) by omega),
      if_neg (show ¬(0x7000 ≤ w ∧ w ≤ 0x7FFF) by omega),
      if_neg (show ¬(0x8000 ≤ w ∧ w ≤ 0x8FFF) by omega),
      if_neg (show ¬(0x9000 ≤ w ∧ w ≤ 0x9FFF ∧ w &&& 0xF = 0x0) by simp only [and15_eq_mod]; omega),
      if_neg (show ¬(0xA000 ≤ w ∧ w ≤ 0xAFFF) by omega),
      if_neg (show ¬(0xB000 ≤ w ∧ w ≤ 0xBFFF) by omega),
      if_neg (show ¬(0xC000 ≤ w ∧ w ≤ 0xCFFF) by omega),
      if_neg (show ¬(0xD000 ≤ w ∧ w ≤ 0xDFFF) by omega),
      if_pos (show 0xE000 ≤ w ∧ w ≤ 0xEFFF from ⟨h1, h2⟩),
      if_neg (show ¬(w &&& 0xFF = 0x9E) by rw [h3]; decide),
      if_pos h3]

theorem Instruction.try_from_xEerr (w : Nat) (h1 : 0xE000 ≤ w) (h2 : w ≤ 0xEFFF) (g9E : ¬(w &&& 0xFF = 0x9E)) (gA1 : ¬(w &&& 0xFF = 0xA1)) :
    Instruction.try_from w = Except.error w := by
  unfold Instruction.try_from
  rw [if_neg (show ¬(w = 0x00E0) by omega),
      if_neg (show ¬(w = 0x00EE) by omega),
      if_neg (show ¬(0x1000 ≤ w ∧ w ≤ 0x1FFF) by omega),
      if_neg (show ¬(0x2000 ≤ w ∧ w ≤ 0x2FFF) by omega),
      if_neg (show ¬(0x3000 ≤ w ∧ w ≤ 0x3FFF) by omega),
      if_neg (show ¬(0x4000 ≤ w ∧ w ≤ 0x4FFF) by omega),
      if_neg (show ¬(0x5000 ≤ w ∧ w ≤ 0x5FFF ∧ w &&& 0xF = 0x0) by simp only [and15_eq_mod]; omega),
      if_neg (show ¬(0x6000 ≤ w ∧ w ≤ 0x6FFF) by omega),
      if_neg (show ¬(0x7000 ≤ w ∧ w ≤ 0x7FFF) by omega),
      if_neg (show ¬(0x8000 ≤ w ∧ w ≤ 0x8FFF) by omega),
      if_neg (show ¬(0x9000 ≤ w ∧ w ≤ 0x9FFF ∧ w &&& 0xF = 0x0) by simp only [and15_eq_mod]; omega),
      if_neg (show ¬(0xA000 ≤ w ∧ w ≤ 0xAFFF) by omega),
      if_neg (show ¬(0xB000 ≤ w ∧ w ≤ 0xBFFF) by omega),
      if_neg (show ¬(0xC000 ≤ w ∧ w ≤ 0xCFFF) by omega),
      if_neg (show ¬(0xD000 ≤ w ∧ w ≤ 0xDFFF) by omega),
      if_pos (show 0xE000 ≤ w ∧ w ≤ 0xEFFF from ⟨h1, h2⟩),
      if_neg g9E,
      if_neg gA1]

theorem Instruction.try_from_xF_07 (w : Nat) (h1 : 0xF000 ≤ w) (h2 : w ≤ 0xFFFF) (h3 : w &&& 0xFF = 0x07) :
    Instruction.try_from w = .ok (.LdVDt ((w >>> 8) &&& 0xF)) := by
  unfold Instruction.try_from
  rw [if_neg (show ¬(w = 0x00E0) by omega),
      if_neg (show ¬(w = 0x00EE) by omega),
      if_neg (show ¬(0x1000 ≤ w ∧ w ≤ 0x1FFF) by omega),
      if_neg (show ¬(0x2000 ≤ w ∧ w ≤ 0x2FFF) by omega),
      if_neg (show ¬(0x3000 ≤ w ∧ w ≤ 0x3FFF) by omega),
      if_neg (show ¬(0x4000 ≤ w ∧ w ≤ 0x4FFF) by omega),
      if_neg (show ¬(0x5000 ≤ w ∧ w ≤ 0x5FFF ∧ w &&& 0xF = 0x0) by simp only [and15_eq_mod]; omega),
      if_neg (show ¬(0x6000 ≤ w ∧ w ≤ 0x6FFF) by omega),
      if_neg (show ¬(0x7000 ≤ w ∧ w ≤ 0x7FFF) by omega),
      if_neg (show ¬(0x8000 ≤ w ∧ w ≤ 0x8FFF) by omega),
      if_neg (show ¬(0x9000 ≤ w ∧ w ≤ 0x9FFF ∧ w &&& 0xF = 0x0) by simp only [and15_eq_mod]; omega),
      if_neg (show ¬(0xA000 ≤ w ∧ w ≤ 0xAFFF) by omega),
      if_neg (show ¬(0xB000 ≤ w ∧ w ≤ 0xBFFF) by omega),
      if_neg (show ¬(0xC000 ≤ w ∧ w ≤ 0xCFFF) by omega),
      if_neg (show ¬(0xD000 ≤ w ∧ w ≤ 0xDFFF) by omega),
      if_neg (show ¬(0xE000 ≤ w ∧ w ≤ 0xEFFF) by omega),
      if_pos (show 0xF000 ≤ w ∧ w ≤ 0xFFFF from ⟨h1, h2⟩),
      if_pos h3]

theorem Instruction.try_from_xF_0A (w : Nat) (h1 : 0xF000 ≤ w) (h2 : w ≤ 0xFFFF) (h3 : w &&& 0xFF = 0x0A) :
    Instruction.try_from w = .ok (.LdVK ((w >>> 8) &&& 0xF)) := by
  unfold Instruction.try_from
  rw [if_neg (show ¬(w = 0x00E0) by omega),
      if_neg (show ¬(w = 0x00EE) by omega),
      if_neg (show ¬(0x1000 ≤ w ∧ w ≤ 0x1FFF) by omega),
      if_neg (show ¬(0x2000 ≤ w ∧ w ≤ 0x2FFF) by omega),
      if_neg (show ¬(0x3000 ≤ w ∧ w ≤ 0x3FFF) by omega),
      if_neg (show ¬(0x4000 ≤ w ∧ w ≤ 0x4FFF) by omega),
      if_neg (show ¬(0x5000 ≤ w ∧ w ≤ 0x5FFF ∧ w &&& 0xF = 0x0) by simp only [and15_eq_mod]; omega),
      if_neg (show ¬(0x6000 ≤ w ∧ w ≤ 0x6FFF) by omega),
      if_neg (show ¬(0x7000 ≤ w ∧ w ≤ 0x7FFF) by omega),
      if_neg (show ¬(0x8000 ≤ w ∧ w ≤ 0x8FFF) by omega),
      if_neg (show ¬(0x9000 ≤ w ∧ w ≤ 0x9FFF ∧ w &&& 0xF = 0x0) by simp only [and15_eq_mod]; omega),
      if_neg (show ¬(0xA000 ≤ w ∧ w ≤ 0xAFFF) by omega),
      if_neg (show ¬(0xB000 ≤ w ∧ w ≤ 0xBFFF) by omega),
      if_neg (show ¬(0xC000 ≤ w ∧ w ≤ 0xCFFF) by omega),
      if_neg (show ¬(0xD000 ≤ w ∧ w ≤ 0xDFFF) by omega),
      if_neg (show ¬(0xE000 ≤ w ∧ w ≤ 0xEFFF) by omega),
      if_pos (show 0xF000 ≤ w ∧ w ≤ 0xFFFF from ⟨h1, h2⟩),
      if_neg (show ¬(w &&& 0xFF = 0x07) by rw [h3]; decide),
      if_pos h3]

theorem Instruction.try_from_xF_15 (w : Nat) (h1 : 0xF000 ≤ w) (h2 : w ≤ 0xFFFF) (h3 : w &&& 0xFF = 0x15) :
    Instruction.try_from w = .ok (.LdDtV ((w >>> 8) &&& 0xF)) := by
  unfold Instruction.try_from
  rw [if_neg (show ¬(w = 0x00E0) by omega),
      if_neg (show ¬(w = 0x00EE) by omega),
      if_neg (show ¬(0x1000 ≤ w ∧ w ≤ 0x1FFF) by omega),
      if_neg (show ¬(0x2000 ≤ w ∧ w ≤ 0x2FFF) by omega),
      if_neg (show ¬(0x3000 ≤ w ∧ w ≤ 0x3FFF) by omega),
      if_neg (show ¬(0x4000 ≤ w ∧ w ≤ 0x4FFF) by omega),
      if_neg (show ¬(0x5000 ≤ w ∧ w ≤ 0x5FFF ∧ w &&& 0xF = 0x0) by simp only [and15_eq_mod]; omega),
      if_neg (show ¬(0x6000 ≤ w ∧ w ≤ 0x6FFF) by omega),
      if_neg (show ¬(0x7000 ≤ w ∧ w ≤ 0x7FFF) by omega),
      if_neg (show ¬(0x8000 ≤ w ∧ w ≤ 0x8FFF) by omega),
      if_neg (show ¬(0x9000 ≤ w ∧ w ≤ 0x9FFF ∧ w &&& 0xF = 0x0) by simp only [and15_eq_mod]; omega),
      if_neg (show ¬(0xA000 ≤ w ∧ w ≤ 0xAFFF) by omega),
      if_neg (show ¬(0xB000 ≤ w ∧ w ≤ 0xBFFF) by omega),
      if_neg (show ¬(0xC000 ≤ w ∧ w ≤ 0xCFFF) by omega),
      if_neg (show ¬(0xD000 ≤ w ∧ w ≤ 0xDFFF) by omega),
      if_neg (show ¬(0xE000 ≤ w ∧ w ≤ 0xEFFF) by omega),
      if_pos (show 0xF000 ≤ w ∧ w ≤ 0xFFFF from ⟨h1, h2⟩),
      if_neg (show ¬(w &&& 0xFF = 0x07) by rw [h3]; decide),
      if_neg (show ¬(w &&& 0xFF = 0x0A) by rw [h3]; decide),
      if_pos h3]

theorem Instruction.try_from_xF_18 (w : Nat) (h1 : 0xF000 ≤ w) (h2 : w ≤ 0xFFFF) (h3 : w &&& 0xFF = 0x18) :
    Instruction.try_from w = .ok (.LdStV ((w >>> 8) &&& 0xF)) := by
  unfold Instruction.try_from
  rw [if_neg (show ¬(w = 0x00E0) by omega),
      if_neg (show ¬(w = 0x00EE) by omega),
      if_neg (show ¬(0x1000 ≤ w ∧ w ≤ 0x1FFF) by omega),
      if_neg (show ¬(0x2000 ≤ w ∧ w ≤ 0x2FFF) by omega),
      if_neg (show ¬(0x3000 ≤ w ∧ w ≤ 0x3FFF) by omega),
      if_neg (show ¬(0x4000 ≤ w ∧ w ≤ 0x4FFF) by omega),
      if_neg (show ¬(0x5000 ≤ w ∧ w ≤ 0x5FFF ∧ w &&& 0xF = 0x0) by simp only [and15_eq_mod]; omega),
      if_neg (show ¬(0x6000 ≤ w ∧ w ≤ 0x6FFF) by omega),
      if_neg (show ¬(0x7000 ≤ w ∧ w ≤ 0x7FFF) by omega),
      if_neg (show ¬(0x8000 ≤ w ∧ w ≤ 0x8FFF) by omega),
      if_neg (show ¬(0x9000 ≤ w ∧ w ≤ 0x9FFF ∧ w &&& 0xF = 0x0) by simp only [and15_eq_mod]; omega),
      if_neg (show ¬(0xA000 ≤ w ∧ w ≤ 0xAFFF) by omega),
      if_neg (show ¬(0xB000 ≤ w ∧ w ≤ 0xBFFF) by omega),
      if_neg (show ¬(0xC000 ≤ w ∧ w ≤ 0xCFFF) by omega),
      if_neg (show ¬(0xD000 ≤ w ∧ w ≤ 0xDFFF) by omega),
      if_neg (show ¬(0xE000 ≤ w ∧ w ≤ 0xEFFF) by omega),
      if_pos (show 0xF000 ≤ w ∧ w ≤ 0xFFFF from ⟨h1, h2⟩),
      if_neg (show ¬(w &&& 0xFF = 0x07) by rw [h3]; decide),
      if_neg (show ¬(w &&& 0xFF = 0x0A) by rw [h3]; decide),
      if_neg (show ¬(w &&& 0xFF = 0x15) by rw [h3]; decide),
      if_pos h3]

theorem Instruction.try_from_xF_1E (w : Nat) (h1 : 0xF000 ≤ w) (h2 : w ≤ 0xFFFF) (h3 : w &&& 0xFF = 0x1E) :
    Instruction.try_from w = .ok (.AddIV ((w >>> 8) &&& 0xF)) := by
  unfold Instruction.try_from
  rw [if_neg (show ¬(w = 0x00E0) by omega),
      if_neg (show ¬(w = 0x00EE) by omega),
      if_neg (show ¬(0x1000 ≤ w ∧ w ≤ 0x1FFF) by omega),
      if_neg (show ¬(0x2000 ≤ w ∧ w ≤ 0x2FFF) by omega),
      if_neg (show ¬(0x3000 ≤ w ∧ w ≤ 0x3FFF) by omega),
      if_neg (show ¬(0x4000 ≤ w ∧ w ≤ 0x4FFF) by omega),
      if_neg (show ¬(0x5000 ≤ w ∧ w ≤ 0x5FFF ∧ w &&& 0xF = 0x0) by simp only [and15_eq_mod]; omega),
      if_neg (show ¬(0x6000 ≤ w ∧ w ≤ 0x6FFF) by omega),
      if_neg (show ¬(0x7000 ≤ w ∧ w ≤ 0x7FFF) by omega),
      if_neg (show ¬(0x8000 ≤ w ∧ w ≤ 0x8FFF) by omega),
      if_neg (show ¬(0x9000 ≤ w ∧ w ≤ 0x9FFF ∧ w &&& 0xF = 0x0) by simp only [and15_eq_mod]; omega),
      if_neg (show ¬(0xA000 ≤ w ∧ w ≤ 0xAFFF) by omega),
      if_neg (show ¬(0xB000 ≤ w ∧ w ≤ 0xBFFF) by omega),
      if_neg (show ¬(0xC000 ≤ w ∧ w ≤ 0xCFFF) by omega),
      if_neg (show ¬(0xD000 ≤ w ∧ w ≤ 0xDFFF) by omega),
      if_neg (show ¬(0xE000 ≤ w ∧ w ≤ 0xEFFF) by omega),
      if_pos (show 0xF000 ≤ w ∧ w ≤ 0xFFFF from ⟨h1, h2⟩),
      if_neg (show ¬(w &&& 0xFF = 0x07) by rw [h3]; decide),
      if_neg (show ¬(w &&& 0xFF = 0x0A) by rw [h3]; decide),
      if_neg (show ¬(w &&& 0xFF = 0x15) by rw [h3]; decide),
      if_neg (show ¬(w &&& 0xFF = 0x18) by rw [h3]; decide),
      if_pos h3]

theorem Instruction.try_from_xF_29 (w : Nat) (h1 : 0xF000 ≤ w) (h2 : w ≤ 0xFFFF) (h3 : w &&& 0xFF = 0x29) :
    Instruction.try_from w = .ok (.LdFV ((w >>> 8) &&& 0xF)) := by
  unfold Instruction.try_from
  rw [if_neg (show ¬(w = 0x00E0) by omega),
      if_neg (show ¬(w = 0x00EE) by omega),
      if_neg (show ¬(0x1000 ≤ w ∧ w ≤ 0x1FFF) by omega),
      if_neg (show ¬(0x2000 ≤ w ∧ w ≤ 0x2FFF) by omega),
      if_neg (show ¬(0x3000 ≤ w ∧ w ≤ 0x3FFF) by omega),
      if_neg (show ¬(0x4000 ≤ w ∧ w ≤ 0x4FFF) by omega),
      if_neg (show ¬(0x5000 ≤ w ∧ w ≤ 0x5FFF ∧ w &&& 0xF = 0x0) by simp only [and15_eq_mod]; omega),
      if_neg (show ¬(0x6000 ≤ w ∧ w ≤ 0x6FFF) by omega),
      if_neg (show ¬(0x7000 ≤ w ∧ w ≤ 0x7FFF) by omega),
      if_neg (show ¬(0x8000 ≤ w ∧ w ≤ 0x8FFF) by omega),
      if_neg (show ¬(0x9000 ≤ w ∧ w ≤ 0x9FFF ∧ w &&& 0xF = 0x0) by simp only [and15_eq_mod]; omega),
      if_neg (show ¬(0xA000 ≤ w ∧ w ≤ 0xAFFF) by omega),
      if_neg (show ¬(0xB000 ≤ w ∧ w ≤ 0xBFFF) by omega),
      if_neg (show ¬(0xC000 ≤ w ∧ w ≤ 0xCFFF) by omega),
      if_neg (show ¬(0xD000 ≤ w ∧ w ≤ 0xDFFF) by omega),
      if_neg (show ¬(0xE000 ≤ w ∧ w ≤ 0xEFFF) by omega),
      if_pos (show 0xF000 ≤ w ∧ w ≤ 0xFFFF from ⟨h1, h2⟩),
      if_neg (show ¬(w &&& 0xFF = 0x07) by rw [h3]; decide),
      if_neg (show ¬(w &&& 0xFF = 0x0A) by rw [h3]; decide),
      if_neg (show ¬(w &&& 0xFF = 0x15) by rw [h3]; decide),
      if_neg (show ¬(w &&& 0xFF = 0x18) by rw [h3]; decide),
      if_neg (show ¬(w &&& 0xFF = 0x1E) by rw [h3]; decide),
      if_pos h3]

theorem Instruction.try_from_xF_33 (w : Nat) (h1 : 0xF000 ≤ w) (h2 : w ≤ 0xFFFF) (h3 : w &&& 0xFF = 0x33) :
    Instruction.try_from w = .ok (.LdBV ((w >>> 8) &&& 0xF)) := by
  unfold Instruction.try_from
  rw [if_neg (show ¬(w = 0x00E0) by omega),
      if_neg (show ¬(w = 0x00EE) by omega),
      if_neg (show ¬(0x1000 ≤ w ∧ w ≤ 0x1FFF) by omega),
      if_neg (show ¬(0x2000 ≤ w ∧ w ≤ 0x2FFF) by omega),
      if_neg (show ¬(0x3000 ≤ w ∧ w ≤ 0x3FFF) by omega),
      if_neg (show ¬(0x4000 ≤ w ∧ w ≤ 0x4FFF) by omega),
      if_neg (show ¬(0x5000 ≤ w ∧ w ≤ 0x5FFF ∧ w &&& 0xF = 0x0) by simp only [and15_eq_mod]; omega),
      if_neg (show ¬(0x6000 ≤ w ∧ w ≤ 0x6FFF) by omega),
      if_neg (show ¬(0x7000 ≤ w ∧ w ≤ 0x7FFF) by omega),
      if_neg (show ¬(0x8000 ≤ w ∧ w ≤ 0x8FFF) by omega),
      if_neg (show ¬(0x9000 ≤ w ∧ w ≤ 0x9FFF ∧ w &&& 0xF = 0x0) by simp only [and15_eq_mod]; omega),
      if_neg (show ¬(0xA000 ≤ w ∧ w ≤ 0xAFFF) by omega),
      if_neg (show ¬(0xB000 ≤ w ∧ w ≤ 0xBFFF) by omega),
      if_neg (show ¬(0xC000 ≤ w ∧ w ≤ 0xCFFF) by omega),
      if_neg (show ¬(0xD000 ≤ w ∧ w ≤ 0xDFFF) by omega),
      if_neg (show ¬(0xE000 ≤ w ∧ w ≤ 0xEFFF) by omega),
      if_pos (show 0xF000 ≤ w ∧ w ≤ 0xFFFF from ⟨h1, h2⟩),
      if_neg (show ¬(w &&& 0xFF = 0x07) by rw [h3]; decide),
      if_neg (show ¬(w &&& 0xFF = 0x0A) by rw [h3]; decide),
      if_neg (show ¬(w &&& 0xFF = 0x15) by rw [h3]; decide),
      if_neg (show ¬(w &&& 0xFF = 0x18) by rw [h3]; decide),
      if_neg (show ¬(w &&& 0xFF = 0x1E) by rw [h3]; decide),
      if_neg (show ¬(w &&& 0xFF = 0x29) by rw [h3]; decide),
      if_pos h3]

theorem Instruction.try_from_xF_55 (w : Nat) (h1 : 0xF000 ≤ w) (h2 : w ≤ 0xFFFF) (h3 : w &&& 0xFF = 0x55) :
    Instruction.try_from w = .ok (.LdIV ((w >>> 8) &&& 0xF)) := by
  unfold Instruction.try_from
  rw [if_neg (show ¬(w = 0x00E0) by omega),
      if_neg (show ¬(w = 0x00EE) by omega),
      if_neg (show ¬(0x1000 ≤ w ∧ w ≤ 0x1FFF) by omega),
      if_neg (show ¬(0x2000 ≤ w ∧ w ≤ 0x2FFF) by omega),
      if_neg (show ¬(0x3000 ≤ w ∧ w ≤ 0x3FFF) by omega),
      if_neg (show ¬(0x4000 ≤ w ∧ w ≤ 0x4FFF) by omega),
      if_neg (show ¬(0x5000 ≤ w ∧ w ≤ 0x5FFF ∧ w &&& 0xF = 0x0) by simp only [and15_eq_mod]; omega),
      if_neg (show ¬(0x6000 ≤ w ∧ w ≤ 0x6FFF) by omega),
      if_neg (show ¬(0x7000 ≤ w ∧ w ≤ 0x7FFF) by omega),
      if_neg (show ¬(0x8000 ≤ w ∧ w ≤ 0x8FFF) by omega),
      if_neg (show ¬(0x9000 ≤ w ∧ w ≤ 0x9FFF ∧ w &&& 0xF = 0x0) by simp only [and15_eq_mod]; omega),
      if_neg (show ¬(0xA000 ≤ w ∧ w ≤ 0xAFFF) by omega),
      if_neg (show ¬(0xB000 ≤ w ∧ w ≤ 0xBFFF) by omega),
      if_neg (show ¬(0xC000 ≤ w ∧ w ≤ 0xCFFF) by omega),
      if_neg (show ¬(0xD000 ≤ w ∧ w ≤ 0xDFFF) by omega),
      if_neg (show ¬(0xE000 ≤ w ∧ w ≤ 0xEFFF) by omega),
      if_pos (show 0xF000 ≤ w ∧ w ≤ 0xFFFF from ⟨h1, h2⟩),
      if_neg (show ¬(w &&& 0xFF = 0x07) by rw [h3]; decide),
      if_neg (show ¬(w &&& 0xFF = 0x0A) by rw [h3]; decide),
      if_neg (show ¬(w &&& 0xFF = 0x15) by rw [h3]; decide),
      if_neg (show ¬(w &&& 0xFF = 0x18) by rw [h3]; decide),
      if_neg (show ¬(w &&& 0xFF = 0x1E) by rw [h3]; decide),
      if_neg (show ¬(w &&& 0xFF = 0x29) by rw [h3]; decide),
      if_neg (show ¬(w &&& 0xFF = 0x33) by rw [h3]; decide),
      if_pos h3]

theorem Instruction.try_from_xF_65 (w : Nat) (h1 : 0xF000 ≤ w) (h2 : w ≤ 0xFFFF) (h3 : w &&& 0xFF = 0x65) :
    Instruction.try_from w = .ok (.LdVI ((w >>> 8) &&& 0xF)) := by
  unfold Instruction.try_from
  rw [if_neg (show ¬(w = 0x00E0) by omega),
      if_neg (show ¬(w = 0x00EE) by omega),
      if_neg (show ¬(0x1000 ≤ w ∧ w ≤ 0x1FFF) by omega),
      if_neg (show ¬(0x2000 ≤ w ∧ w ≤ 0x2FFF) by omega),
      if_neg (show ¬(0x3000 ≤ w ∧ w ≤ 0x3FFF) by omega),
      if_neg (show ¬(0x4000 ≤ w ∧ w ≤ 0x4FFF) by omega),
      if_neg (show ¬(0x5000 ≤ w ∧ w ≤ 0x5FFF ∧ w &&& 0xF = 0x0) by simp only [and15_eq_mod]; omega),
      if_neg (show ¬(0x6000 ≤ w ∧ w ≤ 0x6FFF) by omega),
      if_neg (show ¬(0x7000 ≤ w ∧ w ≤ 0x7FFF) by omega),
      if_neg (show ¬(0x8000 ≤ w ∧ w ≤ 0x8FFF) by omega),
      if_neg (show ¬(0x9000 ≤ w ∧ w ≤ 0x9FFF ∧ w &&& 0xF = 0x0) by simp only [and15_eq_mod]; omega),
      if_neg (show ¬(0xA000 ≤ w ∧ w ≤ 0xAFFF) by omega),
      if_neg (show ¬(0xB000 ≤ w ∧ w ≤ 0xBFFF) by omega),
      if_neg (show ¬(0xC000 ≤ w ∧ w ≤ 0xCFFF) by omega),
      if_neg (show ¬(0xD000 ≤ w ∧ w ≤ 0xDFFF) by omega),
      if_neg (show ¬(0xE000 ≤ w ∧ w ≤ 0xEFFF) by omega),
      if_pos (show 0xF000 ≤ w ∧ w ≤ 0xFFFF from ⟨h1, h2⟩),
      if_neg (show ¬(w &&& 0xFF = 0x07) by rw [h3]; decide),
      if_neg (show ¬(w &&& 0xFF = 0x0A) by rw [h3]; decide),
      if_neg (show ¬(w &&& 0xFF = 0x15) by rw [h3]; decide),
      if_neg (show ¬(w &&& 0xFF = 0x18) by rw [h3]; decide),
      if_neg (show ¬(w &&& 0xFF = 0x1E) by rw [h3]; decide),
      if_neg (show ¬(w &&& 0xFF = 0x29) by rw [h3]; decide),
      if_neg (show ¬(w &&& 0xFF = 0x33) by rw [h3]; decide),
      if_neg (show ¬(w &&& 0xFF = 0x55) by rw [h3]; decide),
      if_pos h3]

theorem Instruction.try_from_xFerr (w : Nat) (h1 : 0xF000 ≤ w) (h2 : w ≤ 0xFFFF) (g07 : ¬(w &&& 0xFF = 0x07)) (g0A : ¬(w &&& 0xFF = 0x0A)) (g15 : ¬(w &&& 0xFF = 0x15)) (g18 : ¬(w &&& 0xFF = 0x18)) (g1E : ¬(w &&& 0xFF = 0x1E)) (g29 : ¬(w &&& 0xFF = 0x29)) (g33 : ¬(w &&& 0xFF = 0x33)) (g55 : ¬(w &&& 0xFF = 0x55)) (g65 : ¬(w &&& 0xFF = 0x65)) :
    Instruction.try_from w = Except.error w := by
  unfold Instruction.try_from
  rw [if_neg (show ¬(w = 0x00E0) by omega),
      if_neg (show ¬(w = 0x00EE) by omega),
      if_neg (show ¬(0x1000 ≤ w ∧ w ≤ 0x1FFF) by omega),
      if_neg (show ¬(0x2000 ≤ w ∧ w ≤ 0x2FFF) by omega),
      if_neg (show ¬(0x3000 ≤ w ∧ w ≤ 0x3FFF) by omega),
      if_neg (show ¬(0x4000 ≤ w ∧ w ≤ 0x4FFF) by omega),
      if_neg (show ¬(0x5000 ≤ w ∧ w ≤ 0x5FFF ∧ w &&& 0xF = 0x0) by simp only [and15_eq_mod]; omega),
      if_neg (show ¬(0x6000 ≤ w ∧ w ≤ 0x6FFF) by omega),
      if_neg (show ¬(0x7000 ≤ w ∧ w ≤ 0x7FFF) by omega),
      if_neg (show ¬(0x8000 ≤ w ∧ w ≤ 0x8FFF) by omega),
      if_neg (show ¬(0x9000 ≤ w ∧ w ≤ 0x9FFF ∧ w &&& 0xF = 0x0) by simp only [and15_eq_mod]; omega),
      if_neg (show ¬(0xA000 ≤ w ∧ w ≤ 0xAFFF) by omega),
      if_neg (show ¬(0xB000 ≤ w ∧ w ≤ 0xBFFF) by omega),
      if_neg (show ¬(0xC000 ≤ w ∧ w ≤ 0xCFFF) by omega),
      if_neg (show ¬(0xD000 ≤ w ∧ w ≤ 0xDFFF) by omega),
      if_neg (show ¬(0xE000 ≤ w ∧ w ≤ 0xEFFF) by omega),
      if_pos (show 0xF000 ≤ w ∧ w ≤ 0xFFFF from ⟨h1, h2⟩),
      if_neg g07,
      if_neg g0A,
      if_neg g15,
      if_neg g18,
      if_neg g1E,
      if_neg g29,
      if_neg g33,
      if_neg g55,
      if_neg g65]

theorem Instruction.try_from_xhi (w : Nat) (h1 : 0x10000 ≤ w) :
    Instruction.try_from w = Except.error w := by
  unfold Instruction.try_from
  rw [if_neg (show ¬(w = 0x00E0) by omega),
      if_neg (show ¬(w = 0x00EE) by omega),
      if_neg (show ¬(0x1000 ≤ w ∧ w ≤ 0x1FFF) by omega),
      if_neg (show ¬(0x2000 ≤ w ∧ w ≤ 0x2FFF) by omega),
      if_neg (show ¬(0x3000 ≤ w ∧ w ≤ 0x3FFF) by omega),
      if_neg (show ¬(0x4000 ≤ w ∧ w ≤ 0x4FFF) by omega),
      if_neg (show ¬(0x5000 ≤ w ∧ w ≤ 0x5FFF ∧ w &&& 0xF = 0x0) by simp only [and15_eq_mod]; omega),
      if_neg (show ¬(0x6000 ≤ w ∧ w ≤ 0x6FFF) by omega),
      if_neg (show ¬(0x7000 ≤ w ∧ w ≤ 0x7FFF) by omega),
      if_neg (show ¬(0x8000 ≤ w ∧ w ≤ 0x8FFF) by omega),
      if_neg (show ¬(0x9000 ≤ w ∧ w ≤ 0x9FFF ∧ w &&& 0xF = 0x0) by simp only [and15_eq_mod]; omega),
      if_neg (show ¬(0xA000 ≤ w ∧ w ≤ 0xAFFF) by omega),
      if_neg (show ¬(0xB000 ≤ w ∧ w ≤ 0xBFFF) by omega),
      if_neg (show ¬(0xC000 ≤ w ∧ w ≤ 0xCFFF) by omega),
      if_neg (show ¬(0xD000 ≤ w ∧ w ≤ 0xDFFF) by omega),
      if_neg (show ¬(0xE000 ≤ w ∧ w ≤ 0xEFFF) by omega),
      if_neg (show ¬(0xF000 ≤ w ∧ w ≤ 0xFFFF) by omega)]

theorem Command.try_from_cx0 (w : Nat) (h1 : w < 0x1000) (h2 : w ≠ 0x00E0) (h3 : w ≠ 0x00EE) :
    Command.try_from w = Except.error "Unknown command" := by
  unfold Command.try_from
  rw [if_neg h2,
      if_neg h3,
      if_neg (show ¬(0x1000 ≤ w ∧ w ≤ 0x1FFF) by omega),
      if_neg (show ¬(0x2000 ≤ w ∧ w ≤ 0x2FFF) by omega),
      if_neg (show ¬(0x3000 ≤ w ∧ w ≤ 0x3FFF) by omega),
      if_neg (show ¬(0x4000 ≤ w ∧ w ≤ 0x4FFF) by omega),
      if_neg (show ¬(0x5000 ≤ w ∧ w ≤ 0x5FFF ∧ w % 0x10 = 0) by omega),
      if_neg (show ¬(0x6000 ≤ w ∧ w ≤ 0x6FFF) by omega),
      if_neg (show ¬(0x7000 ≤ w ∧ w ≤ 0x7FFF) by omega),
      if_neg (show ¬(0x8000 ≤ w ∧ w ≤ 0x8FFF) by omega),
      if_neg (show ¬(0x9000 ≤ w ∧ w ≤ 0x9FFF ∧ w % 0x10 = 0) by omega),
      if_neg (show ¬(0xA000 ≤ w ∧ w ≤ 0xAFFF) by omega),
      if_neg (show ¬(0xB000 ≤ w ∧ w ≤ 0xBFFF) by omega),
      if_neg (show ¬(0xC000 ≤ w ∧ w ≤ 0xCFFF) by omega),
      if_neg (show ¬(0xD000 ≤ w ∧ w ≤ 0xDFFF) by omega),
      if_neg (show ¬(0xE000 ≤ w ∧ w ≤ 0xEFFF) by omega),
      if_neg (show ¬(0xF000 ≤ w ∧ w ≤ 0xFFFF) by omega)]

theorem Command.try_from_cx1 (w : Nat) (h1 : 0x1000 ≤ w) (h2 : w ≤ 0x1FFF) :
    Command.try_from w = .ok (.Jp (w &&& 0x0FFF)) := by
  unfold Command.try_from
  rw [if_neg (show ¬(w = 0x00E0) by omega),
      if_neg (show ¬(w = 0x00EE) by omega),
      if_pos (show 0x1000 ≤ w ∧ w ≤ 0x1FFF from ⟨h1, h2⟩)]

theorem Command.try_from_cx2 (w : Nat) (h1 : 0x2000 ≤ w) (h2 : w ≤ 0x2FFF) :
    Command.try_from w = .ok (.Call (w &&& 0x0FFF)) := by
  unfold Command.try_from
  rw [if_neg (show ¬(w = 0x00E0) by omega),
      if_neg (show ¬(w = 0x00EE) by omega),
      if_neg (show ¬(0x1000 ≤ w ∧ w ≤ 0x1FFF) by omega),
      if_pos (show 0x2000 ≤ w ∧ w ≤ 0x2FFF from ⟨h1, h2⟩)]

theorem Command.try_from_cx3 (w : Nat) (h1 : 0x3000 ≤ w) (h2 : w ≤ 0x3FFF) :
    Command.try_from w = .ok (.SeV ((w >>> 8) &&& 0x0F) (w &&& 0x00FF)) := by
  unfold Command.try_from
  rw [if_neg (show ¬(w = 0x00E0) by omega),
      if_neg (show ¬(w = 0x00EE) by omega),
      if_neg (show ¬(0x1000 ≤ w ∧ w ≤ 0x1FFF) by omega),
      if_neg (show ¬(0x2000 ≤ w ∧ w ≤ 0x2FFF) by omega),
      if_pos (show 0x3000 ≤ w ∧ w ≤ 0x3FFF from ⟨h1, h2⟩)]

theorem Command.try_from_cx4 (w : Nat) (h1 : 0x4000 ≤ w) (h2 : w ≤ 0x4FFF) :
    Command.try_from w = .ok (.SneV ((w >>> 8) &&& 0x0F) (w &&& 0x00FF)) := by
  unfold Command.try_from
  rw [if_neg (show ¬(w = 0x00E0) by omega),
      if_neg (show ¬(w = 0x00EE) by omega),
      if_neg (show ¬(0x1000 ≤ w ∧ w ≤ 0x1FFF) by omega),
      if_neg (show ¬(0x2000 ≤ w ∧ w ≤ 0x2FFF) by omega),
      if_neg (show ¬(0x3000 ≤ w ∧ w ≤ 0x3FFF) by omega),
      if_pos (show 0x4000 ≤ w ∧ w ≤ 0x4FFF from ⟨h1, h2⟩)]

theorem Command.try_from_cx6 (w : Nat) (h1 : 0x6000 ≤ w) (h2 : w ≤ 0x6FFF) :
    Command.try_from w = .ok (.LdV ((w >>> 8) &&& 0x0F) (w &&& 0x00FF)) := by
  unfold Command.try_from
  rw [if_neg (show ¬(w = 0x00E0) by omega),
      if_neg (show ¬(w = 0x00EE) by omega),
      if_neg (show ¬(0x1000 ≤ w ∧ w ≤ 0x1FFF) by omega),
      if_neg (show ¬(0x2000 ≤ w ∧ w ≤ 0x2FFF) by omega),
      if_neg (show ¬(0x3000 ≤ w ∧ w ≤ 0x3FFF) by omega),
      if_neg (show ¬(0x4000 ≤ w ∧ w ≤ 0x4FFF) by omega),
      if_neg (show ¬(0x5000 ≤ w ∧ w ≤ 0x5FFF ∧ w % 0x10 = 0) by omega),
      if_pos (show 0x6000 ≤ w ∧ w ≤ 0x6FFF from ⟨h1, h2⟩)]

theorem Command.try_from_cx7 (w : Nat) (h1 : 0x7000 ≤ w) (h2 : w ≤ 0x7FFF) :
    Command.try_from w = .ok (.AddV ((w >>> 8) &&& 0x0F) (w &&& 0x00FF)) := by
  unfold Command.try_from
  rw [if_neg (show ¬(w = 0x00E0) by omega),
      if_neg (show ¬(w = 0x00EE) by omega),
      if_neg (show ¬(0x1000 ≤ w ∧ w ≤ 0x1FFF) by omega),
      if_neg (show ¬(0x2000 ≤ w ∧ w ≤ 0x2FFF) by omega),
      if_neg (show ¬(0x3000 ≤ w ∧ w ≤ 0x3FFF) by omega),
      if_neg (show ¬(0x4000 ≤ w ∧ w ≤ 0x4FFF) by omega),
      if_neg (show ¬(0x5000 ≤ w ∧ w ≤ 0x5FFF ∧ w % 0x10 = 0) by omega),
      if_neg (show ¬(0x6000 ≤ w ∧ w ≤ 0x6FFF) by omega),
      if_pos (show 0x7000 ≤ w ∧ w ≤ 0x7FFF from ⟨h1, h2⟩)]

theorem Command.try_from_cxA (w : Nat) (h1 : 0xA000 ≤ w) (h2 : w ≤ 0xAFFF) :
    Command.try_from w = .ok (.LdI (w &&& 0x0FFF)) := by
  unfold Command.try_from
  rw [if_neg (show ¬(w = 0x00E0) by omega),
      if_neg (show ¬(w = 0x00EE) by omega),
      if_neg (show ¬(0x1000 ≤ w ∧ w ≤ 0x1FFF) by omega),
      if_neg (show ¬(0x2000 ≤ w ∧ w ≤ 0x2FFF) by omega),
      if_neg (show ¬(0x3000 ≤ w ∧ w ≤ 0x3FFF) by omega),
      if_neg (show ¬(0x4000 ≤ w ∧ w ≤ 0x4FFF) by omega),
      if_neg (show ¬(0x5000 ≤ w ∧ w ≤ 0x5FFF ∧ w % 0x10 = 0) by omega),
      if_neg (show ¬(0x6000 ≤ w ∧ w ≤ 0x6FFF) by omega),
      if_neg (show ¬(0x7000 ≤ w ∧ w ≤ 0x7FFF) by omega),
      if_neg (show ¬(0x8000 ≤ w ∧ w ≤ 0x8FFF) by omega),
      if_neg (show ¬(0x9000 ≤ w ∧ w ≤ 0x9FFF ∧ w % 0x10 = 0) by omega),
      if_pos (show 0xA000 ≤ w ∧ w ≤ 0xAFFF from ⟨h1, h2⟩)]

theorem Command.try_from_cxB (w : Nat) (h1 : 0xB000 ≤ w) (h2 : w ≤ 0xBFFF) :
    Command.try_from w = .ok (.JpV0 (w &&& 0x0FFF)) := by
  unfold Command.try_from
  rw [if_neg (show ¬(w = 0x00E0) by omega),
      if_neg (show ¬(w = 0x00EE) by omega),
      if_neg (show ¬(0x1000 ≤ w ∧ w ≤ 0x1FFF) by omega),
      if_neg (show ¬(0x2000 ≤ w ∧ w ≤ 0x2FFF) by omega),
      if_neg (show ¬(0x3000 ≤ w ∧ w ≤ 0x3FFF) by omega),
      if_neg (show ¬(0x4000 ≤ w ∧ w ≤ 0x4FFF) by omega),
      if_neg (show ¬(0x5000 ≤ w ∧ w ≤ 0x5FFF ∧ w % 0x10 = 0) by omega),
      if_neg (show ¬(0x6000 ≤ w ∧ w ≤ 0x6FFF) by omega),
      if_neg (show ¬(0x7000 ≤ w ∧ w ≤ 0x7FFF) by omega),
      if_neg (show ¬(0x8000 ≤ w ∧ w ≤ 0x8FFF) by omega),
      if_neg (show ¬(0x9000 ≤ w ∧ w ≤ 0x9FFF ∧ w % 0x10 = 0) by omega),
      if_neg (show ¬(0xA000 ≤ w ∧ w ≤ 0xAFFF) by omega),
      if_pos (show 0xB000 ≤ w ∧ w ≤ 0xBFFF from ⟨h1, h2⟩)]

theorem Command.try_from_cxC (w : Nat) (h1 : 0xC000 ≤ w) (h2 : w ≤ 0xCFFF) :
    Command.try_from w = .ok (.RndV ((w >>> 8) &&& 0x0F) (w &&& 0x00FF)) := by
  unfold Command.try_from
  rw [if_neg (show ¬(w = 0x00E0) by omega),
      if_neg (show ¬(w = 0x00EE) by omega),
      if_neg (show ¬(0x1000 ≤ w ∧ w ≤ 0x1FFF) by omega),
      if_neg (show ¬(0x2000 ≤ w ∧ w ≤ 0x2FFF) by omega),
      if_neg (show ¬(0x3000 ≤ w ∧ w ≤ 0x3FFF) by omega),
      if_neg (show ¬(0x4000 ≤ w ∧ w ≤ 0x4FFF) by omega),
      if_neg (show ¬(0x5000 ≤ w ∧ w ≤ 0x5FFF ∧ w % 0x10 = 0) by omega),
      if_neg (show ¬(0x6000 ≤ w ∧ w ≤ 0x6FFF) by omega),
      if_neg (show ¬(0x7000 ≤ w ∧ w ≤ 0x7FFF) by omega),
      if_neg (show ¬(0x8000 ≤ w ∧ w ≤ 0x8FFF) by omega),
      if_neg (show ¬(0x9000 ≤ w ∧ w ≤ 0x9FFF ∧ w % 0x10 = 0) by omega),
      if_neg (show ¬(0xA000 ≤ w ∧ w ≤ 0xAFFF) by omega),
      if_neg (show ¬(0xB000 ≤ w ∧ w ≤ 0xBFFF) by omega),
      if_pos (show 0xC000 ≤ w ∧ w ≤ 0xCFFF from ⟨h1, h2⟩)]

theorem Command.try_from_cxD (w : Nat) (h1 : 0xD000 ≤ w) (h2 : w ≤ 0xDFFF) :
    Command.try_from w = .ok (.DrwVV ((w >>> 8) &&& 0x0F) ((w >>> 4) &&& 0x0F) (w &&& 0x0F)) := by
  unfold Command.try_from
  rw [if_neg (show ¬(w = 0x00E0) by omega),
      if_neg (show ¬(w = 0x00EE) by omega),
      if_neg (show ¬(0x1000 ≤ w ∧ w ≤ 0x1FFF) by omega),
      if_neg (show ¬(0x2000 ≤ w ∧ w ≤ 0x2FFF) by omega),
      if_neg (show ¬(0x3000 ≤ w ∧ w ≤ 0x3FFF) by omega),
      if_neg (show ¬(0x4000 ≤ w ∧ w ≤ 0x4FFF) by omega),
      if_neg (show ¬(0x5000 ≤ w ∧ w ≤ 0x5FFF ∧ w % 0x10 = 0) by omega),
      if_neg (show ¬(0x6000 ≤ w ∧ w ≤ 0x6FFF) by omega),
      if_neg (show ¬(0x7000 ≤ w ∧ w ≤ 0x7FFF) by omega),
      if_neg (show ¬(0x8000 ≤ w ∧ w ≤ 0x8FFF) by omega),
      if_neg (show ¬(0x9000 ≤ w ∧ w ≤ 0x9FFF ∧ w % 0x10 = 0) by omega),
      if_neg (show ¬(0xA000 ≤ w ∧ w ≤ 0xAFFF) by omega),
      if_neg (show ¬(0xB000 ≤ w ∧ w ≤ 0xBFFF) by omega),
      if_neg (show ¬(0xC000 ≤ w ∧ w ≤ 0xCFFF) by omega),
      if_pos (show 0xD000 ≤ w ∧ w ≤ 0xDFFF from ⟨h1, h2⟩)]

theorem Command.try_from_cx5ok (w : Nat) (h1 : 0x5000 ≤ w) (h2 : w ≤ 0x5FFF) (h3 : w % 0x10 = 0) :
    Command.try_from w = .ok (.SeVV ((w >>> 8) &&& 0x0F) ((w >>> 4) &&& 0x0F)) := by
  unfold Command.try_from
  rw [if_neg (show ¬(w = 0x00E0) by omega),
      if_neg (show ¬(w = 0x00EE) by omega),
      if_neg (show ¬(0x1000 ≤ w ∧ w ≤ 0x1FFF) by omega),
      if_neg (show ¬(0x2000 ≤ w ∧ w ≤ 0x2FFF) by omega),
      if_neg (show ¬(0x3000 ≤ w ∧ w ≤ 0x3FFF) by omega),
      if_neg (show ¬(0x4000 ≤ w ∧ w ≤ 0x4FFF) by omega),
      if_pos (show 0x5000 ≤ w ∧ w ≤ 0x5FFF ∧ w % 0x10 = 0 from ⟨h1, h2, h3⟩)]

theorem Command.try_from_cx5err (w : Nat) (h1 : 0x5000 ≤ w) (h2 : w ≤ 0x5FFF) (h3 : ¬(w % 0x10 = 0)) :
    Command.try_from w = Except.error "Unknown command" := by
  unfold Command.try_from
  rw [if_neg (show ¬(w = 0x00E0) by omega),
      if_neg (show ¬(w = 0x00EE) by omega),
      if_neg (show ¬(0x1000 ≤ w ∧ w ≤ 0x1FFF) by omega),
      if_neg (show ¬(0x2000 ≤ w ∧ w ≤ 0x2FFF) by omega),
      if_neg (show ¬(0x3000 ≤ w ∧ w ≤ 0x3FFF) by omega),
      if_neg (show ¬(0x4000 ≤ w ∧ w ≤ 0x4FFF) by omega),
      if_neg (show ¬(0x5000 ≤ w ∧ w ≤ 0x5FFF ∧ w % 0x10 = 0) by omega),
      if_neg (show ¬(0x6000 ≤ w ∧ w ≤ 0x6FFF) by omega),
      if_neg (show ¬(0x7000 ≤ w ∧ w ≤ 0x7FFF) by omega),
      if_neg (show ¬(0x8000 ≤ w ∧ w ≤ 0x8FFF) by omega),
      if_neg (show ¬(0x9000 ≤ w ∧ w ≤ 0x9FFF ∧ w % 0x10 = 0) by omega),
      if_neg (show ¬(0xA000 ≤ w ∧ w ≤ 0xAFFF) by omega),
      if_neg (show ¬(0xB000 ≤ w ∧ w ≤ 0xBFFF) by omega),
      if_neg (show ¬(0xC000 ≤ w ∧ w ≤ 0xCFFF) by omega),
      if_neg (show ¬(0xD000 ≤ w ∧ w ≤ 0xDFFF) by omega),
      if_neg (show ¬(0xE000 ≤ w ∧ w ≤ 0xEFFF) by omega),
      if_neg (show ¬(0xF000 ≤ w ∧ w ≤ 0xFFFF) by omega)]

theorem Command.try_from_cx9ok (w : Nat) (h1 : 0x9000 ≤ w) (h2 : w ≤ 0x9FFF) (h3 : w % 0x10 = 0) :
    Command.try_from w = .ok (.SneVV ((w >>> 8) &&& 0x0F) ((w >>> 4) &&& 0x0F)) := by
  unfold Command.try_from
  rw [if_neg (show ¬(w = 0x00E0) by omega),
      if_neg (show ¬(w = 0x00EE) by omega),
      if_neg (show ¬(0x1000 ≤ w ∧ w ≤ 0x1FFF) by omega),
      if_neg (show ¬(0x2000 ≤ w ∧ w ≤ 0x2FFF) by omega),
      if_neg (show ¬(0x3000 ≤ w ∧ w ≤ 0x3FFF) by omega),
      if_neg (show ¬(0x4000 ≤ w ∧ w ≤ 0x4FFF) by omega),
      if_neg (show ¬(0x5000 ≤ w ∧ w ≤ 0x5FFF ∧ w % 0x10 = 0) by omega),
      if_neg (show ¬(0x6000 ≤ w ∧ w ≤ 0x6FFF) by omega),
      if_neg (show ¬(0x7000 ≤ w ∧ w ≤ 0x7FFF) by omega),
      if_neg (show ¬(0x8000 ≤ w ∧ w ≤ 0x8FFF) by omega),
      if_pos (show 0x9000 ≤ w ∧ w ≤ 0x9FFF ∧ w % 0x10 = 0 from ⟨h1, h2, h3⟩)]

theorem Command.try_from_cx9err (w : Nat) (h1 : 0x9000 ≤ w) (h2 : w ≤ 0x9FFF) (h3 : ¬(w % 0x10 = 0)) :
    Command.try_from w = Except.error "Unknown command" := by
  unfold Command.try_from
  rw [if_neg (show ¬(w = 0x00E0) by omega),
      if_neg (show ¬(w = 0x00EE) by omega),
      if_neg (show ¬(0x1000 ≤ w ∧ w ≤ 0x1FFF) by omega),
      if_neg (show ¬(0x2000 ≤ w ∧ w ≤ 0x2FFF) by omega),
      if_neg (show ¬(0x3000 ≤ w ∧ w ≤ 0x3FFF) by omega),
      if_neg (show ¬(0x4000 ≤ w ∧ w ≤ 0x4FFF) by omega),
      if_neg (show ¬(0x5000 ≤ w ∧ w ≤ 0x5FFF ∧ w % 0x10 = 0) by omega),
      if_neg (show ¬(0x6000 ≤ w ∧ w ≤ 0x6FFF) by omega),
      if_neg (show ¬(0x7000 ≤ w ∧ w ≤ 0x7FFF) by omega),
      if_neg (show ¬(0x8000 ≤ w ∧ w ≤ 0x8FFF) by omega),
      if_neg (show ¬(0x9000 ≤ w ∧ w ≤ 0x9FFF ∧ w % 0x10 = 0) by omega),
      if_neg (show ¬(0xA000 ≤ w ∧ w ≤ 0xAFFF) by omega),
      if_neg (show ¬(0xB000 ≤ w ∧ w ≤ 0xBFFF) by omega),
      if_neg (show ¬(0xC000 ≤ w ∧ w ≤ 0xCFFF) by omega),
      if_neg (show ¬(0xD000 ≤ w ∧ w ≤ 0xDFFF) by omega),
      if_neg (show ¬(0xE000 ≤ w ∧ w ≤ 0xEFFF) by omega),
      if_neg (show ¬(0xF000 ≤ w ∧ w ≤ 0xFFFF) by omega)]

theorem Command.try_from_cx8_0 (w : Nat) (h1 : 0x8000 ≤ w) (h2 : w ≤ 0x8FFF) (h3 : w % 0x10 = 0x0) :
    Command.try_from w = .ok (.LdVV ((w >>> 8) &&& 0x0F) ((w >>> 4) &&& 0x0F)) := by
  unfold Command.try_from
  rw [if_neg (show ¬(w = 0x00E0) by omega),
      if_neg (show ¬(w = 0x00EE) by omega),
      if_neg (show ¬(0x1000 ≤ w ∧ w ≤ 0x1FFF) by omega),
      if_neg (show ¬(0x2000 ≤ w ∧ w ≤ 0x2FFF) by omega),
      if_neg (show ¬(0x3000 ≤ w ∧ w ≤ 0x3FFF) by omega),
      if_neg (show ¬(0x4000 ≤ w ∧ w ≤ 0x4FFF) by omega),
      if_neg (show ¬(0x5000 ≤ w ∧ w ≤ 0x5FFF ∧ w % 0x10 = 0) by omega),
      if_neg (show ¬(0x6000 ≤ w ∧ w ≤ 0x6FFF) by omega),
      if_neg (show ¬(0x7000 ≤ w ∧ w ≤ 0x7FFF) by omega),
      if_pos (show 0x8000 ≤ w ∧ w ≤ 0x8FFF from ⟨h1, h2⟩),
      if_pos h3]

theorem Command.try_from_cx8_1 (w : Nat) (h1 : 0x8000 ≤ w) (h2 : w ≤ 0x8FFF) (h3 : w % 0x10 = 0x1) :
    Command.try_from w = .ok (.OrVV ((w >>> 8) &&& 0x0F) ((w >>> 4) &&& 0x0F)) := by
  unfold Command.try_from
  rw [if_neg (show ¬(w = 0x00E0) by omega),
      if_neg (show ¬(w = 0x00EE) by omega),
      if_neg (show ¬(0x1000 ≤ w ∧ w ≤ 0x1FFF) by omega),
      if_neg (show ¬(0x2000 ≤ w ∧ w ≤ 0x2FFF) by omega),
      if_neg (show ¬(0x3000 ≤ w ∧ w ≤ 0x3FFF) by omega),
      if_neg (show ¬(0x4000 ≤ w ∧ w ≤ 0x4FFF) by omega),
      if_neg (show ¬(0x5000 ≤ w ∧ w ≤ 0x5FFF ∧ w % 0x10 = 0) by omega),
      if_neg (show ¬(0x6000 ≤ w ∧ w ≤ 0x6FFF) by omega),
      if_neg (show ¬(0x7000 ≤ w ∧ w ≤ 0x7FFF) by omega),
      if_pos (show 0x8000 ≤ w ∧ w ≤ 0x8FFF from ⟨h1, h2⟩),
      if_neg (show ¬(w % 0x10 = 0x0) by omega),
      if_pos h3]

theorem Command.try_from_cx8_2 (w : Nat) (h1 : 0x8000 ≤ w) (h2 : w ≤ 0x8FFF) (h3 : w % 0x10 = 0x2) :
    Command.try_from w = .ok (.AndVV ((w >>> 8) &&& 0x0F) ((w >>> 4) &&& 0x0F)) := by
  unfold Command.try_from
  rw [if_neg (show ¬(w = 0x00E0) by omega),
      if_neg (show ¬(w = 0x00EE) by omega),
      if_neg (show ¬(0x1000 ≤ w ∧ w ≤ 0x1FFF) by omega),
      if_neg (show ¬(0x2000 ≤ w ∧ w ≤ 0x2FFF) by omega),
      if_neg (show ¬(0x3000 ≤ w ∧ w ≤ 0x3FFF) by omega),
      if_neg (show ¬(0x4000 ≤ w ∧ w ≤ 0x4FFF) by omega),
      if_neg (show ¬(0x5000 ≤ w ∧ w ≤ 0x5FFF ∧ w % 0x10 = 0) by omega),
      if_neg (show ¬(0x6000 ≤ w ∧ w ≤ 0x6FFF) by omega),
      if_neg (show ¬(0x7000 ≤ w ∧ w ≤ 0x7FFF) by omega),
      if_pos (show 0x8000 ≤ w ∧ w ≤ 0x8FFF from ⟨h1, h2⟩),
      if_neg (show ¬(w % 0x10 = 0x0) by omega),
      if_neg (show ¬(w % 0x10 = 0x1) by omega),
      if_pos h3]

theorem Command.try_from_cx8_3 (w : Nat) (h1 : 0x8000 ≤ w) (h2 : w ≤ 0x8FFF) (h3 : w % 0x10 = 0x3) :
    Command.try_from w = .ok (.XorVV ((w >>> 8) &&& 0x0F) ((w >>> 4) &&& 0x0F)) := by
  unfold Command.try_from
  rw [if_neg (show ¬(w = 0x00E0) by omega),
      if_neg (show ¬(w = 0x00EE) by omega),
      if_neg (show ¬(0x1000 ≤ w ∧ w ≤ 0x1FFF) by omega),
      if_neg (show ¬(0x2000 ≤ w ∧ w ≤ 0x2FFF) by omega),
      if_neg (show ¬(0x3000 ≤ w ∧ w ≤ 0x3FFF) by omega),
      if_neg (show ¬(0x4000 ≤ w ∧ w ≤ 0x4FFF) by omega),
      if_neg (show ¬(0x5000 ≤ w ∧ w ≤ 0x5FFF ∧ w % 0x10 = 0) by omega),
      if_neg (show ¬(0x6000 ≤ w ∧ w ≤ 0x6FFF) by omega),
      if_neg (show ¬(0x7000 ≤ w ∧ w ≤ 0x7FFF) by omega),
      if_pos (show 0x8000 ≤ w ∧ w ≤ 0x8FFF from ⟨h1, h2⟩),
      if_neg (show ¬(w % 0x10 = 0x0) by omega),
      if_neg (show ¬(w % 0x10 = 0x1) by omega),
      if_neg (show ¬(w % 0x10 = 0x2) by omega),
      if_pos h3]

theorem Command.try_from_cx8_4 (w : Nat) (h1 : 0x8000 ≤ w) (h2 : w ≤ 0x8FFF) (h3 : w % 0x10 = 0x4) :
    Command.try_from w = .ok (.AddVV ((w >>> 8) &&& 0x0F) ((w >>> 4) &&& 0x0F)) := by
  unfold Command.try_from
  rw [if_neg (show ¬(w = 0x00E0) by omega),
      if_neg (show ¬(w = 0x00EE) by omega),
      if_neg (show ¬(0x1000 ≤ w ∧ w ≤ 0x1FFF) by omega),
      if_neg (show ¬(0x2000 ≤ w ∧ w ≤ 0x2FFF) by omega),
      if_neg (show ¬(0x3000 ≤ w ∧ w ≤ 0x3FFF) by omega),
      if_neg (show ¬(0x4000 ≤ w ∧ w ≤ 0x4FFF) by omega),
      if_neg (show ¬(0x5000 ≤ w ∧ w ≤ 0x5FFF ∧ w % 0x10 = 0) by omega),
      if_neg (show ¬(0x6000 ≤ w ∧ w ≤ 0x6FFF) by omega),
      if_neg (show ¬(0x7000 ≤ w ∧ w ≤ 0x7FFF) by omega),
      if_pos (show 0x8000 ≤ w ∧ w ≤ 0x8FFF from ⟨h1, h2⟩),
      if_neg (show ¬(w % 0x10 = 0x0) by omega),
      if_neg (show ¬(w % 0x10 = 0x1) by omega),
      if_neg (show ¬(w % 0x10 = 0x2) by omega),
      if_neg (show ¬(w % 0x10 = 0x3) by omega),
      if_pos h3]

theorem Command.try_from_cx8_5 (w : Nat) (h1 : 0x8000 ≤ w) (h2 : w ≤ 0x8FFF) (h3 : w % 0x10 = 0x5) :
    Command.try_from w = .ok (.SubVV ((w >>> 8) &&& 0x0F) ((w >>> 4) &&& 0x0F)) := by
  unfold Command.try_from
  rw [if_neg (show ¬(w = 0x00E0) by omega),
      if_neg (show ¬(w = 0x00EE) by omega),
      if_neg (show ¬(0x1000 ≤ w ∧ w ≤ 0x1FFF) by omega),
      if_neg (show ¬(0x2000 ≤ w ∧ w ≤ 0x2FFF) by omega),
      if_neg (show ¬(0x3000 ≤ w ∧ w ≤ 0x3FFF) by omega),
      if_neg (show ¬(0x4000 ≤ w ∧ w ≤ 0x4FFF) by omega),
      if_neg (show ¬(0x5000 ≤ w ∧ w ≤ 0x5FFF ∧ w % 0x10 = 0) by omega),
      if_neg (show ¬(0x6000 ≤ w ∧ w ≤ 0x6FFF) by omega),
      if_neg (show ¬(0x7000 ≤ w ∧ w ≤ 0x7FFF) by omega),
      if_pos (show 0x8000 ≤ w ∧ w ≤ 0x8FFF from ⟨h1, h2⟩),
      if_neg (show ¬(w % 0x10 = 0x0) by omega),
      if_neg (show ¬(w % 0x10 = 0x1) by omega),
      if_neg (show ¬(w % 0x10 = 0x2) by omega),
      if_neg (show ¬(w % 0x10 = 0x3) by omega),
      if_neg (show ¬(w % 0x10 = 0x4) by omega),
      if_pos h3]

theorem Command.try_from_cx8_6 (w : Nat) (h1 : 0x8000 ≤ w) (h2 : w ≤ 0x8FFF) (h3 : w % 0x10 = 0x6) :
    Command.try_from w = .ok (.ShrVV ((w >>> 8) &&& 0x0F) ((w >>> 4) &&& 0x0F)) := by
  unfold Command.try_from
  rw [if_neg (show ¬(w = 0x00E0) by omega),
      if_neg (show ¬(w = 0x00EE) by omega),
      if_neg (show ¬(0x1000 ≤ w ∧ w ≤ 0x1FFF) by omega),
      if_neg (show ¬(0x2000 ≤ w ∧ w ≤ 0x2FFF) by omega),
      if_neg (show ¬(0x3000 ≤ w ∧ w ≤ 0x3FFF) by omega),
      if_neg (show ¬(0x4000 ≤ w ∧ w ≤ 0x4FFF) by omega),
      if_neg (show ¬(0x5000 ≤ w ∧ w ≤ 0x5FFF ∧ w % 0x10 = 0) by omega),
      if_neg (show ¬(0x6000 ≤ w ∧ w ≤ 0x6FFF) by omega),
      if_neg (show ¬(0x7000 ≤ w ∧ w ≤ 0x7FFF) by omega),
      if_pos (show 0x8000 ≤ w ∧ w ≤ 0x8FFF from ⟨h1, h2⟩),
      if_neg (show ¬(w % 0x10 = 0x0) by omega),
      if_neg (show ¬(w % 0x10 = 0x1) by omega),
      if_neg (show ¬(w % 0x10 = 0x2) by omega),
      if_neg (show ¬(w % 0x10 = 0x3) by omega),
      if_neg (show ¬(w % 0x10 = 0x4) by omega),
      if_neg (show ¬(w % 0x10 = 0x5) by omega),
      if_pos h3]

theorem Command.try_from_cx8_7 (w : Nat) (h1 : 0x8000 ≤ w) (h2 : w ≤ 0x8FFF) (h3 : w % 0x10 = 0x7) :
    Command.try_from w = .ok (.SubnVV ((w >>> 8) &&& 0x0F) ((w >>> 4) &&& 0x0F)) := by
  unfold Command.try_from
  rw [if_neg (show ¬(w = 0x00E0) by omega),
      if_neg (show ¬(w = 0x00EE) by omega),
      if_neg (show ¬(0x1000 ≤ w ∧ w ≤ 0x1FFF) by omega),
      if_neg (show ¬(0x2000 ≤ w ∧ w ≤ 0x2FFF) by omega),
      if_neg (show ¬(0x3000 ≤ w ∧ w ≤ 0x3FFF) by omega),
      if_neg (show ¬(0x4000 ≤ w ∧ w ≤ 0x4FFF) by omega),
      if_neg (show ¬(0x5000 ≤ w ∧ w ≤ 0x5FFF ∧ w % 0x10 = 0) by omega),
      if_neg (show ¬(0x6000 ≤ w ∧ w ≤ 0x6FFF) by omega),
      if_neg (show ¬(0x7000 ≤ w ∧ w ≤ 0x7FFF) by omega),
      if_pos (show 0x8000 ≤ w ∧ w ≤ 0x8FFF from ⟨h1, h2⟩),
      if_neg (show ¬(w % 0x10 = 0x0) by omega),
      if_neg (show ¬(w % 0x10 = 0x1) by omega),
      if_neg (show ¬(w % 0x10 = 0x2) by omega),
      if_neg (show ¬(w % 0x10 = 0x3) by omega),
      if_neg (show ¬(w % 0x10 = 0x4) by omega),
      if_neg (show ¬(w % 0x10 = 0x5) by omega),
      if_neg (show ¬(w % 0x10 = 0x6) by omega),
      if_pos h3]

theorem Command.try_from_cx8_E (w : Nat) (h1 : 0x8000 ≤ w) (h2 : w ≤ 0x8FFF) (h3 : w % 0x10 = 0xE) :
    Command.try_from w = .ok (.ShlVV ((w >>> 8) &&& 0x0F) ((w >>> 4) &&& 0x0F)) := by
  unfold Command.try_from
  rw [if_neg (show ¬(w = 0x00E0) by omega),
      if_neg (show ¬(w = 0x00EE) by omega),
      if_neg (show ¬(0x1000 ≤ w ∧ w ≤ 0x1FFF) by omega),
      if_neg (show ¬(0x2000 ≤ w ∧ w ≤ 0x2FFF) by omega),
      if_neg (show ¬(0x3000 ≤ w ∧ w ≤ 0x3FFF) by omega),
      if_neg (show ¬(0x4000 ≤ w ∧ w ≤ 0x4FFF) by omega),
      if_neg (show ¬(0x5000 ≤ w ∧ w ≤ 0x5FFF ∧ w % 0x10 = 0) by omega),
      if_neg (show ¬(0x6000 ≤ w ∧ w ≤ 0x6FFF) by omega),
      if_neg (show ¬(0x7000 ≤ w ∧ w ≤ 0x7FFF) by omega),
      if_pos (show 0x8000 ≤ w ∧ w ≤ 0x8FFF from ⟨h1, h2⟩),
      if_neg (show ¬(w % 0x10 = 0x0) by omega),
      if_neg (show ¬(w % 0x10 = 0x1) by omega),
      if_neg (show ¬(w % 0x10 = 0x2) by omega),
      if_neg (show ¬(w % 0x10 = 0x3) by omega),
      if_neg (show ¬(w % 0x10 = 0x4) by omega),
      if_neg (show ¬(w % 0x10 = 0x5) by omega),
      if_neg (show ¬(w % 0x10 = 0x6) by omega),
      if_neg (show ¬(w % 0x10 = 0x7) by omega),
      if_pos h3]

theorem Command.try_from_cx8err (w : Nat) (h1 : 0x8000 ≤ w) (h2 : w ≤ 0x8FFF) (g0 : ¬(w % 0x10 = 0x0)) (g1 : ¬(w % 0x10 = 0x1)) (g2 : ¬(w % 0x10 = 0x2)) (g3 : ¬(w % 0x10 = 0x3)) (g4 : ¬(w % 0x10 = 0x4)) (g5 : ¬(w % 0x10 = 0x5)) (g6 : ¬(w % 0x10 = 0x6)) (g7 : ¬(w % 0x10 = 0x7)) (gE : ¬(w % 0x10 = 0xE)) :
    Command.try_from w = Except.error "Unknown command" := by
  unfold Command.try_from
  rw [if_neg (show ¬(w = 0x00E0) by omega),
      if_neg (show ¬(w = 0x00EE) by omega),
      if_neg (show ¬(0x1000 ≤ w ∧ w ≤ 0x1FFF) by omega),
      if_neg (show ¬(0x2000 ≤ w ∧ w ≤ 0x2FFF) by omega),
      if_neg (show ¬(0x3000 ≤ w ∧ w ≤ 0x3FFF) by omega),
      if_neg (show ¬(0x4000 ≤ w ∧ w ≤ 0x4FFF) by omega),
      if_neg (show ¬(0x5000 ≤ w ∧ w ≤ 0x5FFF ∧ w % 0x10 = 0) by omega),
      if_neg (show ¬(0x6000 ≤ w ∧ w ≤ 0x6FFF) by omega),
      if_neg (show ¬(0x7000 ≤ w ∧ w ≤ 0x7FFF) by omega),
      if_pos (show 0x8000 ≤ w ∧ w ≤ 0x8FFF from ⟨h1, h2⟩),
      if_neg g0,
      if_neg g1,
      if_neg g2,
      if_neg g3,
      if_neg g4,
      if_neg g5,
      if_neg g6,
      if_neg g7,
      if_neg gE]

theorem Command.try_from_cxE_9E (w : Nat) (h1 : 0xE000 ≤ w) (h2 : w ≤ 0xEFFF) (h3 : w &&& 0xFF = 0x9E) :
    Command.try_from w = .ok (.SkpV ((w >>> 8) &&& 0x0F)) := by
  unfold Command.try_from
  rw [if_neg (show ¬(w = 0x00E0) by omega),
      if_neg (show ¬(w = 0x00EE) by omega),
      if_neg (show ¬(0x1000 ≤ w ∧ w ≤ 0x1FFF) by omega),
      if_neg (show ¬(0x2000 ≤ w ∧ w ≤ 0x2FFF) by omega),
      if_neg (show ¬(0x3000 ≤ w ∧ w ≤ 0x3FFF) by omega),
      if_neg (show ¬(0x4000 ≤ w ∧ w ≤ 0x4FFF) by omega),
      if_neg (show ¬(0x5000 ≤ w ∧ w ≤ 0x5FFF ∧ w % 0x10 = 0) by omega),
      if_neg (show ¬(0x6000 ≤ w ∧ w ≤ 0x6FFF) by omega),
      if_neg (show ¬(0x7000 ≤ w ∧ w ≤ 0x7FFF) by omega),
      if_neg (show ¬(0x8000 ≤ w ∧ w ≤ 0x8FFF) by omega),
      if_neg (show ¬(0x9000 ≤ w ∧ w ≤ 0x9FFF ∧ w % 0x10 = 0) by omega),
      if_neg (show ¬(0xA000 ≤ w ∧ w ≤ 0xAFFF) by omega),
      if_neg (show ¬(0xB000 ≤ w ∧ w ≤ 0xBFFF) by omega),
      if_neg (show ¬(0xC000 ≤ w ∧ w ≤ 0xCFFF) by omega),
      if_neg (show ¬(0xD000 ≤ w ∧ w ≤ 0xDFFF) by omega),
      if_pos (show 0xE000 ≤ w ∧ w ≤ 0xEFFF from ⟨h1, h2⟩),
      if_pos h3]

theorem Command.try_from_cxE_A1 (w : Nat) (h1 : 0xE000 ≤ w) (h2 : w ≤ 0xEFFF) (h3 : w &&& 0xFF = 0xA1) :
    Command.try_from w = .ok (.SknpV ((w >>> 8) &&& 0x0F)) := by
  unfold Command.try_from
  rw [if_neg (show ¬(w = 0x00E0) by omega),
      if_neg (show ¬(w = 0x00EE) by omega),
      if_neg (show ¬(0x1000 ≤ w ∧ w ≤ 0x1FFF) by omega),
      if_neg (show ¬(0x2000 ≤ w ∧ w ≤ 0x2FFF) by omega),
      if_neg (show ¬(0x3000 ≤ w ∧ w ≤ 0x3FFF) by omega),
      if_neg (show ¬(0x4000 ≤ w ∧ w ≤ 0x4FFF) by omega),
      if_neg (show ¬(0x5000 ≤ w ∧ w ≤ 0x5FFF ∧ w % 0x10 = 0) by omega),
      if_neg (show ¬(0x6000 ≤ w ∧ w ≤ 0x6FFF) by omega),
      if_neg (show ¬(0x7000 ≤ w ∧ w ≤ 0x7FFF) by omega),
      if_neg (show ¬(0x8000 ≤ w ∧ w ≤ 0x8FFF) by omega),
      if_neg (show ¬(0x9000 ≤ w ∧ w ≤ 0x9FFF ∧ w % 0x10 = 0) by omega),
      if_neg (show ¬(0xA000 ≤ w ∧ w ≤ 0xAFFF) by omega),
      if_neg (show ¬(0xB000 ≤ w ∧ w ≤ 0xBFFF) by omega),
      if_neg (show ¬(0xC000 ≤ w ∧ w ≤ 0xCFFF) by omega),
      if_neg (show ¬(0xD000 ≤ w ∧ w ≤ 0xDFFF) by omega),
      if_pos (show 0xE000 ≤ w ∧ w ≤ 0xEFFF from ⟨h1, h2⟩),
      if_neg (show ¬(w &&& 0xFF = 0x9E) by rw [h3]; decide),
      if_pos h3]

theorem Command.try_from_cxEerr (w : Nat) (h1 : 0xE000 ≤ w) (h2 : w ≤ 0xEFFF) (g9E : ¬(w &&& 0xFF = 0x9E)) (gA1 : ¬(w &&& 0xFF = 0xA1)) :
    Command.try_from w = Except.error "Unknown command" := by
  unfold Command.try_from
  rw [if_neg (show ¬(w = 0x00E0) by omega),
      if_neg (show ¬(w = 0x00EE) by omega),
      if_neg (show ¬(0x1000 ≤ w ∧ w ≤ 0x1FFF) by omega),
      if_neg (show ¬(0x2000 ≤ w ∧ w ≤ 0x2FFF) by omega),
      if_neg (show ¬(0x3000 ≤ w ∧ w ≤ 0x3FFF) by omega),
      if_neg (show ¬(0x4000 ≤ w ∧ w ≤ 0x4FFF) by omega),
      if_neg (show ¬(0x5000 ≤ w ∧ w ≤ 0x5FFF ∧ w % 0x10 = 0) by omega),
      if_neg (show ¬(0x6000 ≤ w ∧ w ≤ 0x6FFF) by omega),
      if_neg (show ¬(0x7000 ≤ w ∧ w ≤ 0x7FFF) by omega),
      if_neg (show ¬(0x8000 ≤ w ∧ w ≤ 0x8FFF) by omega),
      if_neg (show ¬(0x9000 ≤ w ∧ w ≤ 0x9FFF ∧ w % 0x10 = 0) by omega),
      if_neg (show ¬(0xA000 ≤ w ∧ w ≤ 0xAFFF) by omega),
      if_neg (show ¬(0xB000 ≤ w ∧ w ≤ 0xBFFF) by omega),
      if_neg (show ¬(0xC000 ≤ w ∧ w ≤ 0xCFFF) by omega),
      if_neg (show ¬(0xD000 ≤ w ∧ w ≤ 0xDFFF) by omega),
      if_pos (show 0xE000 ≤ w ∧ w ≤ 0xEFFF from ⟨h1, h2⟩),
      if_neg g9E,
      if_neg gA1]

theorem Command.try_from_cxF_07 (w : Nat) (h1 : 0xF000 ≤ w) (h2 : w ≤ 0xFFFF) (h3 : w &&& 0xFF = 0x07) :
    Command.try_from w = .ok (.LdVDt ((w >>> 8) &&& 0x0F)) := by
  unfold Command.try_from
  rw [if_neg (show ¬(w = 0x00E0) by omega),
      if_neg (show ¬(w = 0x00EE) by omega),
      if_neg (show ¬(0x1000 ≤ w ∧ w ≤ 0x1FFF) by omega),
      if_neg (show ¬(0x2000 ≤ w ∧ w ≤ 0x2FFF) by omega),
      if_neg (show ¬(0x3000 ≤ w ∧ w ≤ 0x3FFF) by omega),
      if_neg (show ¬(0x4000 ≤ w ∧ w ≤ 0x4FFF) by omega),
      if_neg (show ¬(0x5000 ≤ w ∧ w ≤ 0x5FFF ∧ w % 0x10 = 0) by omega),
      if_neg (show ¬(0x6000 ≤ w ∧ w ≤ 0x6FFF) by omega),
      if_neg (show ¬(0x7000 ≤ w ∧ w ≤ 0x7FFF) by omega),
      if_neg (show ¬(0x8000 ≤ w ∧ w ≤ 0x8FFF) by omega),
      if_neg (show ¬(0x9000 ≤ w ∧ w ≤ 0x9FFF ∧ w % 0x10 = 0) by omega),
      if_neg (show ¬(0xA000 ≤ w ∧ w ≤ 0xAFFF) by omega),
      if_neg (show ¬(0xB000 ≤ w ∧ w ≤ 0xBFFF) by omega),
      if_neg (show ¬(0xC000 ≤ w ∧ w ≤ 0xCFFF) by omega),
      if_neg (show ¬(0xD000 ≤ w ∧ w ≤ 0xDFFF) by omega),
      if_neg (show ¬(0xE000 ≤ w ∧ w ≤ 0xEFFF) by omega),
      if_pos (show 0xF000 ≤ w ∧ w ≤ 0xFFFF from ⟨h1, h2⟩),
      if_pos h3]

theorem Command.try_from_cxF_0A (w : Nat) (h1 : 0xF000 ≤ w) (h2 : w ≤ 0xFFFF) (h3 : w &&& 0xFF = 0x0A) :
    Command.try_from w = .ok (.LdVK ((w >>> 8) &&& 0x0F)) := by
  unfold Command.try_from
  rw [if_neg (show ¬(w = 0x00E0) by omega),
      if_neg (show ¬(w = 0x00EE) by omega),
      if_neg (show ¬(0x1000 ≤ w ∧ w ≤ 0x1FFF) by omega),
      if_neg (show ¬(0x2000 ≤ w ∧ w ≤ 0x2FFF) by omega),
      if_neg (show ¬(0x3000 ≤ w ∧ w ≤ 0x3FFF) by omega),
      if_neg (show ¬(0x4000 ≤ w ∧ w ≤ 0x4FFF) by omega),
      if_neg (show ¬(0x5000 ≤ w ∧ w ≤ 0x5FFF ∧ w % 0x10 = 0) by omega),
      if_neg (show ¬(0x6000 ≤ w ∧ w ≤ 0x6FFF) by omega),
      if_neg (show ¬(0x7000 ≤ w ∧ w ≤ 0x7FFF) by omega),
      if_neg (show ¬(0x8000 ≤ w ∧ w ≤ 0x8FFF) by omega),
      if_neg (show ¬(0x9000 ≤ w ∧ w ≤ 0x9FFF ∧ w % 0x10 = 0) by omega),
      if_neg (show ¬(0xA000 ≤ w ∧ w ≤ 0xAFFF) by omega),
      if_neg (show ¬(0xB000 ≤ w ∧ w ≤ 0xBFFF) by omega),
      if_neg (show ¬(0xC000 ≤ w ∧ w ≤ 0xCFFF) by omega),
      if_neg (show ¬(0xD000 ≤ w ∧ w ≤ 0xDFFF) by omega),
      if_neg (show ¬(0xE000 ≤ w ∧ w ≤ 0xEFFF) by omega),
      if_pos (show 0xF000 ≤ w ∧ w ≤ 0xFFFF from ⟨h1, h2⟩),
      if_neg (show ¬(w &&& 0xFF = 0x07) by rw [h3]; decide),
      if_pos h3]

theorem Command.try_from_cxF_15 (w : Nat) (h1 : 0xF000 ≤ w) (h2 : w ≤ 0xFFFF) (h3 : w &&& 0xFF = 0x15) :
    Command.try_from w = .ok (.LdDtV ((w >>> 8) &&& 0x0F)) := by
  unfold Command.try_from
  rw [if_neg (show ¬(w = 0x00E0) by omega),
      if_neg (show ¬(w = 0x00EE) by omega),
      if_neg (show ¬(0x1000 ≤ w ∧ w ≤ 0x1FFF) by omega),
      if_neg (show ¬(0x2000 ≤ w ∧ w ≤ 0x2FFF) by omega),
      if_neg (show ¬(0x3000 ≤ w ∧ w ≤ 0x3FFF) by omega),
      if_neg (show ¬(0x4000 ≤ w ∧ w ≤ 0x4FFF) by omega),
      if_neg (show ¬(0x5000 ≤ w ∧ w ≤ 0x5FFF ∧ w % 0x10 = 0) by omega),
      if_neg (show ¬(0x6000 ≤ w ∧ w ≤ 0x6FFF) by omega),
      if_neg (show ¬(0x7000 ≤ w ∧ w ≤ 0x7FFF) by omega),
      if_neg (show ¬(0x8000 ≤ w ∧ w ≤ 0x8FFF) by omega),
      if_neg (show ¬(0x9000 ≤ w ∧ w ≤ 0x9FFF ∧ w % 0x10 = 0) by omega),
      if_neg (show ¬(0xA000 ≤ w ∧ w ≤ 0xAFFF) by omega),
      if_neg (show ¬(0xB000 ≤ w ∧ w ≤ 0xBFFF) by omega),
      if_neg (show ¬(0xC000 ≤ w ∧ w ≤ 0xCFFF) by omega),
      if_neg (show ¬(0xD000 ≤ w ∧ w ≤ 0xDFFF) by omega),
      if_neg (show ¬(0xE000 ≤ w ∧ w ≤ 0xEFFF) by omega),
      if_pos (show 0xF000 ≤ w ∧ w ≤ 0xFFFF from ⟨h1, h2⟩),
      if_neg (show ¬(w &&& 0xFF = 0x07) by rw [h3]; decide),
      if_neg (show ¬(w &&& 0xFF = 0x0A) by rw [h3]; decide),
      if_pos h3]

theorem Command.try_from_cxF_18 (w : Nat) (h1 : 0xF000 ≤ w) (h2 : w ≤ 0xFFFF) (h3 : w &&& 0xFF = 0x18) :
    Command.try_from w = .ok (.LdStV ((w >>> 8) &&& 0x0F)) := by
  unfold Command.try_from
  rw [if_neg (show ¬(w = 0x00E0) by omega),
      if_neg (show ¬(w = 0x00EE) by omega),
      if_neg (show ¬(0x1000 ≤ w ∧ w ≤ 0x1FFF) by omega),
      if_neg (show ¬(0x2000 ≤ w ∧ w ≤ 0x2FFF) by omega),
      if_neg (show ¬(0x3000 ≤ w ∧ w ≤ 0x3FFF) by omega),
      if_neg (show ¬(0x4000 ≤ w ∧ w ≤ 0x4FFF) by omega),
      if_neg (show ¬(0x5000 ≤ w ∧ w ≤ 0x5FFF ∧ w % 0x10 = 0) by omega),
      if_neg (show ¬(0x6000 ≤ w ∧ w ≤ 0x6FFF) by omega),
      if_neg (show ¬(0x7000 ≤ w ∧ w ≤ 0x7FFF) by omega),
      if_neg (show ¬(0x8000 ≤ w ∧ w ≤ 0x8FFF) by omega),
      if_neg (show ¬(0x9000 ≤ w ∧ w ≤ 0x9FFF ∧ w % 0x10 = 0) by omega),
      if_neg (show ¬(0xA000 ≤ w ∧ w ≤ 0xAFFF) by omega),
      if_neg (show ¬(0xB000 ≤ w ∧ w ≤ 0xBFFF) by omega),
      if_neg (show ¬(0xC000 ≤ w ∧ w ≤ 0xCFFF) by omega),
      if_neg (show ¬(0xD000 ≤ w ∧ w ≤ 0xDFFF) by omega),
      if_neg (show ¬(0xE000 ≤ w ∧ w ≤ 0xEFFF) by omega),
      if_pos (show 0xF000 ≤ w ∧ w ≤ 0xFFFF from ⟨h1, h2⟩),
      if_neg (show ¬(w &&& 0xFF = 0x07) by rw [h3]; decide),
      if_neg (show ¬(w &&& 0xFF = 0x0A) by rw [h3]; decide),
      if_neg (show ¬(w &&& 0xFF = 0x15) by rw [h3]; decide),
      if_pos h3]

theorem Command.try_from_cxF_1E (w : Nat) (h1 : 0xF000 ≤ w) (h2 : w ≤ 0xFFFF) (h3 : w &&& 0xFF = 0x1E) :
    Command.try_from w = .ok (.AddIV ((w >>> 8) &&& 0x0F)) := by
  unfold Command.try_from
  rw [if_neg (show ¬(w = 0x00E0) by omega),
      if_neg (show ¬(w = 0x00EE) by omega),
      if_neg (show ¬(0x1000 ≤ w ∧ w ≤ 0x1FFF) by omega),
      if_neg (show ¬(0x2000 ≤ w ∧ w ≤ 0x2FFF) by omega),
      if_neg (show ¬(0x3000 ≤ w ∧ w ≤ 0x3FFF) by omega),
      if_neg (show ¬(0x4000 ≤ w ∧ w ≤ 0x4FFF) by omega),
      if_neg (show ¬(0x5000 ≤ w ∧ w ≤ 0x5FFF ∧ w % 0x10 = 0) by omega),
      if_neg (show ¬(0x6000 ≤ w ∧ w ≤ 0x6FFF) by omega),
      if_neg (show ¬(0x7000 ≤ w ∧ w ≤ 0x7FFF) by omega),
      if_neg (show ¬(0x8000 ≤ w ∧ w ≤ 0x8FFF) by omega),
      if_neg (show ¬(0x9000 ≤ w ∧ w ≤ 0x9FFF ∧ w % 0x10 = 0) by omega),
      if_neg (show ¬(0xA000 ≤ w ∧ w ≤ 0xAFFF) by omega),
      if_neg (show ¬(0xB000 ≤ w ∧ w ≤ 0xBFFF) by omega),
      if_neg (show ¬(0xC000 ≤ w ∧ w ≤ 0xCFFF) by omega),
      if_neg (show ¬(0xD000 ≤ w ∧ w ≤ 0xDFFF) by omega),
      if_neg (show ¬(0xE000 ≤ w ∧ w ≤ 0xEFFF) by omega),
      if_pos (show 0xF000 ≤ w ∧ w ≤ 0xFFFF from ⟨h1, h2⟩),
      if_neg (show ¬(w &&& 0xFF = 0x07) by rw [h3]; decide),
      if_neg (show ¬(w &&& 0xFF = 0x0A) by rw [h3]; decide),
      if_neg (show ¬(w &&& 0xFF = 0x15) by rw [h3]; decide),
      if_neg (show ¬(w &&& 0xFF = 0x18) by rw [h3]; decide),
      if_pos h3]

theorem Command.try_from_cxF_29 (w : Nat) (h1 : 0xF000 ≤ w) (h2 : w ≤ 0xFFFF) (h3 : w &&& 0xFF = 0x29) :
    Command.try_from w = .ok (.LdFV ((w >>> 8) &&& 0x0F)) := by
  unfold Command.try_from
  rw [if_neg (show ¬(w = 0x00E0) by omega),
      if_neg (show ¬(w = 0x00EE) by omega),
      if_neg (show ¬(0x1000 ≤ w ∧ w ≤ 0x1FFF) by omega),
      if_neg (show ¬(0x2000 ≤ w ∧ w ≤ 0x2FFF) by omega),
      if_neg (show ¬(0x3000 ≤ w ∧ w ≤ 0x3FFF) by omega),
      if_neg (show ¬(0x4000 ≤ w ∧ w ≤ 0x4FFF) by omega),
      if_neg (show ¬(0x5000 ≤ w ∧ w ≤ 0x5FFF ∧ w % 0x10 = 0) by omega),
      if_neg (show ¬(0x6000 ≤ w ∧ w ≤ 0x6FFF) by omega),
      if_neg (show ¬(0x7000 ≤ w ∧ w ≤ 0x7FFF) by omega),
      if_neg (show ¬(0x8000 ≤ w ∧ w ≤ 0x8FFF) by omega),
      if_neg (show ¬(0x9000 ≤ w ∧ w ≤ 0x9FFF ∧ w % 0x10 = 0) by omega),
      if_neg (show ¬(0xA000 ≤ w ∧ w ≤ 0xAFFF) by omega),
      if_neg (show ¬(0xB000 ≤ w ∧ w ≤ 0xBFFF) by omega),
      if_neg (show ¬(0xC000 ≤ w ∧ w ≤ 0xCFFF) by omega),
      if_neg (show ¬(0xD000 ≤ w ∧ w ≤ 0xDFFF) by omega),
      if_neg (show ¬(0xE000 ≤ w ∧ w ≤ 0xEFFF) by omega),
      if_pos (show 0xF000 ≤ w ∧ w ≤ 0xFFFF from ⟨h1, h2⟩),
      if_neg (show ¬(w &&& 0xFF = 0x07) by rw [h3]; decide),
      if_neg (show ¬(w &&& 0xFF = 0x0A) by rw [h3]; decide),
      if_neg (show ¬(w &&& 0xFF = 0x15) by rw [h3]; decide),
      if_neg (show ¬(w &&& 0xFF = 0x18) by rw [h3]; decide),
      if_neg (show ¬(w &&& 0xFF = 0x1E) by rw [h3]; decide),
      if_pos h3]

theorem Command.try_from_cxF_33 (w : Nat) (h1 : 0xF000 ≤ w) (h2 : w ≤ 0xFFFF) (h3 : w &&& 0xFF = 0x33) :
    Command.try_from w = .ok (.LdBV ((w >>> 8) &&& 0x0F)) := by
  unfold Command.try_from
  rw [if_neg (show ¬(w = 0x00E0) by omega),
      if_neg (show ¬(w = 0x00EE) by omega),
      if_neg (show ¬(0x1000 ≤ w ∧ w ≤ 0x1FFF) by omega),
      if_neg (show ¬(0x2000 ≤ w ∧ w ≤ 0x2FFF) by omega),
      if_neg (show ¬(0x3000 ≤ w ∧ w ≤ 0x3FFF) by omega),
      if_neg (show ¬(0x4000 ≤ w ∧ w ≤ 0x4FFF) by omega),
      if_neg (show ¬(0x5000 ≤ w ∧ w ≤ 0x5FFF ∧ w % 0x10 = 0) by omega),
      if_neg (show ¬(0x6000 ≤ w ∧ w ≤ 0x6FFF) by omega),
      if_neg (show ¬(0x7000 ≤ w ∧ w ≤ 0x7FFF) by omega),
      if_neg (show ¬(0x8000 ≤ w ∧ w ≤ 0x8FFF) by omega),
      if_neg (show ¬(0x9000 ≤ w ∧ w ≤ 0x9FFF ∧ w % 0x10 = 0) by omega),
      if_neg (show ¬(0xA000 ≤ w ∧ w ≤ 0xAFFF) by omega),
      if_neg (show ¬(0xB000 ≤ w ∧ w ≤ 0xBFFF) by omega),
      if_neg (show ¬(0xC000 ≤ w ∧ w ≤ 0xCFFF) by omega),
      if_neg (show ¬(0xD000 ≤ w ∧ w ≤ 0xDFFF) by omega),
      if_neg (show ¬(0xE000 ≤ w ∧ w ≤ 0xEFFF) by omega),
      if_pos (show 0xF000 ≤ w ∧ w ≤ 0xFFFF from ⟨h1, h2⟩),
      if_neg (show ¬(w &&& 0xFF = 0x07) by rw [h3]; decide),
      if_neg (show ¬(w &&& 0xFF = 0x0A) by rw [h3]; decide),
      if_neg (show ¬(w &&& 0xFF = 0x15) by rw [h3]; decide),
      if_neg (show ¬(w &&& 0xFF = 0x18) by rw [h3]; decide),
      if_neg (show ¬(w &&& 0xFF = 0x1E) by rw [h3]; decide),
      if_neg (show ¬(w &&& 0xFF = 0x29) by rw [h3]; decide),
      if_pos h3]

theorem Command.try_from_cxF_55 (w : Nat) (h1 : 0xF000 ≤ w) (h2 : w ≤ 0xFFFF) (h3 : w &&& 0xFF = 0x55) :
    Command.try_from w = .ok (.LdIV ((w >>> 8) &&& 0x0F)) := by
  unfold Command.try_from
  rw [if_neg (show ¬(w = 0x00E0) by omega),
      if_neg (show ¬(w = 0x00EE) by omega),
      if_neg (show ¬(0x1000 ≤ w ∧ w ≤ 0x1FFF) by omega),
      if_neg (show ¬(0x2000 ≤ w ∧ w ≤ 0x2FFF) by omega),
      if_neg (show ¬(0x3000 ≤ w ∧ w ≤ 0x3FFF) by omega),
      if_neg (show ¬(0x4000 ≤ w ∧ w ≤ 0x4FFF) by omega),
      if_neg (show ¬(0x5000 ≤ w ∧ w ≤ 0x5FFF ∧ w % 0x10 = 0) by omega),
      if_neg (show ¬(0x6000 ≤ w ∧ w ≤ 0x6FFF) by omega),
      if_neg (show ¬(0x7000 ≤ w ∧ w ≤ 0x7FFF) by omega),
      if_neg (show ¬(0x8000 ≤ w ∧ w ≤ 0x8FFF) by omega),
      if_neg (show ¬(0x9000 ≤ w ∧ w ≤ 0x9FFF ∧ w % 0x10 = 0) by omega),
      if_neg (show ¬(0xA000 ≤ w ∧ w ≤ 0xAFFF) by omega),
      if_neg (show ¬(0xB000 ≤ w ∧ w ≤ 0xBFFF) by omega),
      if_neg (show ¬(0xC000 ≤ w ∧ w ≤ 0xCFFF) by omega),
      if_neg (show ¬(0xD000 ≤ w ∧ w ≤ 0xDFFF) by omega),
      if_neg (show ¬(0xE000 ≤ w ∧ w ≤ 0xEFFF) by omega),
      if_pos (show 0xF000 ≤ w ∧ w ≤ 0xFFFF from ⟨h1, h2⟩),
      if_neg (show ¬(w &&& 0xFF = 0x07) by rw [h3]; decide),
      if_neg (show ¬(w &&& 0xFF = 0x0A) by rw [h3]; decide),
      if_neg (show ¬(w &&& 0xFF = 0x15) by rw [h3]; decide),
      if_neg (show ¬(w &&& 0xFF = 0x18) by rw [h3]; decide),
      if_neg (show ¬(w &&& 0xFF = 0x1E) by rw [h3]; decide),
      if_neg (show ¬(w &&& 0xFF = 0x29) by rw [h3]; decide),
      if_neg (show ¬(w &&& 0xFF = 0x33) by rw [h3]; decide),
      if_pos h3]

theorem Command.try_from_cxF_65 (w : Nat) (h1 : 0xF000 ≤ w) (h2 : w ≤ 0xFFFF) (h3 : w &&& 0xFF = 0x65) :
    Command.try_from w = .ok (.LdVI ((w >>> 8) &&& 0x0F)) := by
  unfold Command.try_from
  rw [if_neg (show ¬(w = 0x00E0) by omega),
      if_neg (show ¬(w = 0x00EE) by omega),
      if_neg (show ¬(0x1000 ≤ w ∧ w ≤ 0x1FFF) by omega),
      if_neg (show ¬(0x2000 ≤ w ∧ w ≤ 0x2FFF) by omega),
      if_neg (show ¬(0x3000 ≤ w ∧ w ≤ 0x3FFF) by omega),
      if_neg (show ¬(0x4000 ≤ w ∧ w ≤ 0x4FFF) by omega),
      if_neg (show ¬(0x5000 ≤ w ∧ w ≤ 0x5FFF ∧ w % 0x10 = 0) by omega),
      if_neg (show ¬(0x6000 ≤ w ∧ w ≤ 0x6FFF) by omega),
      if_neg (show ¬(0x7000 ≤ w ∧ w ≤ 0x7FFF) by omega),
      if_neg (show ¬(0x8000 ≤ w ∧ w ≤ 0x8FFF) by omega),
      if_neg (show ¬(0x9000 ≤ w ∧ w ≤ 0x9FFF ∧ w % 0x10 = 0) by omega),
      if_neg (show ¬(0xA000 ≤ w ∧ w ≤ 0xAFFF) by omega),
      if_neg (show ¬(0xB000 ≤ w ∧ w ≤ 0xBFFF) by omega),
      if_neg (show ¬(0xC000 ≤ w ∧ w ≤ 0xCFFF) by omega),
      if_neg (show ¬(0xD000 ≤ w ∧ w ≤ 0xDFFF) by omega),
      if_neg (show ¬(0xE000 ≤ w ∧ w ≤ 0xEFFF) by omega),
      if_pos (show 0xF000 ≤ w ∧ w ≤ 0xFFFF from ⟨h1, h2⟩),
      if_neg (show ¬(w &&& 0xFF = 0x07) by rw [h3]; decide),
      if_neg (show ¬(w &&& 0xFF = 0x0A) by rw [h3]; decide),
      if_neg (show ¬(w &&& 0xFF = 0x15) by rw [h3]; decide),
      if_neg (show ¬(w &&& 0xFF = 0x18) by rw [h3]; decide),
      if_neg (show ¬(w &&& 0xFF = 0x1E) by rw [h3]; decide),
      if_neg (show ¬(w &&& 0xFF = 0x29) by rw [h3]; decide),
      if_neg (show ¬(w &&& 0xFF = 0x33) by rw [h3]; decide),
      if_neg (show ¬(w &&& 0xFF = 0x55) by rw [h3]; decide),
      if_pos h3]

theorem Command.try_from_cxFerr (w : Nat) (h1 : 0xF000 ≤ w) (h2 : w ≤ 0xFFFF) (g07 : ¬(w &&& 0xFF = 0x07)) (g0A : ¬(w &&& 0xFF = 0x0A)) (g15 : ¬(w &&& 0xFF = 0x15)) (g18 : ¬(w &&& 0xFF = 0x18)) (g1E : ¬(w &&& 0xFF = 0x1E)) (g29 : ¬(w &&& 0xFF = 0x29)) (g33 : ¬(w &&& 0xFF = 0x33)) (g55 : ¬(w &&& 0xFF = 0x55)) (g65 : ¬(w &&& 0xFF = 0x65)) :
    Command.try_from w = Except.error "Unknown command" := by
  unfold Command.try_from
  rw [if_neg (show ¬(w = 0x00E0) by omega),
      if_neg (show ¬(w = 0x00EE) by omega),
      if_neg (show ¬(0x1000 ≤ w ∧ w ≤ 0x1FFF) by omega),
      if_neg (show ¬(0x2000 ≤ w ∧ w ≤ 0x2FFF) by omega),
      if_neg (show ¬(0x3000 ≤ w ∧ w ≤ 0x3FFF) by omega),
      if_neg (show ¬(0x4000 ≤ w ∧ w ≤ 0x4FFF) by omega),
      if_neg (show ¬(0x5000 ≤ w ∧ w ≤ 0x5FFF ∧ w % 0x10 = 0) by omega),
      if_neg (show ¬(0x6000 ≤ w ∧ w ≤ 0x6FFF) by omega),
      if_neg (show ¬(0x7000 ≤ w ∧ w ≤ 0x7FFF) by omega),
      if_neg (show ¬(0x8000 ≤ w ∧ w ≤ 0x8FFF) by omega),
      if_neg (show ¬(0x9000 ≤ w ∧ w ≤ 0x9FFF ∧ w % 0x10 = 0) by omega),
      if_neg (show ¬(0xA000 ≤ w ∧ w ≤ 0xAFFF) by omega),
      if_neg (show ¬(0xB000 ≤ w ∧ w ≤ 0xBFFF) by omega),
      if_neg (show ¬(0xC000 ≤ w ∧ w ≤ 0xCFFF) by omega),
      if_neg (show ¬(0xD000 ≤ w ∧ w ≤ 0xDFFF) by omega),
      if_neg (show ¬(0xE000 ≤ w ∧ w ≤ 0xEFFF) by omega),
      if_pos (show 0xF000 ≤ w ∧ w ≤ 0xFFFF from ⟨h1, h2⟩),
      if_neg g07,
      if_neg g0A,
      if_neg g15,
      if_neg g18,
      if_neg g1E,
      if_neg g29,
      if_neg g33,
      if_neg g55,
      if_neg g65]

theorem Command.try_from_cxhi (w : Nat) (h1 : 0x10000 ≤ w) :
    Command.try_from w = Except.error "Unknown command" := by
  unfold Command.try_from
  rw [if_neg (show ¬(w = 0x00E0) by omega),
      if_neg (show ¬(w = 0x00EE) by omega),
      if_neg (show ¬(0x1000 ≤ w ∧ w ≤ 0x1FFF) by omega),
      if_neg (show ¬(0x2000 ≤ w ∧ w ≤ 0x2FFF) by omega),
      if_neg (show ¬(0x3000 ≤ w ∧ w ≤ 0x3FFF) by omega),
      if_neg (show ¬(0x4000 ≤ w ∧ w ≤ 0x4FFF) by omega),
      if_neg (show ¬(0x5000 ≤ w ∧ w ≤ 0x5FFF ∧ w % 0x10 = 0) by omega),
      if_neg (show ¬(0x6000 ≤ w ∧ w ≤ 0x6FFF) by omega),
      if_neg (show ¬(0x7000 ≤ w ∧ w ≤ 0x7FFF) by omega),
      if_neg (show ¬(0x8000 ≤ w ∧ w ≤ 0x8FFF) by omega),
      if_neg (show ¬(0x9000 ≤ w ∧ w ≤ 0x9FFF ∧ w % 0x10 = 0) by omega),
      if_neg (show ¬(0xA000 ≤ w ∧ w ≤ 0xAFFF) by omega),
      if_neg (show ¬(0xB000 ≤ w ∧ w ≤ 0xBFFF) by omega),
      if_neg (show ¬(0xC000 ≤ w ∧ w ≤ 0xCFFF) by omega),
      if_neg (show ¬(0xD000 ≤ w ∧ w ≤ 0xDFFF) by omega),
      if_neg (show ¬(0xE000 ≤ w ∧ w ≤ 0xEFFF) by omega),
      if_neg (show ¬(0xF000 ≤ w ∧ w ≤ 0xFFFF) by omega)]

/-- Case split of a word into the decoders' dispatch families. -/
theorem word_family_cases (w : Nat) :
    w = 0x00E0 ∨ w = 0x00EE ∨ (w < 0x1000 ∧ w ≠ 0x00E0 ∧ w ≠ 0x00EE) ∨
    (0x1000 ≤ w ∧ w ≤ 0x1FFF) ∨ (0x2000 ≤ w ∧ w ≤ 0x2FFF) ∨
    (0x3000 ≤ w ∧ w ≤ 0x3FFF) ∨ (0x4000 ≤ w ∧ w ≤ 0x4FFF) ∨
    (0x5000 ≤ w ∧ w ≤ 0x5FFF) ∨ (0x6000 ≤ w ∧ w ≤ 0x6FFF) ∨
    (0x7000 ≤ w ∧ w ≤ 0x7FFF) ∨ (0x8000 ≤ w ∧ w ≤ 0x8FFF) ∨
    (0x9000 ≤ w ∧ w ≤ 0x9FFF) ∨ (0xA000 ≤ w ∧ w ≤ 0xAFFF) ∨
    (0xB000 ≤ w ∧ w ≤ 0xBFFF) ∨ (0xC000 ≤ w ∧ w ≤ 0xCFFF) ∨
    (0xD000 ≤ w ∧ w ≤ 0xDFFF) ∨ (0xE000 ≤ w ∧ w ≤ 0xEFFF) ∨
    (0xF000 ≤ w ∧ w ≤ 0xFFFF) ∨ 0x10000 ≤ w := by
  omega

set_option maxHeartbeats 2000000 in
/-- Joint characterization of the two decoders against the documented opcode
table: on the table both succeed with corresponding results, off the table
`Instruction::try_from` fails carrying the word and `Command::try_from` fails
with the constant message `Unknown command`. -/
theorem decoders_characterized (w : Nat) :
    (specOpcodeTable w → ∃ ins, Instruction.try_from w = .ok ins ∧
        Command.try_from w = .ok (Command.ofInstruction ins))
  ∧ (¬ specOpcodeTable w → Instruction.try_from w = .error w ∧
        Command.try_from w = .error "Unknown command") := by
  rcases word_family_cases w with h|h|h|h|h|h|h|h|h|h|h|h|h|h|h|h|h|h|h
  · subst h
    exact ⟨fun _ => ⟨.Cls, rfl, rfl⟩, fun hn => absurd (by decide) hn⟩
  · subst h
    exact ⟨fun _ => ⟨.Ret, rfl, rfl⟩, fun hn => absurd (by decide) hn⟩
  · exact ⟨fun ht => absurd ht (by unfold specOpcodeTable; omega),
      fun _ => ⟨Instruction.try_from_x0 w h.1 h.2.1 h.2.2,
        Command.try_from_cx0 w h.1 h.2.1 h.2.2⟩⟩
  · exact ⟨fun _ => ⟨_, Instruction.try_from_x1 w h.1 h.2, Command.try_from_cx1 w h.1 h.2⟩,
      fun hn => absurd (by unfold specOpcodeTable; omega) hn⟩
  · exact ⟨fun _ => ⟨_, Instruction.try_from_x2 w h.1 h.2, Command.try_from_cx2 w h.1 h.2⟩,
      fun hn => absurd (by unfold specOpcodeTable; omega) hn⟩
  · exact ⟨fun _ => ⟨_, Instruction.try_from_x3 w h.1 h.2, Command.try_from_cx3 w h.1 h.2⟩,
      fun hn => absurd (by unfold specOpcodeTable; omega) hn⟩
  · exact ⟨fun _ => ⟨_, Instruction.try_from_x4 w h.1 h.2, Command.try_from_cx4 w h.1 h.2⟩,
      fun hn => absurd (by unfold specOpcodeTable; omega) hn⟩
  · by_cases hg : w % 16 = 0
    · exact ⟨fun _ => ⟨_, Instruction.try_from_x5ok w h.1 h.2 (by rw [and15_eq_mod]; exact hg),
          Command.try_from_cx5ok w h.1 h.2 hg⟩,
        fun hn => absurd (by unfold specOpcodeTable; omega) hn⟩
    · exact ⟨fun ht => absurd ht (by unfold specOpcodeTable; omega),
        fun _ => ⟨Instruction.try_from_x5err w h.1 h.2 (by rw [and15_eq_mod]; exact hg),
          Command.try_from_cx5err w h.1 h.2 hg⟩⟩
  · exact ⟨fun _ => ⟨_, Instruction.try_from_x6 w h.1 h.2, Command.try_from_cx6 w h.1 h.2⟩,
      fun hn => absurd (by unfold specOpcodeTable; omega) hn⟩
  · exact ⟨fun _ => ⟨_, Instruction.try_from_x7 w h.1 h.2, Command.try_from_cx7 w h.1 h.2⟩,
      fun hn => absurd (by unfold specOpcodeTable; omega) hn⟩
  · -- family 0x8
    by_cases hb0 : w % 16 = 0x0
    · exact ⟨fun _ => ⟨_, Instruction.try_from_x8_0 w h.1 h.2 (by rw [and15_eq_mod]; exact hb0),
          Command.try_from_cx8_0 w h.1 h.2 hb0⟩,
        fun hn => absurd (by unfold specOpcodeTable; omega) hn⟩
    by_cases hb1 : w % 16 = 0x1
    · exact ⟨fun _ => ⟨_, Instruction.try_from_x8_1 w h.1 h.2 (by rw [and15_eq_mod]; exact hb1),
          Command.try_from_cx8_1 w h.1 h.2 hb1⟩,
        fun hn => absurd (by unfold specOpcodeTable; omega) hn⟩
    by_cases hb2 : w % 16 = 0x2
    · exact ⟨fun _ => ⟨_, Instruction.try_from_x8_2 w h.1 h.2 (by rw [and15_eq_mod]; exact hb2),
          Command.try_from_cx8_2 w h.1 h.2 hb2⟩,
        fun hn => absurd (by unfold specOpcodeTable; omega) hn⟩
    by_cases hb3 : w % 16 = 0x3
    · exact ⟨fun _ => ⟨_, Instruction.try_from_x8_3 w h.1 h.2 (by rw [and15_eq_mod]; exact hb3),
          Command.try_from_cx8_3 w h.1 h.2 hb3⟩,
        fun hn => absurd (by unfold specOpcodeTable; omega) hn⟩
    by_cases hb4 : w % 16 = 0x4
    · exact ⟨fun _ => ⟨_, Instruction.try_from_x8_4 w h.1 h.2 (by rw [and15_eq_mod]; exact hb4),
          Command.try_from_cx8_4 w h.1 h.2 hb4⟩,
        fun hn => absurd (by unfold specOpcodeTable; omega) hn⟩
    by_cases hb5 : w % 16 = 0x5
    · exact ⟨fun _ => ⟨_, Instruction.try_from_x8_5 w h.1 h.2 (by rw [and15_eq_mod]; exact hb5),
          Command.try_from_cx8_5 w h.1 h.2 hb5⟩,
        fun hn => absurd (by unfold specOpcodeTable; omega) hn⟩
    by_cases hb6 : w % 16 = 0x6
    · exact ⟨fun _ => ⟨_, Instruction.try_from_x8_6 w h.1 h.2 (by rw [and15_eq_mod]; exact hb6),
          Command.try_from_cx8_6 w h.1 h.2 hb6⟩,
        fun hn => absurd (by unfold specOpcodeTable; omega) hn⟩
    by_cases hb7 : w % 16 = 0x7
    · exact ⟨fun _ => ⟨_, Instruction.try_from_x8_7 w h.1 h.2 (by rw [and15_eq_mod]; exact hb7),
          Command.try_from_cx8_7 w h.1 h.2 hb7⟩,
        fun hn => absurd (by unfold specOpcodeTable; omega) hn⟩
    by_cases hbE : w % 16 = 0xE
    · exact ⟨fun _ => ⟨_, Instruction.try_from_x8_E w h.1 h.2 (by rw [and15_eq_mod]; exact hbE),
          Command.try_from_cx8_E w h.1 h.2 hbE⟩,
        fun hn => absurd (by unfold specOpcodeTable; omega) hn⟩
    exact ⟨fun ht => absurd ht (by unfold specOpcodeTable; omega),
      fun _ => ⟨Instruction.try_from_x8err w h.1 h.2 (by rw [and15_eq_mod]; exact hb0) (by rw [and15_eq_mod]; exact hb1) (by rw [and15_eq_mod]; exact hb2) (by rw [and15_eq_mod]; exact hb3) (by rw [and15_eq_mod]; exact hb4) (by rw [and15_eq_mod]; exact hb5) (by rw [and15_eq_mod]; exact hb6) (by rw [and15_eq_mod]; exact hb7) (by rw [and15_eq_mod]; exact hbE),
        Command.try_from_cx8err w h.1 h.2 hb0 hb1 hb2 hb3 hb4 hb5 hb6 hb7 hbE⟩⟩
  · by_cases hg : w % 16 = 0
    · exact ⟨fun _ => ⟨_, Instruction.try_from_x9ok w h.1 h.2 (by rw [and15_eq_mod]; exact hg),
          Command.try_from_cx9ok w h.1 h.2 hg⟩,
        fun hn => absurd (by unfold specOpcodeTable; omega) hn⟩
    · exact ⟨fun ht => absurd ht (by unfold specOpcodeTable; omega),
        fun _ => ⟨Instruction.try_from_x9err w h.1 h.2 (by rw [and15_eq_mod]; exact hg),
          Command.try_from_cx9err w h.1 h.2 hg⟩⟩
  · exact ⟨fun _ => ⟨_, Instruction.try_from_xA w h.1 h.2, Command.try_from_cxA w h.1 h.2⟩,
      fun hn => absurd (by unfold specOpcodeTable; omega) hn⟩
  · exact ⟨fun _ => ⟨_, Instruction.try_from_xB w h.1 h.2, Command.try_from_cxB w h.1 h.2⟩,
      fun hn => absurd (by unfold specOpcodeTable; omega) hn⟩
  · exact ⟨fun _ => ⟨_, Instruction.try_from_xC w h.1 h.2, Command.try_from_cxC w h.1 h.2⟩,
      fun hn => absurd (by unfold specOpcodeTable; omega) hn⟩
  · exact ⟨fun _ => ⟨_, Instruction.try_from_xD w h.1 h.2, Command.try_from_cxD w h.1 h.2⟩,
      fun hn => absurd (by unfold specOpcodeTable; omega) hn⟩
  · -- family 0xE
    by_cases hb9E : w % 256 = 0x9E
    · exact ⟨fun _ => ⟨_, Instruction.try_from_xE_9E w h.1 h.2 (by rw [and255_eq_mod]; exact hb9E),
          Command.try_from_cxE_9E w h.1 h.2 (by rw [and255_eq_mod]; exact hb9E)⟩,
        fun hn => absurd (by unfold specOpcodeTable; omega) hn⟩
    by_cases hbA1 : w % 256 = 0xA1
    · exact ⟨fun _ => ⟨_, Instruction.try_from_xE_A1 w h.1 h.2 (by rw [and255_eq_mod]; exact hbA1),
          Command.try_from_cxE_A1 w h.1 h.2 (by rw [and255_eq_mod]; exact hbA1)⟩,
        fun hn => absurd (by unfold specOpcodeTable; omega) hn⟩
    exact ⟨fun ht => absurd ht (by unfold specOpcodeTable; omega),
      fun _ => ⟨Instruction.try_from_xEerr w h.1 h.2 (by rw [and255_eq_mod]; exact hb9E) (by rw [and255_eq_mod]; exact hbA1),
        Command.try_from_cxEerr w h.1 h.2 (by rw [and255_eq_mod]; exact hb9E) (by rw [and255_eq_mod]; exact hbA1)⟩⟩
  · -- family 0xF
    by_cases hb07 : w % 256 = 0x07
    · exact ⟨fun _ => ⟨_, Instruction.try_from_xF_07 w h.1 h.2 (by rw [and255_eq_mod]; exact hb07),
          Command.try_from_cxF_07 w h.1 h.2 (by rw [and255_eq_mod]; exact hb07)⟩,
        fun hn => absurd (by unfold specOpcodeTable; omega) hn⟩
    by_cases hb0A : w % 256 = 0x0A
    · exact ⟨fun _ => ⟨_, Instruction.try_from_xF_0A w h.1 h.2 (by rw [and255_eq_mod]; exact hb0A),
          Command.try_from_cxF_0A w h.1 h.2 (by rw [and255_eq_mod]; exact hb0A)⟩,
        fun hn => absurd (by unfold specOpcodeTable; omega) hn⟩
    by_cases hb15 : w % 256 = 0x15
    · exact ⟨fun _ => ⟨_, Instruction.try_from_xF_15 w h.1 h.2 (by rw [and255_eq_mod]; exact hb15),
          Command.try_from_cxF_15 w h.1 h.2 (by rw [and255_eq_mod]; exact hb15)⟩,
        fun hn => absurd (by unfold specOpcodeTable; omega) hn⟩
    by_cases hb18 : w % 256 = 0x18
    · exact ⟨fun _ => ⟨_, Instruction.try_from_xF_18 w h.1 h.2 (by rw [and255_eq_mod]; exact hb18),
          Command.try_from_cxF_18 w h.1 h.2 (by rw [and255_eq_mod]; exact hb18)⟩,
        fun hn => absurd (by unfold specOpcodeTable; omega) hn⟩
    by_cases hb1E : w % 256 = 0x1E
    · exact ⟨fun _ => ⟨_, Instruction.try_from_xF_1E w h.1 h.2 (by rw [and255_eq_mod]; exact hb1E),
          Command.try_from_cxF_1E w h.1 h.2 (by rw [and255_eq_mod]; exact hb1E)⟩,
        fun hn => absurd (by unfold specOpcodeTable; omega) hn⟩
    by_cases hb29 : w % 256 = 0x29
    · exact ⟨fun _ => ⟨_, Instruction.try_from_xF_29 w h.1 h.2 (by rw [and255_eq_mod]; exact hb29),
          Command.try_from_cxF_29 w h.1 h.2 (by rw [and255_eq_mod]; exact hb29)⟩,
        fun hn => absurd (by unfold specOpcodeTable; omega) hn⟩
    by_cases hb33 : w % 256 = 0x33
    · exact ⟨fun _ => ⟨_, Instruction.try_from_xF_33 w h.1 h.2 (by rw [and255_eq_mod]; exact hb33),
          Command.try_from_cxF_33 w h.1 h.2 (by rw [and255_eq_mod]; exact hb33)⟩,
        fun hn => absurd (by unfold specOpcodeTable; omega) hn⟩
    by_cases hb55 : w % 256 = 0x55
    · exact ⟨fun _ => ⟨_, Instruction.try_from_xF_55 w h.1 h.2 (by rw [and255_eq_mod]; exact hb55),
          Command.try_from_cxF_55 w h.1 h.2 (by rw [and255_eq_mod]; exact hb55)⟩,
        fun hn => absurd (by unfold specOpcodeTable; omega) hn⟩
    by_cases hb65 : w % 256 = 0x65
    · exact ⟨fun _ => ⟨_, Instruction.try_from_xF_65 w h.1 h.2 (by rw [and255_eq_mod]; exact hb65),
          Command.try_from_cxF_65 w h.1 h.2 (by rw [and255_eq_mod]; exact hb65)⟩,
        fun hn => absurd (by unfold specOpcodeTable; omega) hn⟩
    exact ⟨fun ht => absurd ht (by unfold specOpcodeTable; omega),
      fun _ => ⟨Instruction.try_from_xFerr w h.1 h.2 (by rw [and255_eq_mod]; exact hb07) (by rw [and255_eq_mod]; exact hb0A) (by rw [and255_eq_mod]; exact hb15) (by rw [and255_eq_mod]; exact hb18) (by rw [and255_eq_mod]; exact hb1E) (by rw [and255_eq_mod]; exact hb29) (by rw [and255_eq_mod]; exact hb33) (by rw [and255_eq_mod]; exact hb55) (by rw [and255_eq_mod]; exact hb65),
        Command.try_from_cxFerr w h.1 h.2 (by rw [and255_eq_mod]; exact hb07) (by rw [and255_eq_mod]; exact hb0A) (by rw [and255_eq_mod]; exact hb15) (by rw [and255_eq_mod]; exact hb18) (by rw [and255_eq_mod]; exact hb1E) (by rw [and255_eq_mod]; exact hb29) (by rw [and255_eq_mod]; exact hb33) (by rw [and255_eq_mod]; exact hb55) (by rw [and255_eq_mod]; exact hb65)⟩⟩
  · exact ⟨fun ht => absurd ht (by unfold specOpcodeTable; omega),
      fun _ => ⟨Instruction.try_from_xhi w h, Command.try_from_cxhi w h⟩⟩

namespace Display

/-- Any-congruence for lists: pointwise equal predicates give equal `any`. -/
theorem list_any_congr {α : Type} : ∀ (l : List α) (f g : α → Bool),
    (∀ a ∈ l, f a = g a) → l.any f = l.any g
  | [], _, _, _ => rfl
  | a :: l, f, g, h => by
    simp only [List.any_cons, h a (List.mem_cons_self a l),
      list_any_congr l f g (fun b hb => h b (List.mem_cons_of_mem a hb))]

/-- The inner draw loop over bit indices is `applyVisits` of the row visits. -/
theorem foldl_row_eq (st : Grid × Bool) (x y j row : Nat) :
    (List.range 8).foldl
      (fun st i =>
        let before := st.1 (cellY y j) (cellX x i)
        (setPix st.1 (cellY y j) (cellX x i) (xor before (spriteBit row i)),
         st.2 || (before && spriteBit row i))) st
      = applyVisits st (rowVisits x y j row) := by
  unfold applyVisits rowVisits
  rw [List.foldl_map]
  rfl

/-- Fold `applyVisits` splits over list append. -/
theorem applyVisits_append (st : Grid × Bool) (a b : List Visit) :
    applyVisits st (a ++ b) = applyVisits (applyVisits st a) b :=
  List.foldl_append _ _ _ _

/-- The enumerated draw fold is `applyVisits` of `visitsFrom`. -/
theorem foldl_enumFrom_eq (x y : Nat) : ∀ (s : List Nat) (j : Nat) (st : Grid × Bool),
    (List.enumFrom j s).foldl
      (fun st jrow =>
        (List.range 8).foldl
          (fun st i =>
            let before := st.1 (cellY y jrow.1) (cellX x i)
            (setPix st.1 (cellY y jrow.1) (cellX x i) (xor before (spriteBit jrow.2 i)),
             st.2 || (before && spriteBit jrow.2 i)))
          st) st
      = applyVisits st (visitsFrom x y j s)
  | [], j, st => rfl
  | row :: rest, j, st => by
    rw [List.enumFrom_cons, List.foldl_cons, foldl_enumFrom_eq x y rest (j + 1)]
    show applyVisits _ _ = applyVisits st (visitsFrom x y j (row :: rest))
    rw [show visitsFrom x y j (row :: rest)
        = rowVisits x y j row ++ visitsFrom x y (j + 1) rest from rfl,
      applyVisits_append, foldl_row_eq]

/-- Characterization of `xor_sprite` as a fold of explicit visits. -/
theorem xor_sprite_eq_visits (g : Grid) (x y : Nat) (s : List Nat) :
    xor_sprite g x y s = applyVisits (g, false) (visitsFrom x y 0 s) :=
  foldl_enumFrom_eq x y s 0 (g, false)

/-- Fold `applyVisits` over a cons: one visit then the rest. -/
theorem applyVisits_cons (st : Grid × Bool) (v : Visit) (L : List Visit) :
    applyVisits st (v :: L) = applyVisits (applyVisit st v) L := rfl

/-- The grid component of one visit. -/
theorem applyVisit_fst_eq (st : Grid × Bool) (v : Visit) :
    (applyVisit st v).1 = setPix st.1 v.1.1 v.1.2 (xor (st.1 v.1.1 v.1.2) v.2) := rfl

/-- The flag component of one visit. -/
theorem applyVisit_snd_eq (st : Grid × Bool) (v : Visit) :
    (applyVisit st v).2 = (st.2 || (st.1 v.1.1 v.1.2 && v.2)) := rfl

/-- Reading back a `setPix` update. -/
theorem setPix_apply (g : Grid) (yy : Fin 32) (xx : Fin 64) (val : Bool)
    (r : Fin 32) (c : Fin 64) :
    setPix g yy xx val r c = if r = yy ∧ c = xx then val else g r c := rfl

/-- Equation for `parity` on the empty list. -/
theorem parity_nil (c : Fin 32 × Fin 64) : parity [] c = false := rfl

theorem parity_cons (v : Visit) (L : List Visit) (c : Fin 32 × Fin 64) :
    parity (v :: L) c = xor (if v.1 = c then v.2 else false) (parity L c) := rfl

/-- Grid after a visit fold: each cell is XORed with the parity of the bits of
the visits that hit it. -/
theorem applyVisits_fst : ∀ (L : List Visit) (st : Grid × Bool) (r : Fin 32) (c : Fin 64),
    (applyVisits st L).1 r c = xor (st.1 r c) (parity L (r, c))
  | [], st, r, c => by rw [parity_nil, Bool.xor_false]; rfl
  | v :: L, st, r, c => by
    rw [applyVisits_cons, applyVisits_fst L, parity_cons, applyVisit_fst_eq, setPix_apply]
    by_cases hv : v.1 = (r, c)
    · have h1 : v.1.1 = r := congrArg Prod.fst hv
      have h2 : v.1.2 = c := congrArg Prod.snd hv
      rw [if_pos (And.intro h1.symm h2.symm), if_pos hv, h1, h2, Bool.xor_assoc]
    · have hne : ¬(r = v.1.1 ∧ c = v.1.2) := by
        intro hc
        exact hv (Prod.ext hc.1.symm hc.2.symm)
      rw [if_neg hne, if_neg hv, Bool.false_xor]

/-- Erased flag after a visit fold over pairwise-distinct cells: some visit has
its bit set on a cell that was on at the start. -/
theorem applyVisits_snd : ∀ (L : List Visit), L.Pairwise (fun a b => a.1 ≠ b.1) →
    ∀ st : Grid × Bool,
      (applyVisits st L).2 = (st.2 || L.any (fun v => v.2 && st.1 v.1.1 v.1.2))
  | [], _, st => by rw [List.any_nil, Bool.or_false]; rfl
  | v :: L, hp, st => by
    rw [List.pairwise_cons] at hp
    rw [applyVisits_cons, applyVisits_snd L hp.2, applyVisit_snd_eq]
    have hany : L.any (fun u => u.2 && (applyVisit st v).1 u.1.1 u.1.2)
        = L.any (fun u => u.2 && st.1 u.1.1 u.1.2) := by
      refine list_any_congr L _ _ (fun u hu => ?_)
      have hcell : (applyVisit st v).1 u.1.1 u.1.2 = st.1 u.1.1 u.1.2 := by
        rw [applyVisit_fst_eq, setPix_apply, if_neg]
        intro hc
        exact hp.1 u hu (Prod.ext hc.1 hc.2).symm
      rw [hcell]
    rw [hany, List.any_cons, Bool.or_assoc, Bool.and_comm]

/-- Cells not visited have parity `false`. -/
theorem parity_eq_false_of_not_mem : ∀ (L : List Visit) (c : Fin 32 × Fin 64),
    (∀ v ∈ L, v.1 ≠ c) → parity L c = false
  | [], _, _ => rfl
  | v :: L, c, h => by
    rw [parity_cons]
    rw [if_neg (h v (List.mem_cons_self v L)),
      parity_eq_false_of_not_mem L c (fun u hu => h u (List.mem_cons_of_mem v hu)),
      Bool.xor_false]

/-- Over pairwise-distinct cells, the parity at a visited cell is that visit's
bit. -/
theorem parity_of_mem : ∀ (L : List Visit), L.Pairwise (fun a b => a.1 ≠ b.1) →
    ∀ v ∈ L, parity L v.1 = v.2
  | [], _, v, hv => absurd hv (List.not_mem_nil v)
  | u :: L, hp, v, hv => by
    rw [List.pairwise_cons] at hp
    rcases List.mem_cons.mp hv with rfl | hv'
    · rw [parity_cons, if_pos rfl,
        parity_eq_false_of_not_mem L v.1 (fun w hw => (hp.1 w hw).symm),
        Bool.xor_false]
    · rw [parity_cons, if_neg (hp.1 v hv'), parity_of_mem L hp.2 v hv', Bool.false_xor]

/-- Membership in `visitsFrom`: exactly the row/bit indexed visits. -/
theorem mem_visitsFrom (x y : Nat) : ∀ (s : List Nat) (j : Nat) (v : Visit),
    v ∈ visitsFrom x y j s ↔ ∃ k, k < s.length ∧ ∃ i, i < 8 ∧
      v = ((cellY y (j + k), cellX x i), spriteBit (s.getD k 0) i)
  | [], j, v => by simp [visitsFrom]
  | row :: rest, j, v => by
    simp only [visitsFrom, List.mem_append, rowVisits, List.mem_map, List.mem_range,
      mem_visitsFrom x y rest (j + 1), List.length_cons]
    constructor
    · rintro (⟨i, hi, rfl⟩ | ⟨k, hk, i, hi, rfl⟩)
      · exact ⟨0, by omega, i, hi, by simp⟩
      · refine ⟨k + 1, by omega, i, hi, ?_⟩
        rw [show j + (k + 1) = j + 1 + k by omega]
        simp
    · rintro ⟨k, hk, i, hi, rfl⟩
      cases k with
      | zero =>
        left
        exact ⟨i, hi, by simp⟩
      | succ k =>
        right
        refine ⟨k, by omega, i, hi, ?_⟩
        rw [show j + (k + 1) = j + 1 + k by omega]
        simp

/-- The visits of a sprite of at most 32 rows hit pairwise-distinct cells. -/
theorem visits_pairwise (x y : Nat) : ∀ (s : List Nat) (j : Nat),
    (∀ k1 k2, k1 < k2 → k2 < s.length → (y + (j + k1)) % 32 ≠ (y + (j + k2)) % 32) →
    (visitsFrom x y j s).Pairwise (fun a b => a.1 ≠ b.1)
  | [], _, _ => List.Pairwise.nil
  | row :: rest, j, hsep => by
    show (rowVisits x y j row ++ visitsFrom x y (j + 1) rest).Pairwise _
    rw [List.pairwise_append]
    refine ⟨?_, ?_, ?_⟩
    · unfold rowVisits
      rw [List.pairwise_map, List.pairwise_iff_getElem]
      intro a b ha hb hab
      simp only [List.getElem_range] at *
      simp only [List.length_range] at ha hb
      intro heq
      have hx : cellX x a = cellX x b := congrArg Prod.snd heq
      simp only [cellX, Fin.mk.injEq] at hx
      omega
    · refine visits_pairwise x y rest (j + 1) (fun k1 k2 h1 h2 => ?_)
      have := hsep (k1 + 1) (k2 + 1) (by omega) (by simpa using Nat.succ_lt_succ h2)
      rw [show j + (k1 + 1) = j + 1 + k1 by omega, show j + (k2 + 1) = j + 1 + k2 by omega] at this
      exact this
    · intro a ha b hb
      obtain ⟨i, hi, rfl⟩ := by
        simpa only [rowVisits, List.mem_map, List.mem_range] using ha
      obtain ⟨k, hk, i', hi', rfl⟩ := (mem_visitsFrom x y rest (j + 1) b).mp hb
      intro heq
      have hy : cellY y j = cellY y (j + 1 + k) := congrArg Prod.fst heq
      simp only [cellY, Fin.mk.injEq] at hy
      have := hsep 0 (k + 1) (by omega) (by simpa using Nat.succ_lt_succ hk)
      rw [show j + 0 = j by omega, show j + (k + 1) = j + 1 + k by omega] at this
      exact this hy

end Display

/-- Lemma `mem_visitsFrom` specialized to starting row index 0. -/
theorem Display.mem_visits_zero (x y : Nat) (s : List Nat) (v : Display.Visit) :
    v ∈ Display.visitsFrom x y 0 s ↔ ∃ k, k < s.length ∧ ∃ i, i < 8 ∧
      v = ((Display.cellY y k, Display.cellX x i), Display.spriteBit (s.getD k 0) i) := by
  rw [Display.mem_visitsFrom]
  constructor
  · rintro ⟨k, hk, i, hi, rfl⟩
    exact ⟨k, hk, i, hi, by rw [Nat.zero_add]⟩
  · rintro ⟨k, hk, i, hi, rfl⟩
    exact ⟨k, hk, i, hi, by rw [Nat.zero_add]⟩

/-- C7 (corrected): drawing the identical sprite twice at identical coordinates
restores the grid (for every display state, sprite and coordinates); for
sprites of at most 32 rows (all that `drw` can pass, since n ≤ 15) the second
draw's collision flag is true exactly when the sprite has an on-bit over a cell
that was OFF in the original display — not, as claimed, whenever the sprite
contains any on-bit. -/
theorem c7_amended (g : Grid) (x y : Nat) (s : List Nat) :
    (∀ (r : Fin 32) (c : Fin 64),
        (Display.xor_sprite (Display.xor_sprite g x y s).1 x y s).1 r c = g r c)
  ∧ (s.length ≤ 32 →
      ((Display.xor_sprite (Display.xor_sprite g x y s).1 x y s).2 = true ↔
        ∃ k, k < s.length ∧ ∃ i, i < 8 ∧
          Display.spriteBit (s.getD k 0) i = true ∧
          g (Display.cellY y k) (Display.cellX x i) = false)) := by
  have hV1 := Display.xor_sprite_eq_visits g x y s
  have hV2 := Display.xor_sprite_eq_visits (Display.xor_sprite g x y s).1 x y s
  have hfst1 : ∀ (r : Fin 32) (c : Fin 64), (Display.xor_sprite g x y s).1 r c
      = xor (g r c) (Display.parity (Display.visitsFrom x y 0 s) (r, c)) := by
    intro r c
    rw [hV1]
    exact Display.applyVisits_fst _ _ _ _
  have hfst2 : ∀ (r : Fin 32) (c : Fin 64),
      (Display.xor_sprite (Display.xor_sprite g x y s).1 x y s).1 r c
      = xor ((Display.xor_sprite g x y s).1 r c)
          (Display.parity (Display.visitsFrom x y 0 s) (r, c)) := by
    intro r c
    rw [hV2]
    exact Display.applyVisits_fst _ _ _ _
  constructor
  · intro r c
    rw [hfst2, hfst1, Bool.xor_assoc, Bool.xor_self, Bool.xor_false]
  · intro hs
    have hpw : (Display.visitsFrom x y 0 s).Pairwise (fun a b => a.1 ≠ b.1) :=
      Display.visits_pairwise x y s 0 (fun k1 k2 h1 h2 => by omega)
    have hsnd : (Display.xor_sprite (Display.xor_sprite g x y s).1 x y s).2
        = (Display.visitsFrom x y 0 s).any
            (fun v => v.2 && (Display.xor_sprite g x y s).1 v.1.1 v.1.2) := by
      rw [hV2, Display.applyVisits_snd _ hpw]
      exact Bool.false_or _
    rw [hsnd, List.any_eq_true]
    constructor
    · rintro ⟨v, hvmem, hv⟩
      obtain ⟨k, hk, i, hi, hveq⟩ := (Display.mem_visits_zero x y s v).mp hvmem
      subst hveq
      refine ⟨k, hk, i, hi, ?_⟩
      have hpar : Display.parity (Display.visitsFrom x y 0 s)
          (Display.cellY y k, Display.cellX x i) = Display.spriteBit (s.getD k 0) i :=
        Display.parity_of_mem _ hpw _ hvmem
      have hv0 : (Display.spriteBit (s.getD k 0) i &&
          (Display.xor_sprite g x y s).1 (Display.cellY y k) (Display.cellX x i)) = true := hv
      rw [hfst1, hpar] at hv0
      have hv' : (Display.spriteBit (s.getD k 0) i &&
          xor (g (Display.cellY y k) (Display.cellX x i)) (Display.spriteBit (s.getD k 0) i))
          = true := hv0
      cases hb : Display.spriteBit (s.getD k 0) i with
      | false => rw [hb] at hv'; simp at hv'
      | true =>
        rw [hb] at hv'
        cases hg : g (Display.cellY y k) (Display.cellX x i) with
        | false => exact ⟨rfl, rfl⟩
        | true => rw [hg] at hv'; simp at hv'
    · rintro ⟨k, hk, i, hi, hbit, hcellg⟩
      have hvmem : ((Display.cellY y k, Display.cellX x i), Display.spriteBit (s.getD k 0) i)
          ∈ Display.visitsFrom x y 0 s :=
        (Display.mem_visits_zero x y s _).mpr ⟨k, hk, i, hi, rfl⟩
      refine ⟨((Display.cellY y k, Display.cellX x i), Display.spriteBit (s.getD k 0) i),
        hvmem, ?_⟩
      have hpar : Display.parity (Display.visitsFrom x y 0 s)
          (Display.cellY y k, Display.cellX x i) = Display.spriteBit (s.getD k 0) i :=
        Display.parity_of_mem _ hpw _ hvmem
      show (Display.spriteBit (s.getD k 0) i &&
          (Display.xor_sprite g x y s).1 (Display.cellY y k) (Display.cellX x i)) = true
      rw [hfst1, hpar, hbit, hcellg]
      rfl

/-- C7 counterexample: with pixel (0,0) initially ON and the one-row sprite
`[0x80]` (a single on-bit at (0,0)), the second identical draw reports NO
collision, refuting "the second draw's collision flag is true whenever the
sprite contains any on-bit". -/
theorem c7_counterexample :
    Display.spriteBit 0x80 0 = true ∧
    (Display.xor_sprite
      (Display.xor_sprite (fun r c => r.val == 0 && c.val == 0) 0 0 [0x80]).1
      0 0 [0x80]).2 = false := by
  constructor
  · decide
  · decide

/-- C7 witness: the amended theorem applied to the all-off display, origin, and
the one-row sprite `[0x80]`. -/
theorem c7_amended_witness :
    (∀ (r : Fin 32) (c : Fin 64),
        (Display.xor_sprite (Display.xor_sprite Display.clear 0 0 [0x80]).1 0 0 [0x80]).1 r c
          = Display.clear r c)
  ∧ (([0x80] : List Nat).length ≤ 32 →
      ((Display.xor_sprite (Display.xor_sprite Display.clear 0 0 [0x80]).1 0 0 [0x80]).2 = true ↔
        ∃ k, k < ([0x80] : List Nat).length ∧ ∃ i, i < 8 ∧
          Display.spriteBit (([0x80] : List Nat).getD k 0) i = true ∧
          Display.clear (Display.cellY 0 k) (Display.cellX 0 i) = false)) :=
  c7_amended Display.clear 0 0 [0x80]

/-- C6 (corrected): DecodeError and stack underflow are NOT the only fatal
conditions.  Executing `SkpV` with a register value above 0xF aborts in
`Key::from`; `LdFV` with a register value above 15 aborts in
`calculate_digit_offset`; `Drw` with `I + n` beyond the 4096-byte memory
aborts on the slice — each modelled as the corresponding `Panic`. -/
theorem c6_amended :
    (∀ (e : Emulator) (g : Grid) (kb : Keyboard) (r : Nat),
      e.memory e.program_counter = 0xE0 → e.memory (e.program_counter + 1) = 0x9E →
      e.program_counter + 1 < Memory.MEMORY_SIZE → 16 ≤ e.registers 0 →
      Emulator.tick e g kb r = .error (.unsupportedKey (e.registers 0)))
  ∧ (∀ (e : Emulator) (g : Grid) (kb : Keyboard) (r : Nat),
      e.memory e.program_counter = 0xF0 → e.memory (e.program_counter + 1) = 0x29 →
      e.program_counter + 1 < Memory.MEMORY_SIZE → 16 ≤ e.registers 0 →
      Emulator.tick e g kb r = .error (.noSpriteForDigit (e.registers 0)))
  ∧ (∀ (e : Emulator) (g : Grid) (kb : Keyboard) (r : Nat),
      e.memory e.program_counter = 0xD0 → e.memory (e.program_counter + 1) = 0x01 →
      e.program_counter + 1 < Memory.MEMORY_SIZE → Memory.MEMORY_SIZE < e.i + 1 →
      Emulator.tick e g kb r = .error .indexOutOfBounds) := by
  refine ⟨fun e g kb r h1 h2 hpc hreg => ?_, fun e g kb r h1 h2 hpc hreg => ?_,
    fun e g kb r h1 h2 hpc hi => ?_⟩
  · rw [Emulator.tick_fetch e g kb r hpc, h1, h2]
    show Emulator.execute e g kb r 0xE09E = _
    have hn : ¬(e.registers 0 < 16) := by omega
    unfold Emulator.execute
    simp [Emulator.skp_v, Key.fromValue, hn, and15_eq_mod, and255_eq_mod]
  · rw [Emulator.tick_fetch e g kb r hpc, h1, h2]
    show Emulator.execute e g kb r 0xF029 = _
    have hn : ¬(e.registers 0 < Memory.DIGIT_AMOUNT) := by
      simp only [Memory.DIGIT_AMOUNT]
      omega
    unfold Emulator.execute
    simp [Emulator.ld_f_v, Memory.calculate_digit_offset, hn, and15_eq_mod, and255_eq_mod]
  · rw [Emulator.tick_fetch e g kb r hpc, h1, h2]
    show Emulator.execute e g kb r 0xD001 = _
    have hn : ¬(e.i + 1 ≤ Memory.MEMORY_SIZE) := by
      simp only [Memory.MEMORY_SIZE] at hi ⊢
      omega
    unfold Emulator.execute
    simp [Emulator.drw, Memory.get_sprite, hn, and15_eq_mod, and255_eq_mod]

/-- C6 counterexample: a concrete reachable state executing the documented
opcode `SkpV` (word `0xE09E`) with V0 = 16 aborts with an `Unsupported key`
panic — a fatal condition that is neither a DecodeError nor a stack
underflow. -/
theorem c6_counterexample :
    Emulator.tick ⟨Memory.ofPairs [(0x200, 0xE0), (0x201, 0x9E)],
        (fun r => if r = 0 then 16 else 0), 0, 0, 0, 0x200, []⟩
      Display.clear (fun _ => false) 0
    = .error (.unsupportedKey 16) := by
  rfl

/-- C6 witness: the amended theorem's `SkpV` part applied to the concrete
state of the counterexample. -/
theorem c6_amended_witness :
    Emulator.tick ⟨Memory.ofPairs [(0x200, 0xE0), (0x201, 0x9E)],
        (fun r => if r = 0 then 16 else 0), 0, 0, 0, 0x201 - 1, []⟩
      Display.clear (fun _ => false) 0
    = .error (.unsupportedKey 16) :=
  c6_amended.1 ⟨Memory.ofPairs [(0x200, 0xE0), (0x201, 0x9E)],
      (fun r => if r = 0 then 16 else 0), 0, 0, 0, 0x201 - 1, []⟩
    Display.clear (fun _ => false) 0 (by decide) (by decide) (by decide) (by decide)

/-- C8 (corrected): `add_v_v` advances the program counter by 2 and, for
`vx ≠ 0xF`, sets VF to the carry of the unbounded sum and Vx to the wrapped
sum; for `vx = 0xF` the subsequent result write overwrites the just-written
carry flag, leaving VF equal to the wrapped sum instead — the claim's
"including x = 0xF" case fails. -/
theorem c8_amended (e : Emulator) (w : Nat) :
    ((Emulator.add_v_v e w).2 = e.program_counter + 2)
  ∧ ((w >>> 8) &&& 0xF ≠ 0xF →
      (Emulator.add_v_v e w).1.registers 0xF
          = (if 256 ≤ e.registers ((w >>> 8) &&& 0xF) + e.registers ((w >>> 4) &&& 0xF)
             then 1 else 0)
      ∧ (Emulator.add_v_v e w).1.registers ((w >>> 8) &&& 0xF)
          = (e.registers ((w >>> 8) &&& 0xF) + e.registers ((w >>> 4) &&& 0xF)) % 256)
  ∧ ((w >>> 8) &&& 0xF = 0xF →
      (Emulator.add_v_v e w).1.registers 0xF
          = (e.registers 0xF + e.registers ((w >>> 4) &&& 0xF)) % 256) := by
  refine ⟨rfl, fun hne => ⟨?_, ?_⟩, fun heq => ?_⟩
  · show Function.update (Function.update e.registers 0xF _) ((w >>> 8) &&& 0xF) _ 0xF = _
    rw [Function.update_apply, if_neg (fun hc => hne hc.symm), Function.update_same]
  · show Function.update (Function.update e.registers 0xF _) ((w >>> 8) &&& 0xF) _
        ((w >>> 8) &&& 0xF) = _
    rw [Function.update_same]
  · show Function.update (Function.update e.registers 0xF _) ((w >>> 8) &&& 0xF) _ 0xF = _
    rw [heq, Function.update_same]

/-- C8 counterexample: word `0x8F04` (AddVV with x = 0xF), VF = V0 = 200: the
sum 400 carries, yet the final VF is the wrapped sum 144, not the claimed 1. -/
theorem c8_counterexample :
    256 ≤ (200 : Nat) + 200 ∧
    (Emulator.add_v_v
        ⟨Memory.ofPairs [], fun r => if r = 0xF then 200 else if r = 0 then 200 else 0,
         0, 0, 0, 0x200, []⟩ 0x8F04).1.registers 0xF = 144 ∧
    (144 : Nat) ≠ 1 := by
  refine ⟨by norm_num, ?_, by norm_num⟩
  decide

/-- C8 witness: the amended theorem applied at V1 = 200, V2 = 100 and word
`0x8124` (AddVV V1 += V2, x = 1 ≠ 0xF): VF = 1 and V1 = 44. -/
theorem c8_amended_witness :
    (Emulator.add_v_v
        ⟨Memory.ofPairs [], fun r => if r = 1 then 200 else if r = 2 then 100 else 0,
         0, 0, 0, 0x200, []⟩ 0x8124).2 = 0x200 + 2
  ∧ ((Emulator.add_v_v
        ⟨Memory.ofPairs [], fun r => if r = 1 then 200 else if r = 2 then 100 else 0,
         0, 0, 0, 0x200, []⟩ 0x8124).1.registers 0xF
      = (if 256 ≤ (200 : Nat) + 100 then 1 else 0)) := by
  refine ⟨(c8_amended _ 0x8124).1, ?_⟩
  have h := ((c8_amended
      ⟨Memory.ofPairs [], fun r => if r = 1 then 200 else if r = 2 then 100 else 0,
       0, 0, 0, 0x200, []⟩ 0x8124).2.1 (by decide)).1
  rw [h]
  decide

/-- C1 (code_bug): decode failure and `Ret` on an empty call stack do NOT
propagate as recoverable result values in this revision: `tick` hits
`panic!("Unknown instruction ...")` and `expect("No subroutine to return
from")`, both process aborts (modelled by `Panic`); `tick` returns `()` in the
source, so there is no error value for the driving loop at all (`main.rs`
already calls `emulator.tick(...)?`, which does not compile against this
emulator).  This theorem evaluates the code at the two failing inputs: the
undecodable word `0x0000`, and `0x00EE` with an empty stack. -/
theorem c1_step_aborts_instead_of_returning_errors :
    Emulator.tick ⟨Memory.ofPairs [], fun _ => 0, 0, 0, 0, 0x200, []⟩
        Display.clear (fun _ => false) 0
      = .error (.unknownInstruction 0x0000)
  ∧ Emulator.tick ⟨Memory.ofPairs [(0x200, 0x00), (0x201, 0xEE)], fun _ => 0, 0, 0, 0, 0x200, []⟩
        Display.clear (fun _ => false) 0
      = .error .noSubroutineToReturnFrom := by
  exact ⟨rfl, rfl⟩

/-- C2 (code_bug): the executor's `0x8xy_` dispatch has only EIGHT sub-cases
(0-6 and E): the word `0x8127` (SubnVV V1, V2), which both decoders in the
repository decode as `SubnVV`, makes `tick` abort with `Unknown instruction`
instead of executing the documented VF := (Vy ≥ Vx), Vx := (Vy − Vx) mod 256
semantics. -/
theorem c2_subnvv_unknown_to_executor :
    Emulator.tick ⟨Memory.ofPairs [(0x200, 0x81), (0x201, 0x27)], fun _ => 0, 0, 0, 0, 0x200, []⟩
        Display.clear (fun _ => false) 0
      = .error (.unknownInstruction 0x8127)
  ∧ Command.try_from 0x8127 = .ok (.SubnVV 1 2)
  ∧ Instruction.try_from 0x8127 = .ok (.SubnVV 1 2) := by
  exact ⟨rfl, by decide, by decide⟩

/-- C3 (code_bug): `tick` has no `0xBnnn` arm, so the word `0xB123` (JpV0),
which both decoders decode, falls to the catch-all `panic!` instead of setting
`pc = addr + V0`. -/
theorem c3_jpv0_unknown_to_executor :
    Emulator.tick ⟨Memory.ofPairs [(0x200, 0xB1), (0x201, 0x23)], fun _ => 0, 0, 0, 0, 0x200, []⟩
        Display.clear (fun _ => false) 0
      = .error (.unknownInstruction 0xB123)
  ∧ Instruction.try_from 0xB123 = .ok (.JpV 0x123)
  ∧ Command.try_from 0xB123 = .ok (.JpV0 0x123) := by
  exact ⟨rfl, by decide, by decide⟩

/-- C4 (code_bug): both decoders reject `0x9011` (family 0x9 with nonzero low
nibble), but `tick`'s `0x9xxx` arm has no low-nibble guard (its `0x5xxx` arm
does) and silently executes the word as `SneVV`: with V0 = V1 the program
counter advances by 2. -/
theorem c4_sne_vv_executes_bad_low_nibble :
    Emulator.tick ⟨Memory.ofPairs [(0x200, 0x90), (0x201, 0x11)], fun _ => 0, 0, 0, 0, 0x200, []⟩
        Display.clear (fun _ => false) 0
      = .ok (⟨Memory.ofPairs [(0x200, 0x90), (0x201, 0x11)], fun _ => 0, 0, 0, 0, 0x202, []⟩,
          Display.clear)
  ∧ Instruction.try_from 0x9011 = .error 0x9011
  ∧ Command.try_from 0x9011 = .error "Unknown command" := by
  exact ⟨rfl, by decide, by decide⟩

/-- C5 (corrected): both decoders succeed exactly on the documented opcode
table; off the table `Instruction::try_from`'s error carries the exact
offending word, but `Command::try_from`'s error is the constant string
`Unknown command`, which does not name the word. -/
theorem c5_amended (w : Nat) :
    ((Instruction.try_from w).isOk = true ↔ specOpcodeTable w)
  ∧ ((Command.try_from w).isOk = true ↔ specOpcodeTable w)
  ∧ (¬ specOpcodeTable w →
      Instruction.try_from w = .error w ∧ Command.try_from w = .error "Unknown command") := by
  by_cases ht : specOpcodeTable w
  · obtain ⟨ins, hi, hc⟩ := (decoders_characterized w).1 ht
    exact ⟨iff_of_true (by rw [hi]; rfl) ht, iff_of_true (by rw [hc]; rfl) ht,
      fun hn => absurd ht hn⟩
  · obtain ⟨hi, hc⟩ := (decoders_characterized w).2 ht
    exact ⟨iff_of_false (by rw [hi]; exact Bool.false_ne_true) ht,
      iff_of_false (by rw [hc]; exact Bool.false_ne_true) ht,
      fun _ => ⟨hi, hc⟩⟩

/-- C5 counterexample: two different invalid words produce the identical
constant `Command::try_from` error value, so that error's payload cannot name
the offending word. -/
theorem c5_counterexample :
    Command.try_from 0x5001 = .error "Unknown command"
  ∧ Command.try_from 0x9002 = .error "Unknown command"
  ∧ (0x5001 : Nat) ≠ 0x9002 := by
  exact ⟨by decide, by decide, by decide⟩

/-- C5 witness: the amended theorem applied at the off-table word `0x5001`. -/
theorem c5_amended_witness :
    ¬ specOpcodeTable 0x5001
  ∧ (Instruction.try_from 0x5001 = .error 0x5001
      ∧ Command.try_from 0x5001 = .error "Unknown command") :=
  ⟨by decide, (c5_amended 0x5001).2.2 (by decide)⟩

/-- C10 (confirmed): the two decoders are equivalent — for every 16-bit word
(indeed every `Nat`) they succeed on exactly the same words, and on success
`Command::try_from` returns precisely the `Command` counterpart of the
`Instruction` (same constructor and identical numeric fields, with
`JpV ↔ JpV0` and `Drw ↔ DrwVV` as the name correspondences). -/
theorem c10_decoders_equivalent (w : Nat) :
    (Command.try_from w).toOption = (Instruction.try_from w).toOption.map Command.ofInstruction := by
  by_cases ht : specOpcodeTable w
  · obtain ⟨ins, hi, hc⟩ := (decoders_characterized w).1 ht
    rw [hi, hc]
    rfl
  · obtain ⟨hi, hc⟩ := (decoders_characterized w).2 ht
    rw [hi, hc]
    rfl
